import Mathlib

/-!
The authentication and session engine of go-gin-api.

A shallow embedding of `entity/`, `repository/`, `service/auth.go` and the
`ForgotPassword` handler of `controller/auth.go`.

* The database is a value of type `DB`: three tables, each a list of rows kept
  in primary-key order (a query ending in `First` orders by primary key, so it
  is `List.find?` on such a list; `Create` appends a row whose key is larger
  than every key present).
* Every service operation is a function `Env → DB → request → result × DB`.
  `Env` carries everything the Go code obtains from outside the database:
  the successive readings of `time.Now()`, the outcome of `crypto/rand.Read`,
  the two `bcrypt` functions, and, for each database call of the operation (numbered in
  program order), whether that call fails with a storage error and what the clock of the
  ORM reads during it.
* A Go `error` is represented by its message (`err.Error()`), which is all the
  controller ever looks at.
* Times are integers (nanoseconds); `t.After(u)` is `u < t`.
* The column `UpdatedAt` of a session (tag `autoUpdateTime`) is part of the row: the ORM
  sets it to its clock reading in every `Create`, `Save` and `Update` on the table.
  The other ORM-maintained columns are left out of the rows: `CreatedAt` of the three
  tables, set at insertion and kept by every later write; `DeletedAt` of `users`, never set;
  and `UpdatedAt` of `users`, which the `Save` of `ResetPassword` sets, the one write to an
  existing account row. No function of the repository reads any of them.
-/

namespace GoGinApi

deriving instance DecidableEq for Except

/-! ## entity -/

/-- Row of table `users` (`entity/user.go`). -/
structure User where
  ID : Nat
  Username : String
  Email : String
  Password : String
  FirstName : String
  LastName : String
  Phone : String
  Avatar : String
  Status : String
  Role : String
deriving DecidableEq, Repr

/-- Row of table `sessions` (`entity/session.go`). -/
structure Session where
  ID : Nat
  UserID : Nat
  Token : String
  IPAddress : String
  UserAgent : String
  Device : String
  Platform : String
  Status : String
  ExpiresAt : Int
  LastUsedAt : Option Int
  UpdatedAt : Int
deriving DecidableEq, Repr

/-- Row of table `password_reset_tokens` (`entity/password_reset_token.go`). -/
structure PasswordResetToken where
  ID : Nat
  UserID : Nat
  Token : String
  ExpiresAt : Int
  Used : Bool
deriving DecidableEq, Repr

/-- The Go constant `time.Hour`, in nanoseconds. -/
def Hour : Int := 3600000000000

/-- The method `Session.IsExpired`: `time.Now().After(s.ExpiresAt)`. -/
def Session.IsExpired (s : Session) (now : Int) : Bool :=
  decide (s.ExpiresAt < now)

/-- The method `Session.IsActive`: `s.Status == "active" && !s.IsExpired()`. -/
def Session.IsActive (s : Session) (now : Int) : Bool :=
  s.Status == "active" && !s.IsExpired now

/-- The method `PasswordResetToken.IsExpired`: `time.Now().After(p.ExpiresAt)`. -/
def PasswordResetToken.IsExpired (p : PasswordResetToken) (now : Int) : Bool :=
  decide (p.ExpiresAt < now)

/-- The method `PasswordResetToken.IsValid`: `!p.Used && !p.IsExpired()`. -/
def PasswordResetToken.IsValid (p : PasswordResetToken) (now : Int) : Bool :=
  !p.Used && !p.IsExpired now

/-! ## The database and the environment -/

/-- The three tables migrated in `server.go`. -/
structure DB where
  users : List User
  sessions : List Session
  password_reset_tokens : List PasswordResetToken
deriving DecidableEq, Repr

/-- Everything an operation obtains from outside the database. -/
structure Env where
  /-- The `k`-th reading of `time.Now()` made by the operation. -/
  clock : Nat → Int
  /-- When `fault k = some msg`, the `k`-th database call of the operation fails with storage
  error `msg` (not `gorm.ErrRecordNotFound`) and has no effect. -/
  fault : Nat → Option String
  /-- Outcome of `rand.Read`: an error, or the bytes (taken modulo 256). -/
  rand : Except String (Nat → Nat)
  /-- The function `bcrypt.GenerateFromPassword(password, bcrypt.DefaultCost)`. -/
  GenerateFromPassword : String → Except String String
  /-- The function `bcrypt.CompareHashAndPassword(hash, password) == nil`. -/
  CompareHashAndPassword : String → String → Bool
  /-- The reading of the clock of the ORM (`NowFunc`) during the `k`-th database call of the
  operation; it is what an insert or update of a session writes to `UpdatedAt`. -/
  dbClock : Nat → Int

/-- The environment seen by a nested call that starts after `k` database calls. -/
def Env.skipFaults (env : Env) (k : Nat) : Env :=
  { env with fault := fun i => env.fault (i + k), dbClock := fun i => env.dbClock (i + k) }

/-- The primary key given to an inserted row: larger than every key present. -/
def nextID (ids : List Nat) : Nat :=
  ids.foldr max 0 + 1

/-! ## service: generateToken -/

/-- The table `hextable` of `encoding/hex`. -/
def hextable : List Char := "0123456789abcdef".toList

/-- The function `hex.EncodeToString`. -/
def EncodeToString (bytes : List Nat) : String :=
  String.mk (bytes.flatMap fun v => [hextable.getD (v / 16) '0', hextable.getD (v % 16) '0'])

/-- The function `generateToken`: 32 random bytes, hex encoded. -/
def generateToken (rand : Except String (Nat → Nat)) : Except String String :=
  match rand with
  | .error err => .error err
  | .ok bytes => .ok (EncodeToString ((List.range 32).map fun i => bytes i % 256))

/-! ## repository -/

namespace userRepository

/-- The method `FindByID`: `db.First(&user, id)`. -/
def FindByID (fault : Option String) (db : DB) (id : Nat) : Except String User :=
  match fault with
  | some err => .error err
  | none =>
    match db.users.find? (fun u => u.ID == id) with
    | none => .error "user does not exist"
    | some u => .ok u

/-- The method `FindByEmail`: `db.Where("email = ?", email).First(&user)`. -/
def FindByEmail (fault : Option String) (db : DB) (email : String) : Except String User :=
  match fault with
  | some err => .error err
  | none =>
    match db.users.find? (fun u => u.Email == email) with
    | none => .error "user does not exist"
    | some u => .ok u

/-- The method `FindByUsernameOrEmail`: `db.Where("username = ? OR email = ?", x, x).First(&user)`. -/
def FindByUsernameOrEmail (fault : Option String) (db : DB) (usernameOrEmail : String) :
    Except String User :=
  match fault with
  | some err => .error err
  | none =>
    match db.users.find? (fun u => u.Username == usernameOrEmail || u.Email == usernameOrEmail) with
    | none => .error "user does not exist"
    | some u => .ok u

/-- The method `Exists`: `(true, &user, nil)` is `.ok (some user)`, `(false, nil, nil)` is `.ok none`. -/
def Exists (fault : Option String) (db : DB) (username email : String) :
    Except String (Option User) :=
  match fault with
  | some err => .error err
  | none => .ok (db.users.find? (fun u => u.Username == username || u.Email == email))

/-- The method `Create`: `db.Create(user)`. The caller passes `ID = 0`, the database assigns the key and
fills it in; the unique indexes on `username` and `email` reject a duplicate. -/
def Create (fault : Option String) (db : DB) (user : User) : Except String User × DB :=
  match fault with
  | some err => (.error err, db)
  | none =>
    if db.users.any (fun u => u.Username == user.Username) then
      (.error "UNIQUE constraint failed: users.username", db)
    else if db.users.any (fun u => u.Email == user.Email) then
      (.error "UNIQUE constraint failed: users.email", db)
    else
      let user1 := { user with ID := nextID (db.users.map (fun u => u.ID)) }
      (.ok user1, { db with users := db.users ++ [user1] })

/-- The method `Update`: `db.Save(user)`, a whole-row replace by primary key. -/
def Update (fault : Option String) (db : DB) (user : User) : Except String Unit × DB :=
  match fault with
  | some err => (.error err, db)
  | none => (.ok (), { db with users := db.users.map fun u => if u.ID == user.ID then user else u })

end userRepository

namespace sessionRepository

/-- The method `FindByToken`: `db.Where("token = ?", token).First(&session)`. -/
def FindByToken (fault : Option String) (db : DB) (token : String) : Except String Session :=
  match fault with
  | some err => .error err
  | none =>
    match db.sessions.find? (fun s => s.Token == token) with
    | none => .error "session does not exist"
    | some s => .ok s

/-- The method `Create`: `db.Create(session)`; the unique index on `token` rejects a duplicate.
The caller passes `ID = 0` and a zero `UpdatedAt`; the database assigns the key and the ORM
sets `UpdatedAt` to `now`, its clock reading, both also in the caller's struct. -/
def Create (fault : Option String) (now : Int) (db : DB) (session : Session) :
    Except String Session × DB :=
  match fault with
  | some err => (.error err, db)
  | none =>
    if db.sessions.any (fun s => s.Token == session.Token) then
      (.error "UNIQUE constraint failed: sessions.token", db)
    else
      let session1 :=
        { session with ID := nextID (db.sessions.map (fun s => s.ID)), UpdatedAt := now }
      (.ok session1, { db with sessions := db.sessions ++ [session1] })

/-- The method `Update`: `db.Save(session)`, a whole-row replace by primary key, in which the
ORM sets `UpdatedAt` to `now`, its clock reading. -/
def Update (fault : Option String) (now : Int) (db : DB) (session : Session) :
    Except String Unit × DB :=
  match fault with
  | some err => (.error err, db)
  | none =>
    (.ok (), { db with sessions := db.sessions.map fun s =>
      if s.ID == session.ID then { session with UpdatedAt := now } else s })

/-- The method `UpdateLastUsedAt`: `Model(&Session{}).Where("id = ?", id).Update("last_used_at", &t)`.
The ORM adds `updated_at = now`, its clock reading, to the update. -/
def UpdateLastUsedAt (fault : Option String) (now : Int) (db : DB) (sessionID : Nat)
    (lastUsedAt : Int) : Except String Unit × DB :=
  match fault with
  | some err => (.error err, db)
  | none =>
    (.ok (), { db with sessions := db.sessions.map fun s =>
      if s.ID == sessionID then { s with LastUsedAt := some lastUsedAt, UpdatedAt := now } else s })

/-- The method `UpdateStatusByUserID`:
`Model(&Session{}).Where("user_id = ? AND status = ?", userID, "active").Update("status", status)`.
The ORM adds `updated_at = now`, its clock reading, to the update. -/
def UpdateStatusByUserID (fault : Option String) (now : Int) (db : DB) (userID : Nat)
    (status : String) : Except String Unit × DB :=
  match fault with
  | some err => (.error err, db)
  | none =>
    (.ok (), { db with sessions := db.sessions.map fun s =>
      if s.UserID == userID && s.Status == "active" then
        { s with Status := status, UpdatedAt := now }
      else s })

end sessionRepository

namespace passwordResetTokenRepository

/-- The method `FindByToken`: `db.Where("token = ?", token).First(&resetToken)`. -/
def FindByToken (fault : Option String) (db : DB) (token : String) :
    Except String PasswordResetToken :=
  match fault with
  | some err => .error err
  | none =>
    match db.password_reset_tokens.find? (fun t => t.Token == token) with
    | none => .error "reset token invalid"
    | some t => .ok t

/-- The method `Create`: `db.Create(token)`; the unique index on `token` rejects a duplicate. -/
def Create (fault : Option String) (db : DB) (token : PasswordResetToken) :
    Except String PasswordResetToken × DB :=
  match fault with
  | some err => (.error err, db)
  | none =>
    if db.password_reset_tokens.any (fun t => t.Token == token.Token) then
      (.error "UNIQUE constraint failed: password_reset_tokens.token", db)
    else
      let token1 := { token with ID := nextID (db.password_reset_tokens.map (fun t => t.ID)) }
      (.ok token1, { db with password_reset_tokens := db.password_reset_tokens ++ [token1] })

/-- The method `Update`: `db.Save(token)`, a whole-row replace by primary key. -/
def Update (fault : Option String) (db : DB) (token : PasswordResetToken) :
    Except String Unit × DB :=
  match fault with
  | some err => (.error err, db)
  | none =>
    (.ok (), { db with password_reset_tokens :=
      db.password_reset_tokens.map fun t => if t.ID == token.ID then token else t })

end passwordResetTokenRepository

/-! ## service -/

/-- The struct `SignupRequest`. -/
structure SignupRequest where
  Username : String
  Email : String
  Password : String
  FirstName : String
  LastName : String
  Phone : String
deriving DecidableEq, Repr

/-- The struct `SignupResponse`. -/
structure SignupResponse where
  User : User
  Message : String
deriving DecidableEq, Repr

/-- The struct `SigninRequest`. -/
structure SigninRequest where
  Username : String
  Password : String
deriving DecidableEq, Repr

/-- The struct `SigninResponse`. -/
structure SigninResponse where
  User : User
  Session : Session
  Token : String
  Message : String
deriving DecidableEq, Repr

/-- The struct `ForgotPasswordRequest`. -/
structure ForgotPasswordRequest where
  Email : String
deriving DecidableEq, Repr

/-- The struct `ResetPasswordRequest`. -/
structure ResetPasswordRequest where
  Token : String
  NewPassword : String
deriving DecidableEq, Repr

namespace AuthService

set_option linter.unusedVariables false in
/-- The method `AuthService.Signup`. Database calls: 0 `Exists`, 1 `Create`. -/
def Signup (env : Env) (db : DB) (req : SignupRequest) (ipAddress userAgent : String) :
    Except String SignupResponse × DB :=
  match userRepository.Exists (env.fault 0) db req.Username req.Email with
  | .error err => (.error ("failed to query user: " ++ err), db)
  | .ok found =>
    -- the two early returns inside `if exists`
    let conflict : Option String :=
      match found with
      | some existingUser =>
        if existingUser.Username == req.Username then some "username already exists"
        else if existingUser.Email == req.Email then some "email already registered"
        else none
      | none => none
    match conflict with
    | some msg => (.error msg, db)
    | none =>
      match env.GenerateFromPassword req.Password with
      | .error err => (.error ("password encryption failed: " ++ err), db)
      | .ok hashedPassword =>
        let user : User :=
          { ID := 0, Username := req.Username, Email := req.Email, Password := hashedPassword,
            FirstName := req.FirstName, LastName := req.LastName, Phone := req.Phone,
            Avatar := "", Status := "active", Role := "user" }
        match userRepository.Create (env.fault 1) db user with
        | (.error err, db1) => (.error ("failed to create user: " ++ err), db1)
        | (.ok user1, db1) => (.ok { User := user1, Message := "Registration successful" }, db1)

/-- The method `AuthService.Signin`. Database calls: 0 `FindByUsernameOrEmail`, 1 `Create`.
Clock readings: 0 `now := time.Now()`, 1 the `time.Now()` inside `ExpiresAt`. -/
def Signin (env : Env) (db : DB) (req : SigninRequest) (ipAddress userAgent : String) :
    Except String SigninResponse × DB :=
  match userRepository.FindByUsernameOrEmail (env.fault 0) db req.Username with
  | .error _ => (.error "username or password incorrect", db)
  | .ok user =>
    if user.Status != "active" then (.error "account has been disabled", db)
    else if !env.CompareHashAndPassword user.Password req.Password then
      (.error "username or password incorrect", db)
    else
      match generateToken env.rand with
      | .error err => (.error ("failed to generate token: " ++ err), db)
      | .ok token =>
        let now := env.clock 0
        let session : Session :=
          { ID := 0, UserID := user.ID, Token := token, IPAddress := ipAddress,
            UserAgent := userAgent, Device := "", Platform := "", Status := "active",
            ExpiresAt := env.clock 1 + 24 * 7 * Hour, LastUsedAt := some now, UpdatedAt := 0 }
        match sessionRepository.Create (env.fault 1) (env.dbClock 1) db session with
        | (.error err, db1) => (.error ("failed to create session: " ++ err), db1)
        | (.ok session1, db1) =>
          (.ok { User := { user with Password := "" }, Session := session1, Token := token,
                 Message := "Login successful" }, db1)

/-- The method `AuthService.Logout`. Database calls: 0 `FindByToken`, 1 `Update`. -/
def Logout (env : Env) (db : DB) (token : String) : Except String Unit × DB :=
  match sessionRepository.FindByToken (env.fault 0) db token with
  | .error err => (.error err, db)
  | .ok session =>
    match sessionRepository.Update (env.fault 1) (env.dbClock 1) db
        { session with Status := "logout" } with
    | (.error err, db1) => (.error ("failed to update session status: " ++ err), db1)
    | (.ok _, db1) => (.ok (), db1)

/-- The method `AuthService.LogoutAll`. Database calls: 0 `UpdateStatusByUserID`. -/
def LogoutAll (env : Env) (db : DB) (userID : Nat) : Except String Unit × DB :=
  match sessionRepository.UpdateStatusByUserID (env.fault 0) (env.dbClock 0) db userID
      "logout" with
  | (.error err, db1) => (.error ("failed to logout all sessions: " ++ err), db1)
  | (.ok _, db1) => (.ok (), db1)

/-- The method `AuthService.ForgotPassword`. Database calls: 0 `FindByEmail`, 1 `Create`.
Clock readings: 0 the `time.Now()` inside `ExpiresAt`. -/
def ForgotPassword (env : Env) (db : DB) (req : ForgotPasswordRequest) : Except String String × DB :=
  match userRepository.FindByEmail (env.fault 0) db req.Email with
  | .error _ => (.ok "If the email exists, reset link has been sent", db)
  | .ok user =>
    match generateToken env.rand with
    | .error err => (.error ("failed to generate reset token: " ++ err), db)
    | .ok token =>
      let resetToken : PasswordResetToken :=
        { ID := 0, UserID := user.ID, Token := token, ExpiresAt := env.clock 0 + 1 * Hour,
          Used := false }
      match passwordResetTokenRepository.Create (env.fault 1) db resetToken with
      | (.error err, db1) => (.error ("failed to create reset token: " ++ err), db1)
      | (.ok _, db1) => (.ok token, db1)

/-- The method `AuthService.ResetPassword`. Database calls: 0 `FindByToken`, 1 `FindByID`,
2 `userRepo.Update`, 3 `passwordResetTokenRepo.Update`, 4 the call made by `LogoutAll`.
Clock readings: 0 the `time.Now()` of the expiry check. -/
def ResetPassword (env : Env) (db : DB) (req : ResetPasswordRequest) : Except String Unit × DB :=
  match passwordResetTokenRepository.FindByToken (env.fault 0) db req.Token with
  | .error err => (.error err, db)
  | .ok resetToken =>
    if resetToken.Used then (.error "reset token has been used", db)
    else if decide (resetToken.ExpiresAt < env.clock 0) then (.error "reset token has expired", db)
    else
      match userRepository.FindByID (env.fault 1) db resetToken.UserID with
      | .error _ => (.error "user does not exist", db)
      | .ok user =>
        match env.GenerateFromPassword req.NewPassword with
        | .error err => (.error ("password encryption failed: " ++ err), db)
        | .ok hashedPassword =>
          match userRepository.Update (env.fault 2) db { user with Password := hashedPassword } with
          | (.error err, db1) => (.error ("failed to update password: " ++ err), db1)
          | (.ok _, db1) =>
            match passwordResetTokenRepository.Update (env.fault 3) db1
                { resetToken with Used := true } with
            | (.error err, db2) => (.error ("failed to update token status: " ++ err), db2)
            | (.ok _, db2) =>
              -- the error of `LogoutAll` is ignored
              (.ok (), (LogoutAll (env.skipFaults 4) db2 user.ID).2)

/-- The method `AuthService.ValidateToken`. Database calls: 0 `FindByToken`, 1 `UpdateLastUsedAt`,
2 `FindByID`. Clock readings: 0 inside `session.IsActive()`, 1 `now := time.Now()`. -/
def ValidateToken (env : Env) (db : DB) (token : String) : Except String (Session × User) × DB :=
  match sessionRepository.FindByToken (env.fault 0) db token with
  | .error err => (.error err, db)
  | .ok session =>
    if !session.IsActive (env.clock 0) then (.error "session has expired", db)
    else
      -- the error of `UpdateLastUsedAt` is ignored
      let db1 := (sessionRepository.UpdateLastUsedAt (env.fault 1) (env.dbClock 1) db session.ID
        (env.clock 1)).2
      match userRepository.FindByID (env.fault 2) db1 session.UserID with
      | .error _ => (.error "user does not exist", db1)
      | .ok user =>
        if user.Status != "active" then (.error "user has been disabled", db1)
        else (.ok (session, { user with Password := "" }), db1)

end AuthService

/-! ## controller -/

/-- What `c.JSON(code, gin.H{key: value})` sends. -/
structure Response where
  code : Nat
  body : List (String × String)
deriving DecidableEq, Repr

namespace AuthController

/-- The method `AuthController.ForgotPassword`; `bound` is the outcome of `c.ShouldBindJSON(&req)`. -/
def ForgotPassword (env : Env) (db : DB) (bound : Except String ForgotPasswordRequest) :
    Response × DB :=
  match bound with
  | .error err => ({ code := 400, body := [("error", "Invalid request parameters: " ++ err)] }, db)
  | .ok req =>
    match AuthService.ForgotPassword env db req with
    | (.error err, db1) => ({ code := 400, body := [("error", err)] }, db1)
    | (.ok message, db1) => ({ code := 200, body := [("message", message)] }, db1)

end AuthController

/-! ## Runs of the engine -/

/-- One call of an engine operation. -/
inductive Op where
  | signup (req : SignupRequest) (ipAddress userAgent : String)
  | signin (req : SigninRequest) (ipAddress userAgent : String)
  | logout (token : String)
  | logoutAll (userID : Nat)
  | forgotPassword (req : ForgotPasswordRequest)
  | resetPassword (req : ResetPasswordRequest)
  | validateToken (token : String)

/-- The database after one call. -/
def step (db : DB) (call : Env × Op) : DB :=
  match call.2 with
  | .signup req ip ua => (AuthService.Signup call.1 db req ip ua).2
  | .signin req ip ua => (AuthService.Signin call.1 db req ip ua).2
  | .logout token => (AuthService.Logout call.1 db token).2
  | .logoutAll userID => (AuthService.LogoutAll call.1 db userID).2
  | .forgotPassword req => (AuthService.ForgotPassword call.1 db req).2
  | .resetPassword req => (AuthService.ResetPassword call.1 db req).2
  | .validateToken token => (AuthService.ValidateToken call.1 db token).2

/-- The database after a sequence of calls, each with its own environment. -/
def run (db : DB) (calls : List (Env × Op)) : DB :=
  calls.foldl step db

/-- The invariants the schema enforces: primary keys increase along each table, and the
unique indexes on `users.username`, `users.email`, `sessions.token` and
`password_reset_tokens.token` hold. -/
def DB.WF (db : DB) : Prop :=
  (db.users.map fun u => u.ID).Pairwise (· < ·) ∧
  (db.sessions.map fun s => s.ID).Pairwise (· < ·) ∧
  (db.password_reset_tokens.map fun t => t.ID).Pairwise (· < ·) ∧
  (db.users.map fun u => u.Username).Nodup ∧
  (db.users.map fun u => u.Email).Nodup ∧
  (db.sessions.map fun s => s.Token).Nodup ∧
  (db.password_reset_tokens.map fun t => t.Token).Nodup

instance (db : DB) : Decidable db.WF := by
  unfold DB.WF; infer_instance

/-- One successful write of a repository function, as the service uses it. -/
inductive Mutation : DB → DB → Prop where
  | createUser (db : DB) (u : User) (hid : u.ID = nextID (db.users.map fun v => v.ID))
      (hname : ∀ v ∈ db.users, v.Username ≠ u.Username)
      (hmail : ∀ v ∈ db.users, v.Email ≠ u.Email) :
      Mutation db { db with users := db.users ++ [u] }
  | saveUser (db : DB) (u : User) (password : String) (hu : u ∈ db.users) :
      Mutation db (userRepository.Update none db { u with Password := password }).2
  | createSession (db : DB) (s : Session) (hid : s.ID = nextID (db.sessions.map fun r => r.ID))
      (htoken : ∀ r ∈ db.sessions, r.Token ≠ s.Token) :
      Mutation db { db with sessions := db.sessions ++ [s] }
  | saveSession (db : DB) (s : Session) (now : Int) (hs : s ∈ db.sessions) :
      Mutation db (sessionRepository.Update none now db { s with Status := "logout" }).2
  | updateLastUsedAt (db : DB) (sessionID : Nat) (lastUsedAt now : Int) :
      Mutation db (sessionRepository.UpdateLastUsedAt none now db sessionID lastUsedAt).2
  | updateStatus (db : DB) (userID : Nat) (now : Int) :
      Mutation db (sessionRepository.UpdateStatusByUserID none now db userID "logout").2
  | createToken (db : DB) (t : PasswordResetToken)
      (hid : t.ID = nextID (db.password_reset_tokens.map fun r => r.ID))
      (htoken : ∀ r ∈ db.password_reset_tokens, r.Token ≠ t.Token) :
      Mutation db { db with password_reset_tokens := db.password_reset_tokens ++ [t] }
  | saveToken (db : DB) (t : PasswordResetToken) (ht : t ∈ db.password_reset_tokens) :
      Mutation db (passwordResetTokenRepository.Update none db { t with Used := true }).2

/-- A table evolves: every row present before is still there, in the same place, related to
its former self by `R`; rows may have been added at the end. -/
inductive Grows {α : Type} (R : α → α → Prop) : List α → List α → Prop where
  | nil (added : List α) : Grows R [] added
  | cons {a b : α} {l m : List α} : R a b → Grows R l m → Grows R (a :: l) (b :: m)

/-- What can happen to an account row: only its password hash changes. -/
def UserRel (u v : User) : Prop :=
  ∃ password, v = { u with Password := password }

/-- What can happen to a session row: its status stays or becomes `logout`, its last-used-at
and its updated-at change; nothing else does. -/
def SessionRel (s r : Session) : Prop :=
  ∃ status lastUsedAt updatedAt,
    r = { s with Status := status, LastUsedAt := lastUsedAt, UpdatedAt := updatedAt } ∧
    (status = s.Status ∨ status = "logout")

/-- What can happen to a reset-token row: it stays, or becomes used. -/
def TokenRel (t r : PasswordResetToken) : Prop :=
  r = t ∨ r = { t with Used := true }

/-- The database evolves table by table. -/
structure DB.Evolves (db db1 : DB) : Prop where
  users : Grows UserRel db.users db1.users
  sessions : Grows SessionRel db.sessions db1.sessions
  tokens : Grows TokenRel db.password_reset_tokens db1.password_reset_tokens

/-- The database `db1` is obtained from `db` by successive repository writes. -/
def Reach (db db1 : DB) : Prop := Relation.ReflTransGen Mutation db db1

/-! ## Sample data -/

/-- An environment in which nothing fails: the clock always reads `now`, the random bytes are
all `b`, hashing prepends `"$2a$10$"` and verification checks for that. -/
def sampleEnv (now : Int) (b : Nat) : Env :=
  { clock := fun _ => now
    dbClock := fun _ => now
    fault := fun _ => none
    rand := .ok fun _ => b
    GenerateFromPassword := fun p => .ok ("$2a$10$" ++ p)
    CompareHashAndPassword := fun h p => h == "$2a$10$" ++ p }

/-- The empty database. -/
def emptyDB : DB := { users := [], sessions := [], password_reset_tokens := [] }

/-- A registered, active account. -/
def alice : User :=
  { ID := 1, Username := "alice", Email := "alice@x.com", Password := "$2a$10$secret1",
    FirstName := "Alice", LastName := "Liddell", Phone := "", Avatar := "", Status := "active",
    Role := "user" }

/-- A registered account that an administrator has banned. -/
def bob : User :=
  { ID := 2, Username := "bob", Email := "bob@x.com", Password := "$2a$10$hunter2",
    FirstName := "Bob", LastName := "", Phone := "", Avatar := "", Status := "banned",
    Role := "user" }

/-- A database holding the accounts `alice` and `bob` and nothing else. -/
def twoUsersDB : DB := { users := [alice, bob], sessions := [], password_reset_tokens := [] }

/-- A session of `alice`. -/
def aliceSession : Session :=
  { ID := 1, UserID := 1, Token := "s1", IPAddress := "10.0.0.1", UserAgent := "curl",
    Device := "", Platform := "", Status := "active", ExpiresAt := 7 * 24 * Hour,
    LastUsedAt := none, UpdatedAt := 0 }

/-- An environment like `sampleEnv now b`, except that the fifth database call fails. -/
def lockedEnv (now : Int) (b : Nat) : Env :=
  { sampleEnv now b with fault := fun k => if k = 4 then some "database is locked" else none }

/-- A database in which `alice` has asked for a password reset and holds one session. -/
def resetDB : DB :=
  { users := [alice, bob]
    sessions := [aliceSession]
    password_reset_tokens :=
      [{ ID := 1, UserID := 1, Token := "r0", ExpiresAt := Hour, Used := true },
       { ID := 2, UserID := 1, Token := "r1", ExpiresAt := Hour, Used := false }] }

/-- Three calls made between two operations in the examples. -/
def sampleCalls : List (Env × Op) :=
  [(sampleEnv 20 8, .forgotPassword ⟨"alice@x.com"⟩),
   (sampleEnv 30 9, .signin ⟨"alice", "newpass1"⟩ "10.0.0.1" "curl"),
   (sampleEnv 40 0, .validateToken "s1")]

/-- Two accounts: the first holds the e-mail `shared@x.com`, the second the username `dave`. -/
def crossDB : DB :=
  { users :=
      [{ ID := 1, Username := "carol", Email := "shared@x.com", Password := "$2a$10$secret3",
         FirstName := "", LastName := "", Phone := "", Avatar := "", Status := "active",
         Role := "user" },
       { ID := 2, Username := "dave", Email := "dave@x.com", Password := "$2a$10$secret4",
         FirstName := "", LastName := "", Phone := "", Avatar := "", Status := "active",
         Role := "user" }]
    sessions := []
    password_reset_tokens := [] }

/-- An environment like `sampleEnv now b`, except that database call number `k` fails. -/
def failingEnv (now : Int) (b : Nat) (k : Nat) : Env :=
  { sampleEnv now b with fault := fun i => if i = k then some "database is locked" else none }

/-- An environment like `sampleEnv now b`, except that the clock advances by one nanosecond
from one reading to the next. -/
def tickingEnv (now : Int) (b : Nat) : Env :=
  { sampleEnv now b with clock := fun k => now + k }

/-- Two active accounts: the e-mail of the first is the username of the second. -/
def shadowDB : DB :=
  { users :=
      [{ ID := 1, Username := "carol", Email := "dave@x.com", Password := "$2a$10$secret3",
         FirstName := "", LastName := "", Phone := "", Avatar := "", Status := "active",
         Role := "user" },
       { ID := 2, Username := "dave@x.com", Email := "d@y.com", Password := "$2a$10$secret4",
         FirstName := "", LastName := "", Phone := "", Avatar := "", Status := "active",
         Role := "user" }]
    sessions := []
    password_reset_tokens := [] }

/-- A session of `alice` that was closed by an earlier logout. -/
def aliceClosedSession : Session :=
  { ID := 2, UserID := 1, Token := "s2", IPAddress := "10.0.0.2", UserAgent := "firefox",
    Device := "", Platform := "", Status := "logout", ExpiresAt := 7 * 24 * Hour,
    LastUsedAt := some 3, UpdatedAt := 4 }

/-- A session of `bob`. -/
def bobSession : Session :=
  { ID := 3, UserID := 2, Token := "s3", IPAddress := "10.0.0.3", UserAgent := "curl",
    Device := "", Platform := "", Status := "active", ExpiresAt := 7 * 24 * Hour,
    LastUsedAt := some 2, UpdatedAt := 2 }

/-- A second open session of `alice`. -/
def aliceSecondSession : Session :=
  { ID := 4, UserID := 1, Token := "s4", IPAddress := "10.0.0.4", UserAgent := "safari",
    Device := "", Platform := "", Status := "active", ExpiresAt := 8 * 24 * Hour,
    LastUsedAt := some 3, UpdatedAt := 3 }

/-- A database with four sessions: two open ones of `alice`, a closed one of `alice`, and an
open one of `bob`. -/
def sessionsDB : DB :=
  { users := [alice, bob]
    sessions := [aliceSession, aliceClosedSession, bobSession, aliceSecondSession]
    password_reset_tokens := [] }

/-! ## Basic facts -/

theorem EncodeToString_length (bytes : List Nat) :
    (EncodeToString bytes).length = 2 * bytes.length := by
  unfold EncodeToString
  induction bytes with
  | nil => rfl
  | cons b bs ih =>
    simp only [String.length, List.flatMap_cons, List.length_append, List.length_cons,
      List.length_nil] at ih ⊢
    omega

theorem generateToken_length {rand : Except String (Nat → Nat)} {token : String}
    (h : generateToken rand = .ok token) : token.length = 64 := by
  unfold generateToken at h
  cases rand with
  | error e => simp at h
  | ok f =>
    simp only [Except.ok.injEq] at h
    rw [← h, EncodeToString_length]
    simp

/-- A string that starts with another first character than `b` is not `b`, whatever is
appended to it. -/
theorem append_ne_of_head (a b e : String) (h : a.data.head? ≠ b.data.head?)
    (ha : a.data ≠ []) : a ++ e ≠ b := by
  intro hc
  apply h
  have := congrArg String.data hc
  rw [String.data_append] at this
  rw [← this]
  cases hd : a.data with
  | nil => exact absurd hd ha
  | cons x xs => simp

/-! ## Invariants of the schema -/

theorem nextID_gt (ids : List Nat) : ∀ i ∈ ids, i < nextID ids := by
  unfold nextID
  induction ids with
  | nil => simp
  | cons a l ih =>
    intro i hi
    simp only [List.foldr_cons]
    rcases List.mem_cons.1 hi with h | h
    · subst h; omega
    · have := ih i h; omega

theorem pairwise_append_fresh {α : Type} (id : α → Nat) (l : List α) (x : α)
    (hl : (l.map id).Pairwise (· < ·)) (hx : id x = nextID (l.map id)) :
    ((l ++ [x]).map id).Pairwise (· < ·) := by
  rw [List.map_append, List.pairwise_append]
  refine ⟨hl, by simp, ?_⟩
  intro a ha b hb
  simp only [List.map_cons, List.map_nil, List.mem_singleton] at hb
  rw [hb, hx]
  exact nextID_gt _ a ha

theorem nodup_append_fresh {α κ : Type} (key : α → κ) (l : List α) (x : α)
    (hl : (l.map key).Nodup) (hx : ∀ a ∈ l, key a ≠ key x) : ((l ++ [x]).map key).Nodup := by
  rw [List.map_append, List.nodup_append]
  refine ⟨hl, by simp, ?_⟩
  intro k hk hk1
  simp only [List.map_cons, List.map_nil, List.mem_singleton] at hk1
  obtain ⟨a, ha, rfl⟩ := List.mem_map.1 hk
  exact hx a ha hk1

theorem eq_of_id_eq {α : Type} (id : α → Nat) {l : List α} (hl : (l.map id).Pairwise (· < ·))
    {a b : α} (ha : a ∈ l) (hb : b ∈ l) (h : id a = id b) : a = b :=
  List.inj_on_of_nodup_map (hl.imp (fun h => Nat.ne_of_lt h)) ha hb h

theorem map_key_congr {α κ : Type} (key : α → κ) (f : α → α) (l : List α)
    (h : ∀ a ∈ l, key (f a) = key a) : (l.map f).map key = l.map key := by
  rw [List.map_map]
  exact List.map_congr_left (fun a ha => h a ha)

/-- On a table with distinct keys, `Save` of a row read from the table touches that row only. -/
theorem save_eq {α : Type} [DecidableEq α] (id : α → Nat) {l : List α}
    (hl : (l.map id).Pairwise (· < ·)) {a : α} (ha : a ∈ l) (b : α) :
    (l.map fun v => if id v == id a then b else v) = l.map fun v => if v = a then b else v := by
  apply List.map_congr_left
  intro v hv
  by_cases h : id v = id a
  · have := eq_of_id_eq id hl hv ha h
    simp [this]
  · have hne : v ≠ a := fun e => h (by rw [e])
    simp [h, hne]

theorem Mutation_WF {db db1 : DB} (m : Mutation db db1) (h : db.WF) : db1.WF := by
  obtain ⟨hu, hs, ht, hun, hue, hst, htt⟩ := h
  cases m with
  | createUser u hid hname hmail =>
    exact ⟨pairwise_append_fresh _ _ _ hu hid, hs, ht, nodup_append_fresh _ _ _ hun hname,
      nodup_append_fresh _ _ _ hue hmail, hst, htt⟩
  | saveUser u password hmem =>
    have e := save_eq (fun v : User => v.ID) hu hmem { u with Password := password }
    simp only at e
    refine ⟨?_, hs, ht, ?_, ?_, hst, htt⟩ <;> simp only [userRepository.Update, e]
    · rwa [map_key_congr]
      intro a _; split <;> simp_all
    · rwa [map_key_congr]
      intro a _; split <;> simp_all
    · rwa [map_key_congr]
      intro a _; split <;> simp_all
  | createSession s hid htoken =>
    exact ⟨hu, pairwise_append_fresh _ _ _ hs hid, ht, hun, hue,
      nodup_append_fresh _ _ _ hst htoken, htt⟩
  | saveSession s now hmem =>
    have e := save_eq (fun v : Session => v.ID) hs hmem
      { s with Status := "logout", UpdatedAt := now }
    simp only at e
    refine ⟨hu, ?_, ht, hun, hue, ?_, htt⟩ <;> simp only [sessionRepository.Update, e]
    · rwa [map_key_congr]
      intro a _; split <;> simp_all
    · rwa [map_key_congr]
      intro a _; split <;> simp_all
  | updateLastUsedAt sessionID lastUsedAt now =>
    refine ⟨hu, ?_, ht, hun, hue, ?_, htt⟩
    · simp only [sessionRepository.UpdateLastUsedAt, sessionRepository.UpdateStatusByUserID]
      rwa [map_key_congr]
      intro a _; split <;> rfl
    · simp only [sessionRepository.UpdateLastUsedAt, sessionRepository.UpdateStatusByUserID]
      rwa [map_key_congr]
      intro a _; split <;> rfl
  | updateStatus userID now =>
    refine ⟨hu, ?_, ht, hun, hue, ?_, htt⟩
    · simp only [sessionRepository.UpdateLastUsedAt, sessionRepository.UpdateStatusByUserID]
      rwa [map_key_congr]
      intro a _; split <;> rfl
    · simp only [sessionRepository.UpdateLastUsedAt, sessionRepository.UpdateStatusByUserID]
      rwa [map_key_congr]
      intro a _; split <;> rfl
  | createToken t hid htoken =>
    exact ⟨hu, hs, pairwise_append_fresh _ _ _ ht hid, hun, hue, hst,
      nodup_append_fresh _ _ _ htt htoken⟩
  | saveToken t hmem =>
    have e := save_eq (fun v : PasswordResetToken => v.ID) ht hmem { t with Used := true }
    simp only at e
    refine ⟨hu, hs, ?_, hun, hue, hst, ?_⟩ <;> simp only [passwordResetTokenRepository.Update, e]
    · rwa [map_key_congr]
      intro a _; split <;> simp_all
    · rwa [map_key_congr]
      intro a _; split <;> simp_all

/-! ## Evolution of tables -/

theorem Grows_refl {α : Type} {R : α → α → Prop} (hR : ∀ a, R a a) (l : List α) :
    Grows R l l := by
  induction l with
  | nil => exact .nil []
  | cons a l ih => exact .cons (hR a) ih

theorem Grows_trans {α : Type} {R : α → α → Prop} (hR : ∀ a b c, R a b → R b c → R a c)
    {l m n : List α} (h1 : Grows R l m) (h2 : Grows R m n) : Grows R l n := by
  induction h1 generalizing n with
  | nil added => exact .nil n
  | cons hab _ ih =>
    cases h2 with
    | cons hbc h2 => exact .cons (hR _ _ _ hab hbc) (ih h2)

theorem Grows.append_right {α : Type} {R : α → α → Prop} (hR : ∀ a, R a a) (l added : List α) :
    Grows R l (l ++ added) := by
  induction l with
  | nil => exact .nil _
  | cons a l ih => exact .cons (hR a) ih

theorem Grows.map {α : Type} {R : α → α → Prop} (f : α → α) (l : List α)
    (h : ∀ a ∈ l, R a (f a)) : Grows R l (l.map f) := by
  induction l with
  | nil => exact .nil _
  | cons a l ih =>
    exact .cons (h a (List.mem_cons_self a l)) (ih fun b hb => h b (List.mem_cons_of_mem a hb))

/-- The first row satisfying `p` stays the first row satisfying `p`, when `R` keeps `p`. -/
theorem Grows.find? {α : Type} {R : α → α → Prop} (p : α → Bool)
    (hp : ∀ a b, R a b → p b = p a) {l m : List α} (h : Grows R l m) {a : α}
    (ha : l.find? p = some a) : ∃ b, m.find? p = some b ∧ R a b := by
  induction h with
  | nil added => simp at ha
  | @cons x y l m hxy _ ih =>
    rw [List.find?_cons] at ha ⊢
    rw [hp x y hxy]
    cases hpx : p x with
    | true =>
      rw [hpx] at ha
      simp only [Option.some.injEq] at ha
      subst ha
      exact ⟨y, rfl, hxy⟩
    | false =>
      rw [hpx] at ha
      exact ih ha

theorem Grows.mem {α : Type} {R : α → α → Prop} {l m : List α} (h : Grows R l m) {a : α}
    (ha : a ∈ l) : ∃ b ∈ m, R a b := by
  induction h with
  | nil added => simp at ha
  | @cons x y l m hxy _ ih =>
    rcases List.mem_cons.1 ha with e | e
    · subst e; exact ⟨y, List.mem_cons_self _ _, hxy⟩
    · obtain ⟨b, hb, hr⟩ := ih e
      exact ⟨b, List.mem_cons_of_mem _ hb, hr⟩

theorem UserRel_refl (u : User) : UserRel u u := ⟨u.Password, rfl⟩

theorem UserRel_trans (a b c : User) (h1 : UserRel a b) (h2 : UserRel b c) : UserRel a c := by
  obtain ⟨p, rfl⟩ := h1
  obtain ⟨q, rfl⟩ := h2
  exact ⟨q, rfl⟩

theorem SessionRel_refl (s : Session) : SessionRel s s :=
  ⟨s.Status, s.LastUsedAt, s.UpdatedAt, rfl, Or.inl rfl⟩

theorem SessionRel_trans (a b c : Session) (h1 : SessionRel a b) (h2 : SessionRel b c) :
    SessionRel a c := by
  obtain ⟨st, lu, up, rfl, h⟩ := h1
  obtain ⟨st1, lu1, up1, rfl, h1⟩ := h2
  refine ⟨st1, lu1, up1, rfl, ?_⟩
  rcases h1 with h1 | h1
  · rcases h with h | h
    · exact Or.inl (h1.trans h)
    · exact Or.inr (h1.trans h)
  · exact Or.inr h1

theorem TokenRel_refl (t : PasswordResetToken) : TokenRel t t := Or.inl rfl

theorem TokenRel_trans (a b c : PasswordResetToken) (h1 : TokenRel a b) (h2 : TokenRel b c) :
    TokenRel a c := by
  rcases h1 with rfl | rfl
  · exact h2
  · rcases h2 with rfl | rfl
    · exact Or.inr rfl
    · exact Or.inr rfl

theorem DBEvolves_refl (db : DB) : db.Evolves db :=
  ⟨Grows_refl UserRel_refl _, Grows_refl SessionRel_refl _, Grows_refl TokenRel_refl _⟩

theorem DBEvolves_trans {a b c : DB} (h1 : a.Evolves b) (h2 : b.Evolves c) : a.Evolves c :=
  ⟨Grows_trans UserRel_trans h1.users h2.users,
   Grows_trans SessionRel_trans h1.sessions h2.sessions,
   Grows_trans TokenRel_trans h1.tokens h2.tokens⟩

theorem Mutation_evolves {db db1 : DB} (m : Mutation db db1) (h : db.WF) : db.Evolves db1 := by
  obtain ⟨hu, hs, ht, -⟩ := h
  cases m with
  | createUser u hid hname hmail =>
    exact ⟨Grows.append_right UserRel_refl _ _, Grows_refl SessionRel_refl _,
      Grows_refl TokenRel_refl _⟩
  | saveUser u password hmem =>
    refine ⟨?_, Grows_refl SessionRel_refl _, Grows_refl TokenRel_refl _⟩
    have e := save_eq (fun v : User => v.ID) hu hmem { u with Password := password }
    simp only at e
    simp only [userRepository.Update, sessionRepository.Update,
      passwordResetTokenRepository.Update, e]
    apply Grows.map
    intro a _
    split
    · subst_vars; exact ⟨password, rfl⟩
    · exact UserRel_refl a
  | createSession s hid htoken =>
    exact ⟨Grows_refl UserRel_refl _, Grows.append_right SessionRel_refl _ _,
      Grows_refl TokenRel_refl _⟩
  | saveSession s now hmem =>
    refine ⟨Grows_refl UserRel_refl _, ?_, Grows_refl TokenRel_refl _⟩
    have e := save_eq (fun v : Session => v.ID) hs hmem
      { s with Status := "logout", UpdatedAt := now }
    simp only at e
    simp only [userRepository.Update, sessionRepository.Update,
      passwordResetTokenRepository.Update, e]
    apply Grows.map
    intro a _
    split
    · subst_vars; exact ⟨"logout", _, now, rfl, Or.inr rfl⟩
    · exact SessionRel_refl a
  | updateLastUsedAt sessionID lastUsedAt now =>
    refine ⟨Grows_refl UserRel_refl _, ?_, Grows_refl TokenRel_refl _⟩
    simp only [sessionRepository.UpdateLastUsedAt, sessionRepository.UpdateStatusByUserID]
    apply Grows.map
    intro a _
    split
    · exact ⟨a.Status, some lastUsedAt, now, rfl, Or.inl rfl⟩
    · exact SessionRel_refl a
  | updateStatus userID now =>
    refine ⟨Grows_refl UserRel_refl _, ?_, Grows_refl TokenRel_refl _⟩
    simp only [sessionRepository.UpdateLastUsedAt, sessionRepository.UpdateStatusByUserID]
    apply Grows.map
    intro a _
    split
    · exact ⟨"logout", a.LastUsedAt, now, rfl, Or.inr rfl⟩
    · exact SessionRel_refl a
  | createToken t hid htoken =>
    exact ⟨Grows_refl UserRel_refl _, Grows_refl SessionRel_refl _,
      Grows.append_right TokenRel_refl _ _⟩
  | saveToken t hmem =>
    refine ⟨Grows_refl UserRel_refl _, Grows_refl SessionRel_refl _, ?_⟩
    have e := save_eq (fun v : PasswordResetToken => v.ID) ht hmem { t with Used := true }
    simp only at e
    simp only [userRepository.Update, sessionRepository.Update,
      passwordResetTokenRepository.Update, e]
    apply Grows.map
    intro a _
    split
    · subst_vars; exact Or.inr rfl
    · exact TokenRel_refl a

/-! ## Every operation is a sequence of repository writes -/

theorem Reach_refl (db : DB) : Reach db db := Relation.ReflTransGen.refl

theorem Reach_trans {a b c : DB} (h1 : Reach a b) (h2 : Reach b c) : Reach a c :=
  Relation.ReflTransGen.trans h1 h2

theorem Reach_single {a b : DB} (h : Mutation a b) : Reach a b :=
  Relation.ReflTransGen.single h

theorem Reach_WF {db db1 : DB} (h : Reach db db1) (hwf : db.WF) : db1.WF := by
  induction h with
  | refl => exact hwf
  | tail _ m ih => exact Mutation_WF m ih

theorem Reach_evolves {db db1 : DB} (h : Reach db db1) (hwf : db.WF) : db.Evolves db1 := by
  induction h with
  | refl => exact DBEvolves_refl db
  | tail r m ih => exact DBEvolves_trans ih (Mutation_evolves m (Reach_WF r hwf))

theorem userRepository_Create_reach (fault : Option String) (db : DB) (user : User) :
    Reach db (userRepository.Create fault db user).2 := by
  unfold userRepository.Create
  cases fault with
  | some e => exact Reach_refl db
  | none =>
    simp only
    split
    · exact Reach_refl db
    · split
      · exact Reach_refl db
      · rename_i h1 h2
        refine Reach_single (Mutation.createUser db _ rfl ?_ ?_)
        · intro v hv hc
          exact h1 (List.any_eq_true.2 ⟨v, hv, by simpa using hc⟩)
        · intro v hv hc
          exact h2 (List.any_eq_true.2 ⟨v, hv, by simpa using hc⟩)

theorem userRepository_Update_reach (fault : Option String) (db : DB) (u : User)
    (password : String) (hu : u ∈ db.users) :
    Reach db (userRepository.Update fault db { u with Password := password }).2 := by
  cases fault with
  | some e => exact Reach_refl db
  | none => exact Reach_single (Mutation.saveUser db u password hu)

theorem sessionRepository_Create_reach (fault : Option String) (now : Int) (db : DB)
    (session : Session) : Reach db (sessionRepository.Create fault now db session).2 := by
  unfold sessionRepository.Create
  cases fault with
  | some e => exact Reach_refl db
  | none =>
    simp only
    split
    · exact Reach_refl db
    · rename_i h1
      refine Reach_single (Mutation.createSession db _ rfl ?_)
      intro v hv hc
      exact h1 (List.any_eq_true.2 ⟨v, hv, by simpa using hc⟩)

theorem sessionRepository_Update_reach (fault : Option String) (now : Int) (db : DB)
    (s : Session) (hs : s ∈ db.sessions) :
    Reach db (sessionRepository.Update fault now db { s with Status := "logout" }).2 := by
  cases fault with
  | some e => exact Reach_refl db
  | none => exact Reach_single (Mutation.saveSession db s now hs)

theorem sessionRepository_UpdateLastUsedAt_reach (fault : Option String) (db : DB)
    (sessionID : Nat) (lastUsedAt now : Int) :
    Reach db (sessionRepository.UpdateLastUsedAt fault now db sessionID lastUsedAt).2 := by
  cases fault with
  | some e => exact Reach_refl db
  | none => exact Reach_single (Mutation.updateLastUsedAt db sessionID lastUsedAt now)

theorem sessionRepository_UpdateStatusByUserID_reach (fault : Option String) (db : DB)
    (userID : Nat) (now : Int) :
    Reach db (sessionRepository.UpdateStatusByUserID fault now db userID "logout").2 := by
  cases fault with
  | some e => exact Reach_refl db
  | none => exact Reach_single (Mutation.updateStatus db userID now)

theorem passwordResetTokenRepository_Create_reach (fault : Option String) (db : DB)
    (token : PasswordResetToken) :
    Reach db (passwordResetTokenRepository.Create fault db token).2 := by
  unfold passwordResetTokenRepository.Create
  cases fault with
  | some e => exact Reach_refl db
  | none =>
    simp only
    split
    · exact Reach_refl db
    · rename_i h1
      refine Reach_single (Mutation.createToken db _ rfl ?_)
      intro v hv hc
      exact h1 (List.any_eq_true.2 ⟨v, hv, by simpa using hc⟩)

theorem passwordResetTokenRepository_Update_reach (fault : Option String) (db : DB)
    (t : PasswordResetToken) (ht : t ∈ db.password_reset_tokens) :
    Reach db (passwordResetTokenRepository.Update fault db { t with Used := true }).2 := by
  cases fault with
  | some e => exact Reach_refl db
  | none => exact Reach_single (Mutation.saveToken db t ht)

theorem userRepository_FindByID_mem {fault : Option String} {db : DB} {id : Nat} {u : User}
    (h : userRepository.FindByID fault db id = .ok u) : u ∈ db.users := by
  unfold userRepository.FindByID at h
  cases fault with
  | some e => simp at h
  | none =>
    simp only at h
    split at h
    · simp at h
    · rename_i v hv
      simp only [Except.ok.injEq] at h
      subst h
      exact List.mem_of_find?_eq_some hv

theorem sessionRepository_FindByToken_mem {fault : Option String} {db : DB} {token : String}
    {s : Session} (h : sessionRepository.FindByToken fault db token = .ok s) :
    s ∈ db.sessions := by
  unfold sessionRepository.FindByToken at h
  cases fault with
  | some e => simp at h
  | none =>
    simp only at h
    split at h
    · simp at h
    · rename_i v hv
      simp only [Except.ok.injEq] at h
      subst h
      exact List.mem_of_find?_eq_some hv

theorem passwordResetTokenRepository_FindByToken_mem {fault : Option String} {db : DB}
    {token : String} {t : PasswordResetToken}
    (h : passwordResetTokenRepository.FindByToken fault db token = .ok t) :
    t ∈ db.password_reset_tokens := by
  unfold passwordResetTokenRepository.FindByToken at h
  cases fault with
  | some e => simp at h
  | none =>
    simp only at h
    split at h
    · simp at h
    · rename_i v hv
      simp only [Except.ok.injEq] at h
      subst h
      exact List.mem_of_find?_eq_some hv

theorem Signup_reach (env : Env) (db : DB) (req : SignupRequest)
    (ipAddress userAgent : String) :
    Reach db (AuthService.Signup env db req ipAddress userAgent).2 := by
  unfold AuthService.Signup
  split
  · exact Reach_refl db
  · simp only
    split
    · exact Reach_refl db
    · split
      · exact Reach_refl db
      · rename_i hashedPassword _
        have h := userRepository_Create_reach (env.fault 1) db
          { ID := 0, Username := req.Username, Email := req.Email, Password := hashedPassword,
            FirstName := req.FirstName, LastName := req.LastName, Phone := req.Phone,
            Avatar := "", Status := "active", Role := "user" }
        split <;> rename_i e <;> rw [e] at h <;> exact h

theorem Signin_reach (env : Env) (db : DB) (req : SigninRequest)
    (ipAddress userAgent : String) :
    Reach db (AuthService.Signin env db req ipAddress userAgent).2 := by
  unfold AuthService.Signin
  split
  · exact Reach_refl db
  · split
    · exact Reach_refl db
    · split
      · exact Reach_refl db
      · split
        · exact Reach_refl db
        · rename_i user _ _ _ _ token _
          simp only
          have h := sessionRepository_Create_reach (env.fault 1) (env.dbClock 1) db
            { ID := 0, UserID := user.ID, Token := token, IPAddress := ipAddress,
              UserAgent := userAgent, Device := "", Platform := "", Status := "active",
              ExpiresAt := env.clock 1 + 24 * 7 * Hour, LastUsedAt := some (env.clock 0),
              UpdatedAt := 0 }
          split <;> rename_i e <;> rw [e] at h <;> exact h

theorem Logout_reach (env : Env) (db : DB) (token : String) :
    Reach db (AuthService.Logout env db token).2 := by
  unfold AuthService.Logout
  split
  · exact Reach_refl db
  · rename_i session hs
    have h := sessionRepository_Update_reach (env.fault 1) (env.dbClock 1) db session
      (sessionRepository_FindByToken_mem hs)
    split <;> rename_i e <;> rw [e] at h <;> exact h

theorem LogoutAll_reach (env : Env) (db : DB) (userID : Nat) :
    Reach db (AuthService.LogoutAll env db userID).2 := by
  unfold AuthService.LogoutAll
  have h := sessionRepository_UpdateStatusByUserID_reach (env.fault 0) db userID (env.dbClock 0)
  split <;> rename_i e <;> rw [e] at h <;> exact h

theorem ForgotPassword_reach (env : Env) (db : DB) (req : ForgotPasswordRequest) :
    Reach db (AuthService.ForgotPassword env db req).2 := by
  unfold AuthService.ForgotPassword
  split
  · exact Reach_refl db
  · split
    · exact Reach_refl db
    · rename_i user _ _ token _
      simp only
      have h := passwordResetTokenRepository_Create_reach (env.fault 1) db
        { ID := 0, UserID := user.ID, Token := token, ExpiresAt := env.clock 0 + 1 * Hour,
          Used := false }
      split <;> rename_i e <;> rw [e] at h <;> exact h

theorem ValidateToken_reach (env : Env) (db : DB) (token : String) :
    Reach db (AuthService.ValidateToken env db token).2 := by
  unfold AuthService.ValidateToken
  split
  · exact Reach_refl db
  · rename_i session _
    have h := sessionRepository_UpdateLastUsedAt_reach (env.fault 1) db session.ID (env.clock 1)
      (env.dbClock 1)
    split
    · exact Reach_refl db
    · simp only
      split
      · exact h
      · split <;> exact h

theorem ResetPassword_reach (env : Env) (db : DB) (req : ResetPasswordRequest) :
    Reach db (AuthService.ResetPassword env db req).2 := by
  unfold AuthService.ResetPassword
  split
  · exact Reach_refl db
  · rename_i resetToken hrt
    split
    · exact Reach_refl db
    · split
      · exact Reach_refl db
      · split
        · exact Reach_refl db
        · rename_i user hu
          split
          · exact Reach_refl db
          · rename_i hashedPassword _
            have h1 := userRepository_Update_reach (env.fault 2) db user hashedPassword
              (userRepository_FindByID_mem hu)
            split
            · rename_i e; rw [e] at h1; exact h1
            · rename_i db1 e
              rw [e] at h1
              have hmem : resetToken ∈ db1.password_reset_tokens := by
                have hdb : db1.password_reset_tokens = db.password_reset_tokens := by
                  have := congrArg (fun r => r.2.password_reset_tokens) e
                  simp only at this
                  rw [← this]
                  unfold userRepository.Update
                  cases env.fault 2 <;> rfl
                rw [hdb]
                exact passwordResetTokenRepository_FindByToken_mem hrt
              have h2 := passwordResetTokenRepository_Update_reach (env.fault 3) db1 resetToken hmem
              split
              · rename_i e2; rw [e2] at h2; exact Reach_trans h1 h2
              · rename_i db2 e2
                rw [e2] at h2
                exact Reach_trans (Reach_trans h1 h2) (LogoutAll_reach _ db2 user.ID)

theorem step_reach (db : DB) (call : Env × Op) : Reach db (step db call) := by
  unfold step
  split
  · exact Signup_reach _ _ _ _ _
  · exact Signin_reach _ _ _ _ _
  · exact Logout_reach _ _ _
  · exact LogoutAll_reach _ _ _
  · exact ForgotPassword_reach _ _ _
  · exact ResetPassword_reach _ _ _
  · exact ValidateToken_reach _ _ _

theorem run_reach (db : DB) (calls : List (Env × Op)) : Reach db (run db calls) := by
  unfold run
  induction calls generalizing db with
  | nil => exact Reach_refl db
  | cons c cs ih => exact Reach_trans (step_reach db c) (ih (step db c))

theorem run_WF {db : DB} (h : db.WF) (calls : List (Env × Op)) : (run db calls).WF :=
  Reach_WF (run_reach db calls) h

theorem run_evolves {db : DB} (h : db.WF) (calls : List (Env × Op)) :
    db.Evolves (run db calls) :=
  Reach_evolves (run_reach db calls) h

/-! ## What a successful repository call tells -/

theorem userRepository_FindByID_ok {fault : Option String} {db : DB} {id : Nat} {u : User}
    (h : userRepository.FindByID fault db id = .ok u) :
    fault = none ∧ db.users.find? (fun v => v.ID == id) = some u := by
  unfold userRepository.FindByID at h
  cases fault with
  | some e => simp at h
  | none =>
    simp only at h
    split at h
    · simp at h
    · rename_i v hv
      simp only [Except.ok.injEq] at h
      subst h
      exact ⟨rfl, hv⟩

theorem sessionRepository_FindByToken_ok {fault : Option String} {db : DB} {token : String}
    {s : Session} (h : sessionRepository.FindByToken fault db token = .ok s) :
    fault = none ∧ db.sessions.find? (fun r => r.Token == token) = some s := by
  unfold sessionRepository.FindByToken at h
  cases fault with
  | some e => simp at h
  | none =>
    simp only at h
    split at h
    · simp at h
    · rename_i v hv
      simp only [Except.ok.injEq] at h
      subst h
      exact ⟨rfl, hv⟩

theorem passwordResetTokenRepository_FindByToken_ok {fault : Option String} {db : DB}
    {token : String} {t : PasswordResetToken}
    (h : passwordResetTokenRepository.FindByToken fault db token = .ok t) :
    fault = none ∧ db.password_reset_tokens.find? (fun r => r.Token == token) = some t := by
  unfold passwordResetTokenRepository.FindByToken at h
  cases fault with
  | some e => simp at h
  | none =>
    simp only at h
    split at h
    · simp at h
    · rename_i v hv
      simp only [Except.ok.injEq] at h
      subst h
      exact ⟨rfl, hv⟩

theorem userRepository_Update_ok {fault : Option String} {db db1 : DB} {u : User} {a : Unit}
    (h : userRepository.Update fault db u = (.ok a, db1)) :
    fault = none ∧ db1 = (userRepository.Update none db u).2 := by
  cases fault with
  | some e => simp [userRepository.Update] at h
  | none => exact ⟨rfl, by rw [h]⟩

theorem passwordResetTokenRepository_Update_ok {fault : Option String} {db db1 : DB}
    {t : PasswordResetToken} {a : Unit}
    (h : passwordResetTokenRepository.Update fault db t = (.ok a, db1)) :
    fault = none ∧ db1 = (passwordResetTokenRepository.Update none db t).2 := by
  cases fault with
  | some e => simp [passwordResetTokenRepository.Update] at h
  | none => exact ⟨rfl, by rw [h]⟩

theorem userRepository_Create_ok {fault : Option String} {db db1 : DB} {u u1 : User}
    (h : userRepository.Create fault db u = (.ok u1, db1)) :
    fault = none ∧ u1 = { u with ID := nextID (db.users.map fun v => v.ID) } ∧
    db1 = { db with users := db.users ++ [u1] } ∧
    (∀ v ∈ db.users, v.Username ≠ u.Username) ∧ (∀ v ∈ db.users, v.Email ≠ u.Email) := by
  unfold userRepository.Create at h
  cases fault with
  | some e => simp at h
  | none =>
    simp only at h
    split at h
    · simp at h
    · split at h
      · simp at h
      · rename_i h1 h2
        simp only [Prod.mk.injEq, Except.ok.injEq] at h
        refine ⟨rfl, h.1.symm, ?_, ?_, ?_⟩
        · rw [← h.2, ← h.1]
        · intro v hv hc
          exact h1 (List.any_eq_true.2 ⟨v, hv, by simpa using hc⟩)
        · intro v hv hc
          exact h2 (List.any_eq_true.2 ⟨v, hv, by simpa using hc⟩)

theorem sessionRepository_Create_ok {fault : Option String} {db db1 : DB} {s s1 : Session}
    {now : Int} (h : sessionRepository.Create fault now db s = (.ok s1, db1)) :
    fault = none ∧
    s1 = { s with ID := nextID (db.sessions.map fun r => r.ID), UpdatedAt := now } ∧
    db1 = { db with sessions := db.sessions ++ [s1] } ∧
    (∀ r ∈ db.sessions, r.Token ≠ s.Token) := by
  unfold sessionRepository.Create at h
  cases fault with
  | some e => simp at h
  | none =>
    simp only at h
    split at h
    · simp at h
    · rename_i h1
      simp only [Prod.mk.injEq, Except.ok.injEq] at h
      refine ⟨rfl, h.1.symm, ?_, ?_⟩
      · rw [← h.2, ← h.1]
      · intro v hv hc
        exact h1 (List.any_eq_true.2 ⟨v, hv, by simpa using hc⟩)

theorem passwordResetTokenRepository_Create_ok {fault : Option String} {db db1 : DB}
    {t t1 : PasswordResetToken}
    (h : passwordResetTokenRepository.Create fault db t = (.ok t1, db1)) :
    fault = none ∧ t1 = { t with ID := nextID (db.password_reset_tokens.map fun r => r.ID) } ∧
    db1 = { db with password_reset_tokens := db.password_reset_tokens ++ [t1] } ∧
    (∀ r ∈ db.password_reset_tokens, r.Token ≠ t.Token) := by
  unfold passwordResetTokenRepository.Create at h
  cases fault with
  | some e => simp at h
  | none =>
    simp only at h
    split at h
    · simp at h
    · rename_i h1
      simp only [Prod.mk.injEq, Except.ok.injEq] at h
      refine ⟨rfl, h.1.symm, ?_, ?_⟩
      · rw [← h.2, ← h.1]
      · intro v hv hc
        exact h1 (List.any_eq_true.2 ⟨v, hv, by simpa using hc⟩)

/-- A successful `ResetPassword` went all the way: the token row was found, unused and not
expired, the account was found, the hash was computed, and both rows were saved. -/
theorem ResetPassword_ok {env : Env} {db : DB} {req : ResetPasswordRequest}
    (h : (AuthService.ResetPassword env db req).1 = .ok ()) :
    ∃ resetToken user hashedPassword,
      env.fault 0 = none ∧
      db.password_reset_tokens.find? (fun r => r.Token == req.Token) = some resetToken ∧
      resetToken.Used = false ∧ ¬ resetToken.ExpiresAt < env.clock 0 ∧
      db.users.find? (fun v => v.ID == resetToken.UserID) = some user ∧
      env.GenerateFromPassword req.NewPassword = .ok hashedPassword ∧
      (AuthService.ResetPassword env db req).2
        = (AuthService.LogoutAll (env.skipFaults 4)
            (passwordResetTokenRepository.Update none
              (userRepository.Update none db { user with Password := hashedPassword }).2
              { resetToken with Used := true }).2 user.ID).2 := by
  have h0 := h
  unfold AuthService.ResetPassword at h
  split at h
  · simp at h
  rename_i resetToken hrt
  split at h
  · simp at h
  rename_i hused
  split at h
  · simp at h
  rename_i hexp
  split at h
  · simp at h
  rename_i user hu
  split at h
  · simp at h
  rename_i hashedPassword hh
  split at h
  · simp at h
  rename_i db1 e1
  split at h
  · simp at h
  rename_i db2 e2
  refine ⟨resetToken, user, hashedPassword, (passwordResetTokenRepository_FindByToken_ok hrt).1,
    (passwordResetTokenRepository_FindByToken_ok hrt).2, by simpa using hused,
    by simpa using hexp, (userRepository_FindByID_ok hu).2, hh, ?_⟩
  have hd1 := (userRepository_Update_ok e1).2
  have hd2 := (passwordResetTokenRepository_Update_ok e2).2
  unfold AuthService.ResetPassword
  simp only [hrt, hused, hexp, hu, hh, e1, e2, if_false]
  rw [hd2, hd1]
  rfl

/-! ## Signin -/

/-- C1 (as stated, refuted): `bob` is found by the lookup, his status is `banned` and the
password `wrong` does not verify against his hash, yet `Signin` does not answer
`username or password incorrect`: it answers `account has been disabled`. -/
theorem Signin_banned_wrong_password :
    twoUsersDB.WF ∧
    twoUsersDB.users.find? (fun u => u.Username == "bob" || u.Email == "bob") = some bob ∧
    (sampleEnv 0 7).CompareHashAndPassword bob.Password "wrong" = false ∧
    (AuthService.Signin (sampleEnv 0 7) twoUsersDB ⟨"bob", "wrong"⟩ "10.0.0.1" "curl").1
      = .error "account has been disabled" ∧
    (AuthService.Signin (sampleEnv 0 7) twoUsersDB ⟨"bob", "wrong"⟩ "10.0.0.1" "curl").1
      ≠ .error "username or password incorrect" := by
  decide

/-- C1 (amended): when no account has the given string as username or email, or the account
returned by the lookup has status `active` and the supplied password does not verify against
its stored hash, `Signin` fails with the one message `username or password incorrect` and
the database (in particular the session table) is unchanged. -/
theorem Signin_invalid_credentials (env : Env) (db : DB) (req : SigninRequest)
    (ipAddress userAgent : String)
    (h : (∀ u ∈ db.users, u.Username ≠ req.Username ∧ u.Email ≠ req.Username) ∨
      (∃ u, db.users.find? (fun u => u.Username == req.Username || u.Email == req.Username)
          = some u ∧
        u.Status = "active" ∧ env.CompareHashAndPassword u.Password req.Password = false)) :
    AuthService.Signin env db req ipAddress userAgent
      = (.error "username or password incorrect", db) := by
  unfold AuthService.Signin userRepository.FindByUsernameOrEmail
  cases env.fault 0 with
  | some e => rfl
  | none =>
    rcases h with h | ⟨u, hu, hs, hc⟩
    · have hnone : db.users.find?
          (fun u => u.Username == req.Username || u.Email == req.Username) = none := by
        rw [List.find?_eq_none]
        intro u hu
        have := h u hu
        simp [this.1, this.2]
      simp [hnone]
    · simp [hu, hs, hc]

/-- Witness for `Signin_invalid_credentials`, wrong password for the active account `alice`. -/
theorem Signin_invalid_credentials_witness :
    AuthService.Signin (sampleEnv 0 7) twoUsersDB ⟨"alice", "wrong"⟩ "10.0.0.1" "curl"
      = (.error "username or password incorrect", twoUsersDB) :=
  Signin_invalid_credentials (sampleEnv 0 7) twoUsersDB ⟨"alice", "wrong"⟩ "10.0.0.1" "curl"
    (Or.inr ⟨alice, by decide, by decide, by decide⟩)

/-! ## ForgotPassword -/

/-- C2 (the code at the failing input): the same request, in the same environment, on two
databases that differ only in the account of `alice`. Without the account the controller
answers 200 with the generic message. With it the controller answers 200 with, as message,
the reset token itself: the token of the row the call has stored for `alice`, with which a
`ResetPassword` by whoever received the answer then succeeds. The two answers differ. -/
theorem ForgotPassword_returns_reset_token :
    twoUsersDB.WF ∧ ({ twoUsersDB with users := [bob] } : DB).WF ∧
    (AuthController.ForgotPassword (sampleEnv 0 7) { twoUsersDB with users := [bob] }
        (.ok ⟨"alice@x.com"⟩)).1
      = ⟨200, [("message", "If the email exists, reset link has been sent")]⟩ ∧
    (AuthController.ForgotPassword (sampleEnv 0 7) twoUsersDB (.ok ⟨"alice@x.com"⟩)).1
      = ⟨200, [("message",
          "0707070707070707070707070707070707070707070707070707070707070707")]⟩ ∧
    (AuthController.ForgotPassword (sampleEnv 0 7) { twoUsersDB with users := [bob] }
        (.ok ⟨"alice@x.com"⟩)).1
      ≠ (AuthController.ForgotPassword (sampleEnv 0 7) twoUsersDB (.ok ⟨"alice@x.com"⟩)).1 ∧
    (AuthController.ForgotPassword (sampleEnv 0 7) twoUsersDB
        (.ok ⟨"alice@x.com"⟩)).2.password_reset_tokens
      = [{ ID := 1, UserID := alice.ID,
           Token := "0707070707070707070707070707070707070707070707070707070707070707",
           ExpiresAt := Hour, Used := false }] ∧
    (AuthService.ResetPassword (sampleEnv 10 0)
        (AuthController.ForgotPassword (sampleEnv 0 7) twoUsersDB (.ok ⟨"alice@x.com"⟩)).2
        ⟨"0707070707070707070707070707070707070707070707070707070707070707", "intruder1"⟩).1
      = .ok () := by
  decide

/-- The two answers of `ForgotPassword` in general. When no account has the e-mail, the
service returns the generic message without error, changes nothing, and the controller
answers 200 with that message. When an account has the e-mail and the lookup, the token
generation and the insert succeed, the controller answers with the same code 200 and the
same key `message`, but the message is what the service returns, the reset token (see
`ForgotPassword_ok`), of length 64, hence not the generic message. -/
theorem ForgotPassword_response (env : Env) (db : DB) (req : ForgotPasswordRequest) :
    ((∀ u ∈ db.users, u.Email ≠ req.Email) →
      AuthService.ForgotPassword env db req
        = (.ok "If the email exists, reset link has been sent", db) ∧
      AuthController.ForgotPassword env db (.ok req)
        = (⟨200, [("message", "If the email exists, reset link has been sent")]⟩, db)) ∧
    ((∃ u ∈ db.users, u.Email = req.Email) → env.fault 0 = none →
      ∀ message, (AuthService.ForgotPassword env db req).1 = .ok message →
        (AuthController.ForgotPassword env db (.ok req)).1 = ⟨200, [("message", message)]⟩ ∧
        message.length = 64 ∧
        message ≠ "If the email exists, reset link has been sent") := by
  constructor
  · intro h
    have hnone : db.users.find? (fun u => u.Email == req.Email) = none := by
      rw [List.find?_eq_none]
      intro u hu
      simpa using h u hu
    have hs : AuthService.ForgotPassword env db req
        = (.ok "If the email exists, reset link has been sent", db) := by
      unfold AuthService.ForgotPassword userRepository.FindByEmail
      cases env.fault 0 <;> simp [hnone]
    exact ⟨hs, by simp [AuthController.ForgotPassword, hs]⟩
  · rintro ⟨u, hu, he⟩ hf message hm
    have hsome : ∃ v, db.users.find? (fun u => u.Email == req.Email) = some v := by
      cases hfind : db.users.find? (fun u => u.Email == req.Email) with
      | some v => exact ⟨v, rfl⟩
      | none =>
        rw [List.find?_eq_none] at hfind
        have := hfind u hu
        simp [he] at this
    obtain ⟨v, hv⟩ := hsome
    have hlen : message.length = 64 := by
      unfold AuthService.ForgotPassword userRepository.FindByEmail at hm
      simp only [hf, hv] at hm
      cases hg : generateToken env.rand with
      | error e => simp [hg] at hm
      | ok token =>
        simp only [hg] at hm
        unfold passwordResetTokenRepository.Create at hm
        cases hf1 : env.fault 1 with
        | some e => simp [hf1] at hm
        | none =>
          simp only [hf1] at hm
          split at hm
          · simp at hm
          · simp only [Except.ok.injEq] at hm
            rw [← hm]
            exact generateToken_length hg
    refine ⟨?_, hlen, ?_⟩
    · unfold AuthController.ForgotPassword
      simp only
      cases hr : AuthService.ForgotPassword env db req with
      | mk r db1 =>
        rw [hr] at hm
        simp only at hm
        subst hm
        rfl
    · intro hcontra
      rw [hcontra] at hlen
      revert hlen
      decide

/-- The two answers of `ForgotPassword` on examples: the absent case on the empty database and
the present case for `alice`. -/
theorem ForgotPassword_response_witness :
    (AuthService.ForgotPassword (sampleEnv 0 7) emptyDB ⟨"alice@x.com"⟩
        = (.ok "If the email exists, reset link has been sent", emptyDB) ∧
      AuthController.ForgotPassword (sampleEnv 0 7) emptyDB (.ok ⟨"alice@x.com"⟩)
        = (⟨200, [("message", "If the email exists, reset link has been sent")]⟩, emptyDB)) ∧
    ((AuthController.ForgotPassword (sampleEnv 0 7) twoUsersDB (.ok ⟨"alice@x.com"⟩)).1
        = ⟨200, [("message",
            "0707070707070707070707070707070707070707070707070707070707070707")]⟩ ∧
      "0707070707070707070707070707070707070707070707070707070707070707".length = 64 ∧
      "0707070707070707070707070707070707070707070707070707070707070707"
        ≠ "If the email exists, reset link has been sent") :=
  ⟨(ForgotPassword_response (sampleEnv 0 7) emptyDB ⟨"alice@x.com"⟩).1 (by decide),
   (ForgotPassword_response (sampleEnv 0 7) twoUsersDB ⟨"alice@x.com"⟩).2
      ⟨alice, by decide, by decide⟩ rfl _ (by decide)⟩

/-! ## ResetPassword -/

/-- After a successful `ResetPassword`, the row found by the token is marked used. -/
theorem ResetPassword_marks_used {env : Env} {db : DB} {req : ResetPasswordRequest}
    (hwf : db.WF) (h : (AuthService.ResetPassword env db req).1 = .ok ()) :
    ∃ r, (AuthService.ResetPassword env db req).2.password_reset_tokens.find?
        (fun r => r.Token == req.Token) = some r ∧ r.Used = true := by
  obtain ⟨rt, user, hashed, -, hrt, -, -, -, -, hdb⟩ := ResetPassword_ok h
  have htok : (AuthService.ResetPassword env db req).2.password_reset_tokens
      = db.password_reset_tokens.map fun r => if r = rt then { rt with Used := true } else r := by
    rw [hdb]
    have e := save_eq (fun v : PasswordResetToken => v.ID) hwf.2.2.1
      (List.mem_of_find?_eq_some hrt) { rt with Used := true }
    simp only at e
    rw [← e]
    unfold AuthService.LogoutAll sessionRepository.UpdateStatusByUserID
    cases (env.skipFaults 4).fault 0 <;> rfl
  refine ⟨{ rt with Used := true }, ?_, rfl⟩
  rw [htok, List.find?_map]
  have hp : ((fun r : PasswordResetToken => r.Token == req.Token) ∘
      fun r => if r = rt then { rt with Used := true } else r)
      = fun r : PasswordResetToken => r.Token == req.Token := by
    funext r
    simp only [Function.comp]
    split
    · subst_vars; rfl
    · rfl
  rw [hp, hrt]
  simp

/-- A used reset-token row found by its token stays found and used, whatever happens next. -/
theorem used_token_stays {db : DB} (hwf : db.WF) (calls : List (Env × Op)) {token : String}
    {r : PasswordResetToken}
    (hr : db.password_reset_tokens.find? (fun r => r.Token == token) = some r)
    (hused : r.Used = true) :
    ∃ r1, (run db calls).password_reset_tokens.find? (fun r => r.Token == token) = some r1 ∧
      r1.Used = true := by
  obtain ⟨r1, h1, hrel⟩ := Grows.find? (fun r : PasswordResetToken => r.Token == token)
    (by
      intro a b hab
      rcases hab with rfl | rfl <;> rfl)
    (run_evolves hwf calls).tokens hr
  refine ⟨r1, h1, ?_⟩
  rcases hrel with rfl | rfl
  · exact hused
  · rfl

/-- A call of `ResetPassword` whose token finds a used row fails and changes nothing: with
`reset token has been used` when the lookup is answered, with the storage error when the
lookup fails. -/
theorem ResetPassword_of_used (env : Env) {db : DB} (req : ResetPasswordRequest)
    {r : PasswordResetToken}
    (hr : db.password_reset_tokens.find? (fun r => r.Token == req.Token) = some r)
    (hused : r.Used = true) :
    (env.fault 0 = none →
      AuthService.ResetPassword env db req = (.error "reset token has been used", db)) ∧
    (∀ e, env.fault 0 = some e → AuthService.ResetPassword env db req = (.error e, db)) := by
  unfold AuthService.ResetPassword passwordResetTokenRepository.FindByToken
  constructor
  · intro hf
    simp only [hf, hr, hused, if_true]
  · intro e hf
    simp only [hf]

/-- C3 (as stated, refuted): `ResetPassword` with the token `r1` succeeds; a second
`ResetPassword` with `r1`, made while the store does not answer the token lookup, fails with
the storage error `database is locked`, not with `reset token has been used`. -/
theorem ResetPassword_replay_storage_error :
    resetDB.WF ∧
    (AuthService.ResetPassword (sampleEnv 10 0) resetDB ⟨"r1", "newpass1"⟩).1 = .ok () ∧
    AuthService.ResetPassword (failingEnv 50 0 0)
        (AuthService.ResetPassword (sampleEnv 10 0) resetDB ⟨"r1", "newpass1"⟩).2
        ⟨"r1", "other"⟩
      = (.error "database is locked",
          (AuthService.ResetPassword (sampleEnv 10 0) resetDB ⟨"r1", "newpass1"⟩).2) := by
  decide

/-- C3 (amended): on a database that satisfies the schema, once `ResetPassword` has succeeded
with a token, every later `ResetPassword` with that token, in any environment (so at any
time) and after any sequence of engine operations, fails and leaves the whole database (so
every password hash) as it was: with `reset token has been used` when its token lookup is
answered by the store, with the storage error when that lookup fails. And a reset-token row
that is used stays in the table and stays used through every sequence of operations. -/
theorem ResetPassword_single_use (db : DB) (hwf : db.WF) (calls : List (Env × Op)) :
    (∀ (env1 : Env) (token p1 : String),
      (AuthService.ResetPassword env1 db ⟨token, p1⟩).1 = .ok () →
      ∀ (env2 : Env) (p2 : String),
        (env2.fault 0 = none →
          AuthService.ResetPassword env2
              (run (AuthService.ResetPassword env1 db ⟨token, p1⟩).2 calls) ⟨token, p2⟩
            = (.error "reset token has been used",
                run (AuthService.ResetPassword env1 db ⟨token, p1⟩).2 calls)) ∧
        (∀ e, env2.fault 0 = some e →
          AuthService.ResetPassword env2
              (run (AuthService.ResetPassword env1 db ⟨token, p1⟩).2 calls) ⟨token, p2⟩
            = (.error e, run (AuthService.ResetPassword env1 db ⟨token, p1⟩).2 calls))) ∧
    (∀ t ∈ db.password_reset_tokens, t.Used = true →
      (∃ r ∈ (run db calls).password_reset_tokens, r.ID = t.ID) ∧
      ∀ r ∈ (run db calls).password_reset_tokens, r.ID = t.ID → r.Used = true) := by
  constructor
  · intro env1 token p1 hok env2 p2
    have hwf1 : (AuthService.ResetPassword env1 db ⟨token, p1⟩).2.WF :=
      Reach_WF (ResetPassword_reach env1 db ⟨token, p1⟩) hwf
    obtain ⟨r, hr, hused⟩ := ResetPassword_marks_used hwf hok
    obtain ⟨r1, hr1, hused1⟩ := used_token_stays hwf1 calls hr hused
    exact ResetPassword_of_used env2 ⟨token, p2⟩ hr1 hused1
  · intro t ht hused
    obtain ⟨r0, hr0, hrel⟩ := (run_evolves hwf calls).tokens.mem ht
    have hid : r0.ID = t.ID := by rcases hrel with rfl | rfl <;> rfl
    have hu0 : r0.Used = true := by
      rcases hrel with rfl | rfl
      · exact hused
      · rfl
    refine ⟨⟨r0, hr0, hid⟩, ?_⟩
    intro r hr hrid
    have : r = r0 := eq_of_id_eq (fun v : PasswordResetToken => v.ID) (run_WF hwf calls).2.2.1
      hr hr0 (hrid.trans hid.symm)
    rw [this]
    exact hu0

/-- Witness for `ResetPassword_single_use`: the token `r1` is consumed, three other calls
follow, and the replay fails, with `reset token has been used` when the store answers and
with `database is locked` when it does not; the row of `r0`, used from the start, is still
used. -/
theorem ResetPassword_single_use_witness :
    AuthService.ResetPassword (sampleEnv 50 0)
        (run (AuthService.ResetPassword (sampleEnv 10 0) resetDB ⟨"r1", "newpass1"⟩).2
          sampleCalls) ⟨"r1", "other"⟩
      = (.error "reset token has been used",
          run (AuthService.ResetPassword (sampleEnv 10 0) resetDB ⟨"r1", "newpass1"⟩).2
            sampleCalls) ∧
    AuthService.ResetPassword (failingEnv 50 0 0)
        (run (AuthService.ResetPassword (sampleEnv 10 0) resetDB ⟨"r1", "newpass1"⟩).2
          sampleCalls) ⟨"r1", "other"⟩
      = (.error "database is locked",
          run (AuthService.ResetPassword (sampleEnv 10 0) resetDB ⟨"r1", "newpass1"⟩).2
            sampleCalls) ∧
    ((∃ r ∈ (run resetDB sampleCalls).password_reset_tokens, r.ID = 1) ∧
      ∀ r ∈ (run resetDB sampleCalls).password_reset_tokens, r.ID = 1 → r.Used = true) :=
  ⟨((ResetPassword_single_use resetDB (by decide) sampleCalls).1 (sampleEnv 10 0) "r1"
      "newpass1" (by decide) (sampleEnv 50 0) "other").1 rfl,
   ((ResetPassword_single_use resetDB (by decide) sampleCalls).1 (sampleEnv 10 0) "r1"
      "newpass1" (by decide) (failingEnv 50 0 0) "other").2 "database is locked" rfl,
   (ResetPassword_single_use resetDB (by decide) sampleCalls).2
      { ID := 1, UserID := 1, Token := "r0", ExpiresAt := Hour, Used := true } (by decide) rfl⟩


/-! ## ValidateToken after a password reset -/

theorem find?_of_mem_nodup {α κ : Type} [DecidableEq κ] (key : α → κ) {l : List α}
    (hl : (l.map key).Nodup) {a : α} (ha : a ∈ l) :
    l.find? (fun r => key r == key a) = some a := by
  induction l with
  | nil => simp at ha
  | cons x l ih =>
    rw [List.map_cons, List.nodup_cons] at hl
    rw [List.find?_cons]
    rcases List.mem_cons.1 ha with e | e
    · subst e; simp
    · have hne : key x ≠ key a := by
        intro hc
        exact hl.1 (hc ▸ List.mem_map_of_mem key e)
      have hx : (key x == key a) = false := by simp [hne]
      rw [hx]
      exact ih hl.2 e

/-- A call of `ValidateToken` whose token finds a session that is not `active` fails and
changes nothing. -/
theorem ValidateToken_of_not_active (env : Env) {db : DB} {token : String}
    {s : Session} (hs : db.sessions.find? (fun r => r.Token == token) = some s)
    (hst : s.Status ≠ "active") :
    ∃ msg, AuthService.ValidateToken env db token = (.error msg, db) ∧
      (env.fault 0 = none → msg = "session has expired") := by
  unfold AuthService.ValidateToken sessionRepository.FindByToken
  cases hf : env.fault 0 with
  | some e => exact ⟨e, rfl, by simp⟩
  | none =>
    refine ⟨"session has expired", ?_, fun _ => rfl⟩
    simp [hs, Session.IsActive, hst]

/-- A session found by its token and not `active` stays so, whatever happens next. -/
theorem closed_session_stays {db : DB} (hwf : db.WF) (calls : List (Env × Op)) {token : String}
    {s : Session} (hs : db.sessions.find? (fun r => r.Token == token) = some s)
    (hst : s.Status = "logout") :
    ∃ s1, (run db calls).sessions.find? (fun r => r.Token == token) = some s1 ∧
      s1.Status = "logout" := by
  obtain ⟨s1, h1, st, lu, up, rfl, hrel⟩ := Grows.find? (fun r : Session => r.Token == token)
    (by
      intro a b hab
      obtain ⟨st, lu, up, rfl, -⟩ := hab
      rfl)
    (run_evolves hwf calls).sessions hs
  refine ⟨_, h1, ?_⟩
  rcases hrel with h | h
  · exact h.trans hst
  · exact h

/-- C4 (as stated, refuted): the bulk update of `LogoutAll` fails with a storage error, which
`ResetPassword` ignores: the reset returns success, the session `s1` of `alice`, active
before the call, is still active, and `ValidateToken` on its token succeeds. -/
theorem ResetPassword_success_session_still_valid :
    resetDB.WF ∧
    (AuthService.ResetPassword (lockedEnv 10 0) resetDB ⟨"r1", "newpass1"⟩).1 = .ok () ∧
    aliceSession ∈ resetDB.sessions ∧ aliceSession.UserID = alice.ID ∧
    aliceSession.Status = "active" ∧
    (AuthService.ValidateToken (sampleEnv 20 0)
      (AuthService.ResetPassword (lockedEnv 10 0) resetDB ⟨"r1", "newpass1"⟩).2
      aliceSession.Token).1 = .ok (aliceSession, { alice with Password := "" }) := by
  decide

/-- C4 (amended): on a database that satisfies the schema, after a `ResetPassword` that
returns success and whose session-invalidation write did not fail, every session of the
account owning the reset token that was `active` before the call fails every later
`ValidateToken` on its token, after any sequence of engine operations, and that
`ValidateToken` changes nothing. -/
theorem ResetPassword_invalidates_sessions (env : Env) (db : DB) (req : ResetPasswordRequest)
    (hwf : db.WF) (hok : (AuthService.ResetPassword env db req).1 = .ok ())
    (hlogout : env.fault 4 = none) (resetToken : PasswordResetToken)
    (hrt : db.password_reset_tokens.find? (fun r => r.Token == req.Token) = some resetToken)
    (s : Session) (hs : s ∈ db.sessions) (howner : s.UserID = resetToken.UserID)
    (hactive : s.Status = "active") (calls : List (Env × Op)) (env2 : Env) :
    ∃ msg,
      AuthService.ValidateToken env2 (run (AuthService.ResetPassword env db req).2 calls) s.Token
        = (.error msg, run (AuthService.ResetPassword env db req).2 calls) ∧
      (env2.fault 0 = none → msg = "session has expired") := by
  obtain ⟨rt, user, hashed, -, hrt1, -, -, hu, -, hdb⟩ := ResetPassword_ok hok
  rw [hrt] at hrt1
  simp only [Option.some.injEq] at hrt1
  subst hrt1
  have huid : user.ID = resetToken.UserID := by simpa using List.find?_some hu
  have hsess : (AuthService.ResetPassword env db req).2.sessions
      = db.sessions.map fun r =>
          if r.UserID == user.ID && r.Status == "active" then
            { r with Status := "logout", UpdatedAt := env.dbClock 4 }
          else r := by
    rw [hdb]
    simp [AuthService.LogoutAll, sessionRepository.UpdateStatusByUserID, Env.skipFaults, hlogout,
      passwordResetTokenRepository.Update, userRepository.Update]
  have hfind : (AuthService.ResetPassword env db req).2.sessions.find?
      (fun r => r.Token == s.Token)
        = some { s with Status := "logout", UpdatedAt := env.dbClock 4 } := by
    rw [hsess, List.find?_map]
    have hp : ((fun r : Session => r.Token == s.Token) ∘ fun r : Session =>
        if r.UserID == user.ID && r.Status == "active" then
          { r with Status := "logout", UpdatedAt := env.dbClock 4 }
        else r)
        = fun r : Session => r.Token == s.Token := by
      funext r
      simp only [Function.comp]
      split <;> rfl
    rw [hp, find?_of_mem_nodup (fun r : Session => r.Token) hwf.2.2.2.2.2.1 hs]
    simp [howner, huid, hactive]
  have hwf1 := Reach_WF (ResetPassword_reach env db req) hwf
  obtain ⟨s1, hs1, hst1⟩ := closed_session_stays hwf1 calls hfind rfl
  exact ValidateToken_of_not_active env2 hs1 (by rw [hst1]; decide)

/-- Witness for `ResetPassword_invalidates_sessions`: `alice` resets her password with `r1`,
three more calls follow, and her session `s1` is no longer accepted. -/
theorem ResetPassword_invalidates_sessions_witness :
    ∃ msg,
      AuthService.ValidateToken (sampleEnv 50 0)
          (run (AuthService.ResetPassword (sampleEnv 10 0) resetDB ⟨"r1", "newpass1"⟩).2
            sampleCalls) "s1"
        = (.error msg,
            run (AuthService.ResetPassword (sampleEnv 10 0) resetDB ⟨"r1", "newpass1"⟩).2
              sampleCalls) ∧
      ((sampleEnv 50 0).fault 0 = none → msg = "session has expired") :=
  ResetPassword_invalidates_sessions (sampleEnv 10 0) resetDB ⟨"r1", "newpass1"⟩ (by decide)
    (by decide) rfl { ID := 2, UserID := 1, Token := "r1", ExpiresAt := Hour, Used := false }
    (by decide) aliceSession (by decide) rfl rfl sampleCalls (sampleEnv 50 0)

/-! ## ValidateToken -/

/-- What `ValidateToken` does to the database: nothing, or the single write of last-used-at
and updated-at on the rows whose key is that of the session found by the token. -/
theorem ValidateToken_db (env : Env) (db : DB) (token : String) :
    (AuthService.ValidateToken env db token).2 = db ∨
    ∃ s, db.sessions.find? (fun r => r.Token == token) = some s ∧
      (AuthService.ValidateToken env db token).2
        = { db with sessions := db.sessions.map fun r =>
              if r.ID == s.ID then
                { r with LastUsedAt := some (env.clock 1), UpdatedAt := env.dbClock 1 }
              else r } := by
  unfold AuthService.ValidateToken
  split
  · exact Or.inl rfl
  · rename_i session hs
    split
    · exact Or.inl rfl
    · have hdb : (sessionRepository.UpdateLastUsedAt (env.fault 1) (env.dbClock 1) db session.ID
            (env.clock 1)).2 = db ∨
          (sessionRepository.UpdateLastUsedAt (env.fault 1) (env.dbClock 1) db session.ID
            (env.clock 1)).2
            = { db with sessions := db.sessions.map fun r =>
                if r.ID == session.ID then
                  { r with LastUsedAt := some (env.clock 1), UpdatedAt := env.dbClock 1 }
                else r } := by
        unfold sessionRepository.UpdateLastUsedAt
        cases env.fault 1
        · exact Or.inr rfl
        · exact Or.inl rfl
      have hfind := (sessionRepository_FindByToken_ok hs).2
      simp only
      rcases hdb with h | h
      · left
        split
        · exact h
        · split <;> exact h
      · right
        refine ⟨session, hfind, ?_⟩
        split
        · exact h
        · split <;> exact h

/-- The columns other than last-used-at and updated-at, row by row, are the same after
`ValidateToken`. -/
theorem ValidateToken_columns (env : Env) (db : DB) (token : String) :
    (AuthService.ValidateToken env db token).2.sessions.map
        (fun r => (r.ID, r.UserID, r.Token, r.Status, r.ExpiresAt))
      = db.sessions.map (fun r => (r.ID, r.UserID, r.Token, r.Status, r.ExpiresAt)) := by
  rcases ValidateToken_db env db token with h | ⟨s, -, h⟩
  · rw [h]
  · rw [h]
    simp only
    apply map_key_congr
    intro a _
    split <;> rfl

/-- A successful `Signin` has stored the session it returns, with the expiry computed from the
second clock reading and the updated-at set by the ORM during the insert. -/
theorem Signin_ok {env : Env} {db : DB} {req : SigninRequest}
    {ipAddress userAgent : String} {resp : SigninResponse}
    (h : (AuthService.Signin env db req ipAddress userAgent).1 = .ok resp) :
    ∃ user, db.users.find? (fun u => u.Username == req.Username || u.Email == req.Username)
        = some user ∧
      generateToken env.rand = .ok resp.Token ∧
      resp = { User := { user with Password := "" }
               Session := { ID := nextID (db.sessions.map fun r => r.ID), UserID := user.ID,
                            Token := resp.Token, IPAddress := ipAddress, UserAgent := userAgent,
                            Device := "", Platform := "", Status := "active",
                            ExpiresAt := env.clock 1 + 24 * 7 * Hour,
                            LastUsedAt := some (env.clock 0), UpdatedAt := env.dbClock 1 }
               Token := resp.Token, Message := "Login successful" } ∧
      (AuthService.Signin env db req ipAddress userAgent).2
        = { db with sessions := db.sessions ++ [resp.Session] } := by
  have h0 := h
  unfold AuthService.Signin at h
  split at h
  · simp at h
  rename_i user hu
  split at h
  · simp at h
  rename_i hst
  split at h
  · simp at h
  rename_i hpw
  split at h
  · simp at h
  rename_i token htok
  simp only at h
  split at h
  · simp at h
  rename_i session1 db1 hc
  simp only [Except.ok.injEq] at h
  subst h
  obtain ⟨-, hs1, hdb1, -⟩ := sessionRepository_Create_ok hc
  have hfind : db.users.find? (fun u => u.Username == req.Username || u.Email == req.Username)
      = some user := by
    unfold userRepository.FindByUsernameOrEmail at hu
    cases hf : env.fault 0 with
    | some e => simp [hf] at hu
    | none =>
      simp only [hf] at hu
      split at hu
      · simp at hu
      · rename_i v hv
        simp only [Except.ok.injEq] at hu
        rw [← hu]
        exact hv
  refine ⟨user, hfind, htok, ?_, ?_⟩
  · simp only [hs1]
  · unfold AuthService.Signin
    simp only [hu, hst, hpw, htok, hc, if_false]
    exact hdb1

/-- C5 (as stated, refuted): `ValidateToken` on the token of the session of `alice` succeeds
and the update it issues writes, besides last-used-at, the updated-at of that row, which was
0 before the call and is 20 after it. -/
theorem ValidateToken_writes_updated_at :
    resetDB.WF ∧
    resetDB.sessions = [aliceSession] ∧ aliceSession.Token = "s1" ∧
    aliceSession.UpdatedAt = 0 ∧
    (AuthService.ValidateToken (sampleEnv 20 0) resetDB "s1").1
      = .ok (aliceSession, { alice with Password := "" }) ∧
    (AuthService.ValidateToken (sampleEnv 20 0) resetDB "s1").2.sessions
      = [{ aliceSession with LastUsedAt := some 20, UpdatedAt := 20 }] ∧
    (AuthService.ValidateToken (sampleEnv 20 0) resetDB "s1").2.sessions.map
        (fun r => r.UpdatedAt)
      ≠ resetDB.sessions.map (fun r => r.UpdatedAt) := by
  decide

/-- C5 (amended): `ValidateToken`, whether it succeeds or fails, leaves the account table and
the reset-token table unchanged and either leaves the session table unchanged or writes only
the last-used-at and the updated-at of the rows carrying the key of the session found by the
token; so after any number of `ValidateToken` calls every session row still has its key,
owner, token, status and expires-at, and the session created by a successful `Signin` still
expires at the clock reading of its creation plus 7 days. -/
theorem ValidateToken_keeps_expiry (env : Env) (db : DB) (token : String)
    (validations : List (Env × String)) :
    ((AuthService.ValidateToken env db token).2 = db ∨
      ∃ s, db.sessions.find? (fun r => r.Token == token) = some s ∧
        (AuthService.ValidateToken env db token).2
          = { db with sessions := db.sessions.map fun r =>
                if r.ID == s.ID then
                  { r with LastUsedAt := some (env.clock 1), UpdatedAt := env.dbClock 1 }
                else r }) ∧
    (run db (validations.map fun c => (c.1, Op.validateToken c.2))).sessions.map
        (fun r => (r.ID, r.UserID, r.Token, r.Status, r.ExpiresAt))
      = db.sessions.map (fun r => (r.ID, r.UserID, r.Token, r.Status, r.ExpiresAt)) ∧
    (∀ (envS : Env) (req : SigninRequest) (ipAddress userAgent : String) (resp : SigninResponse),
      (AuthService.Signin envS db req ipAddress userAgent).1 = .ok resp →
      resp.Session.ExpiresAt = envS.clock 1 + 7 * (24 * Hour) ∧
      ∃ r ∈ (run (AuthService.Signin envS db req ipAddress userAgent).2
          (validations.map fun c => (c.1, Op.validateToken c.2))).sessions,
        r.ID = resp.Session.ID ∧ r.Token = resp.Token ∧
        r.ExpiresAt = envS.clock 1 + 7 * (24 * Hour)) := by
  have hrun : ∀ (l : List (Env × String)) (d : DB),
      (run d (l.map fun c => (c.1, Op.validateToken c.2))).sessions.map
          (fun r => (r.ID, r.UserID, r.Token, r.Status, r.ExpiresAt))
        = d.sessions.map (fun r => (r.ID, r.UserID, r.Token, r.Status, r.ExpiresAt)) := by
    intro l
    induction l with
    | nil => intro d; rfl
    | cons c cs ih =>
      intro d
      have := ih (step d (c.1, Op.validateToken c.2))
      simp only [run, List.map_cons, List.foldl_cons] at this ⊢
      rw [this]
      exact ValidateToken_columns c.1 d c.2
  refine ⟨ValidateToken_db env db token, hrun validations db, ?_⟩
  intro envS req ipAddress userAgent resp hok
  obtain ⟨user, -, -, hresp, hdb⟩ := Signin_ok hok
  have hmem : resp.Session ∈ (AuthService.Signin envS db req ipAddress userAgent).2.sessions := by
    rw [hdb]; simp
  have htok : resp.Session.Token = resp.Token := by rw [hresp]
  have hexp1 : resp.Session.ExpiresAt = envS.clock 1 + 7 * (24 * Hour) := by rw [hresp]; ring
  refine ⟨hexp1, ?_⟩
  have hcol := hrun validations (AuthService.Signin envS db req ipAddress userAgent).2
  have hin : (resp.Session.ID, resp.Session.UserID, resp.Session.Token, resp.Session.Status,
      resp.Session.ExpiresAt) ∈
      (run (AuthService.Signin envS db req ipAddress userAgent).2
        (validations.map fun c => (c.1, Op.validateToken c.2))).sessions.map
          (fun r => (r.ID, r.UserID, r.Token, r.Status, r.ExpiresAt)) := by
    rw [hcol]
    exact List.mem_map_of_mem (fun r : Session => (r.ID, r.UserID, r.Token, r.Status, r.ExpiresAt))
      hmem
  obtain ⟨r, hr, he⟩ := List.mem_map.1 hin
  simp only [Prod.mk.injEq] at he
  exact ⟨r, hr, he.1, he.2.2.1.trans htok, he.2.2.2.2.trans hexp1⟩

/-- Witness for `ValidateToken_keeps_expiry`: four validations on a database with four
sessions, with the tokens of an open session, of a session of a banned account, of a closed
session and of no session, leave key, owner, token, status and expires-at of every row as
they were; and `alice` signs in at time 100 and her token is validated three times, the last
time after the expiry. -/
theorem ValidateToken_keeps_expiry_witness :
    ((run sessionsDB
          ([(sampleEnv 200 0, "s1"), (sampleEnv 300 0, "s3"), (sampleEnv 400 0, "s2"),
            (sampleEnv 500 0, "s9")].map fun c => (c.1, Op.validateToken c.2))).sessions.map
        (fun r => (r.ID, r.UserID, r.Token, r.Status, r.ExpiresAt))
      = sessionsDB.sessions.map (fun r => (r.ID, r.UserID, r.Token, r.Status, r.ExpiresAt))) ∧
    ∃ r ∈ (run (AuthService.Signin (sampleEnv 100 7) twoUsersDB ⟨"alice", "secret1"⟩
          "10.0.0.1" "curl").2
        ([(sampleEnv 200 0, "0707070707070707070707070707070707070707070707070707070707070707"),
          (sampleEnv 300 0, "0707070707070707070707070707070707070707070707070707070707070707"),
          (sampleEnv (100 + 8 * (24 * Hour)) 0,
            "0707070707070707070707070707070707070707070707070707070707070707")].map
          fun c => (c.1, Op.validateToken c.2))).sessions,
      r.ID = 1 ∧ r.Token = "0707070707070707070707070707070707070707070707070707070707070707" ∧
      r.ExpiresAt = 100 + 7 * (24 * Hour) :=
  ⟨(ValidateToken_keeps_expiry (sampleEnv 0 0) sessionsDB "" _).2.1,
   ((ValidateToken_keeps_expiry (sampleEnv 0 0) twoUsersDB "" _).2.2 (sampleEnv 100 7)
    ⟨"alice", "secret1"⟩ "10.0.0.1" "curl"
    { User := { alice with Password := "" }
      Session := { ID := 1, UserID := 1,
                   Token := "0707070707070707070707070707070707070707070707070707070707070707",
                   IPAddress := "10.0.0.1", UserAgent := "curl", Device := "", Platform := "",
                   Status := "active", ExpiresAt := 100 + 24 * 7 * Hour, LastUsedAt := some 100,
                   UpdatedAt := 100 }
      Token := "0707070707070707070707070707070707070707070707070707070707070707"
      Message := "Login successful" } (by decide)).2⟩

/-- C6 (as stated, refuted): at the instant `now = expires-at` an `active` session is not
strictly before its expiry, yet `IsActive` is true and `ValidateToken` accepts the token. -/
theorem Session_live_at_expiry :
    resetDB.WF ∧
    resetDB.sessions.find? (fun r => r.Token == "s1") = some aliceSession ∧
    aliceSession.Status = "active" ∧ ¬ (7 * 24 * Hour < aliceSession.ExpiresAt) ∧
    aliceSession.IsActive (7 * 24 * Hour) = true ∧
    (AuthService.ValidateToken (sampleEnv (7 * 24 * Hour) 0) resetDB "s1").1
      = .ok (aliceSession, { alice with Password := "" }) := by
  decide

/-- C6 (amended): `IsActive` is true exactly when the status is `active` and the current time
is not after expires-at (`now ≤ expires-at`); `ValidateToken` on a token whose session is
found fails with `session has expired` exactly when the session is not live in this sense;
in particular a session with status `logout` is rejected whatever its expires-at. -/
theorem Session_live_iff (s : Session) (now : Int) (env : Env) (db : DB) (token : String) :
    (s.IsActive now = true ↔ s.Status = "active" ∧ now ≤ s.ExpiresAt) ∧
    (env.fault 0 = none → db.sessions.find? (fun r => r.Token == token) = some s →
      ((AuthService.ValidateToken env db token).1 = .error "session has expired"
        ↔ ¬ (s.Status = "active" ∧ env.clock 0 ≤ s.ExpiresAt))) ∧
    (env.fault 0 = none → db.sessions.find? (fun r => r.Token == token) = some s →
      s.Status = "logout" →
      AuthService.ValidateToken env db token = (.error "session has expired", db)) := by
  have hlive : ∀ t : Int, s.IsActive t = true ↔ s.Status = "active" ∧ t ≤ s.ExpiresAt := by
    intro t
    simp [Session.IsActive, Session.IsExpired]
  refine ⟨hlive now, ?_, ?_⟩
  · intro hf hs
    rw [← hlive]
    unfold AuthService.ValidateToken sessionRepository.FindByToken
    simp only [hf, hs]
    cases hact : s.IsActive (env.clock 0) with
    | false => simp
    | true =>
      simp only [Bool.not_true, Bool.false_eq_true, if_false, not_true_eq_false, iff_false]
      split
      · simp
      · split <;> simp
  · intro hf hs hst
    unfold AuthService.ValidateToken sessionRepository.FindByToken
    simp [hf, hs, Session.IsActive, hst]

/-- Witness for `Session_live_iff`: one second before expiry the session `s1` is accepted,
and once logged out it is rejected. -/
theorem Session_live_iff_witness :
    ((AuthService.ValidateToken (sampleEnv (7 * 24 * Hour - 1) 0) resetDB "s1").1
        = .error "session has expired"
      ↔ ¬ (aliceSession.Status = "active" ∧
          (sampleEnv (7 * 24 * Hour - 1) 0).clock 0 ≤ aliceSession.ExpiresAt)) ∧
    AuthService.ValidateToken (sampleEnv 5 0)
        { resetDB with sessions := [{ aliceSession with Status := "logout" }] } "s1"
      = (.error "session has expired",
          { resetDB with sessions := [{ aliceSession with Status := "logout" }] }) :=
  ⟨(Session_live_iff aliceSession 0 (sampleEnv (7 * 24 * Hour - 1) 0) resetDB "s1").2.1 rfl
      (by decide),
   (Session_live_iff { aliceSession with Status := "logout" } 0 (sampleEnv 5 0)
      { resetDB with sessions := [{ aliceSession with Status := "logout" }] } "s1").2.2 rfl
      (by decide) rfl⟩

/-! ## Expiry of reset tokens -/

/-- A successful `ForgotPassword` for an existing account has stored one new row. -/
theorem ForgotPassword_ok {env : Env} {db : DB} {req : ForgotPasswordRequest}
    {token : String} {user : User} (hf : env.fault 0 = none)
    (hu : db.users.find? (fun u => u.Email == req.Email) = some user)
    (h : (AuthService.ForgotPassword env db req).1 = .ok token) :
    generateToken env.rand = .ok token ∧
    (∀ r ∈ db.password_reset_tokens, r.Token ≠ token) ∧
    (AuthService.ForgotPassword env db req).2
      = { db with password_reset_tokens := db.password_reset_tokens ++
            [{ ID := nextID (db.password_reset_tokens.map fun r => r.ID), UserID := user.ID,
               Token := token, ExpiresAt := env.clock 0 + 1 * Hour, Used := false }] } := by
  have hfind : userRepository.FindByEmail (env.fault 0) db req.Email = .ok user := by
    unfold userRepository.FindByEmail
    simp only [hf, hu]
  unfold AuthService.ForgotPassword at h
  simp only [hfind] at h
  split at h
  · simp at h
  rename_i tok htok
  split at h
  · simp at h
  rename_i t1 db1 hc
  simp only [Except.ok.injEq] at h
  subst h
  obtain ⟨-, ht1, hdb1, hfresh⟩ := passwordResetTokenRepository_Create_ok hc
  refine ⟨htok, hfresh, ?_⟩
  unfold AuthService.ForgotPassword
  simp only [hfind, htok, hc]
  rw [hdb1, ht1]

theorem find?_append_fresh {α : Type} (p : α → Bool) (l : List α) (x : α)
    (hl : ∀ a ∈ l, p a = false) (hx : p x = true) : (l ++ [x]).find? p = some x := by
  rw [List.find?_append]
  have : l.find? p = none := by
    rw [List.find?_eq_none]
    intro a ha
    simp [hl a ha]
  rw [this]
  simp [hx]

/-- C7 (as stated, refuted): a token issued at time 0 expires at `Hour`; at `now = Hour`,
which is not strictly before the expiry, `ResetPassword` still accepts it. -/
theorem ResetPassword_at_expiry :
    twoUsersDB.WF ∧
    AuthService.ForgotPassword (sampleEnv 0 7) twoUsersDB ⟨"alice@x.com"⟩
      = (.ok "0707070707070707070707070707070707070707070707070707070707070707",
          { twoUsersDB with password_reset_tokens :=
              [{ ID := 1, UserID := 1,
                 Token := "0707070707070707070707070707070707070707070707070707070707070707",
                 ExpiresAt := 0 + Hour, Used := false }] }) ∧
    ¬ ((sampleEnv Hour 0).clock 0 < 0 + Hour) ∧
    (AuthService.ResetPassword (sampleEnv Hour 0)
      (AuthService.ForgotPassword (sampleEnv 0 7) twoUsersDB ⟨"alice@x.com"⟩).2
      ⟨"0707070707070707070707070707070707070707070707070707070707070707", "newpass1"⟩).1
      = .ok () := by
  decide

/-- C7 (amended): a token issued by `ForgotPassword` at time `t` is stored, found by its
value, with expires-at `t + 1 hour` and unused. For a token row found by the lookup,
`ResetPassword` at time `now` passes its token checks exactly when the row is unused and
`now` is not after expires-at (`now ≤ expires-at`); it fails with
`reset token has been used` when the row is used, expired or not, and with
`reset token has expired` when it is unused and `now` is after expires-at, in both cases
changing nothing. The method `IsValid` of the entity draws the same line. -/
theorem ResetPassword_token_checks (env : Env) (db : DB) (req : ResetPasswordRequest)
    (r : PasswordResetToken) (hf : env.fault 0 = none)
    (hr : db.password_reset_tokens.find? (fun t => t.Token == req.Token) = some r) :
    (r.Used = true →
      AuthService.ResetPassword env db req = (.error "reset token has been used", db)) ∧
    (r.Used = false → r.ExpiresAt < env.clock 0 →
      AuthService.ResetPassword env db req = (.error "reset token has expired", db)) ∧
    (((AuthService.ResetPassword env db req).1 = .error "reset token has been used" ∨
        (AuthService.ResetPassword env db req).1 = .error "reset token has expired")
      ↔ ¬ (r.Used = false ∧ env.clock 0 ≤ r.ExpiresAt)) ∧
    (∀ (envF : Env) (reqF : ForgotPasswordRequest) (user : User) (token : String),
      envF.fault 0 = none → db.users.find? (fun u => u.Email == reqF.Email) = some user →
      (AuthService.ForgotPassword envF db reqF).1 = .ok token →
      ∃ row, (AuthService.ForgotPassword envF db reqF).2.password_reset_tokens.find?
          (fun t => t.Token == token) = some row ∧
        row.UserID = user.ID ∧ row.ExpiresAt = envF.clock 0 + Hour ∧ row.Used = false) ∧
    (r.IsValid (env.clock 0) = true ↔ (r.Used = false ∧ env.clock 0 ≤ r.ExpiresAt)) := by
  have hfind : passwordResetTokenRepository.FindByToken (env.fault 0) db req.Token = .ok r := by
    unfold passwordResetTokenRepository.FindByToken
    simp only [hf, hr]
  have hused : r.Used = true →
      AuthService.ResetPassword env db req = (.error "reset token has been used", db) := by
    intro hu
    unfold AuthService.ResetPassword
    simp only [hfind, hu, if_true]
  have hexpired : r.Used = false → r.ExpiresAt < env.clock 0 →
      AuthService.ResetPassword env db req = (.error "reset token has expired", db) := by
    intro hu he
    unfold AuthService.ResetPassword
    simp [hfind, hu, he]
  refine ⟨hused, hexpired, ?_, ?_, ?_⟩
  · constructor
    · rintro h ⟨hu, he⟩
      unfold AuthService.ResetPassword at h
      simp only [hfind, hu, Bool.false_eq_true, if_false, not_lt.2 he, decide_False] at h
      have ne1 : ∀ e : String, "password encryption failed: " ++ e ≠ "reset token has been used" :=
        fun e => append_ne_of_head _ _ e (by decide) (by decide)
      have ne2 : ∀ e : String, "password encryption failed: " ++ e ≠ "reset token has expired" :=
        fun e => append_ne_of_head _ _ e (by decide) (by decide)
      have ne3 : ∀ e : String, "failed to update password: " ++ e ≠ "reset token has been used" :=
        fun e => append_ne_of_head _ _ e (by decide) (by decide)
      have ne4 : ∀ e : String, "failed to update password: " ++ e ≠ "reset token has expired" :=
        fun e => append_ne_of_head _ _ e (by decide) (by decide)
      have ne5 : ∀ e : String,
          "failed to update token status: " ++ e ≠ "reset token has been used" :=
        fun e => append_ne_of_head _ _ e (by decide) (by decide)
      have ne6 : ∀ e : String, "failed to update token status: " ++ e ≠ "reset token has expired" :=
        fun e => append_ne_of_head _ _ e (by decide) (by decide)
      split at h
      · simp at h
      · split at h
        · simp [ne1, ne2] at h
        · split at h
          · simp [ne3, ne4] at h
          · split at h
            · simp [ne5, ne6] at h
            · simp at h
    · intro h
      by_cases hu : r.Used = true
      · left; rw [hused hu]
      · right
        have hu1 : r.Used = false := by simpa using hu
        have he : r.ExpiresAt < env.clock 0 := by
          by_contra hc
          exact h ⟨hu1, not_lt.1 hc⟩
        rw [hexpired hu1 he]
  · intro envF reqF user token hfF hu hok
    obtain ⟨-, hfresh, hdb⟩ := ForgotPassword_ok hfF hu hok
    refine ⟨{ ID := nextID (db.password_reset_tokens.map fun r => r.ID), UserID := user.ID,
              Token := token, ExpiresAt := envF.clock 0 + 1 * Hour, Used := false }, ?_, ?_⟩
    · rw [hdb]
      exact find?_append_fresh _ _ _ (fun a ha => by simpa using hfresh a ha) (by simp)
    · simp
  · simp [PasswordResetToken.IsValid, PasswordResetToken.IsExpired]

/-- Witness for `ResetPassword_token_checks`: in `resetDB` the row of `r0` is used and the row
of `r1` is not; `alice` asks for a new token at time 5. -/
theorem ResetPassword_token_checks_witness :
    AuthService.ResetPassword (sampleEnv (2 * Hour) 0) resetDB ⟨"r0", "newpass1"⟩
      = (.error "reset token has been used", resetDB) ∧
    AuthService.ResetPassword (sampleEnv (Hour + 1) 0) resetDB ⟨"r1", "newpass1"⟩
      = (.error "reset token has expired", resetDB) ∧
    (((AuthService.ResetPassword (sampleEnv Hour 0) resetDB ⟨"r1", "newpass1"⟩).1
          = .error "reset token has been used" ∨
        (AuthService.ResetPassword (sampleEnv Hour 0) resetDB ⟨"r1", "newpass1"⟩).1
          = .error "reset token has expired")
      ↔ ¬ ((false : Bool) = false ∧ (sampleEnv Hour 0).clock 0 ≤ Hour)) ∧
    ∃ row, (AuthService.ForgotPassword (sampleEnv 5 7) resetDB
        ⟨"alice@x.com"⟩).2.password_reset_tokens.find?
        (fun t => t.Token == "0707070707070707070707070707070707070707070707070707070707070707")
        = some row ∧
      row.UserID = alice.ID ∧ row.ExpiresAt = 5 + Hour ∧ row.Used = false :=
  ⟨(ResetPassword_token_checks (sampleEnv (2 * Hour) 0) resetDB ⟨"r0", "newpass1"⟩
      { ID := 1, UserID := 1, Token := "r0", ExpiresAt := Hour, Used := true } rfl
      (by decide)).1 rfl,
   (ResetPassword_token_checks (sampleEnv (Hour + 1) 0) resetDB ⟨"r1", "newpass1"⟩
      { ID := 2, UserID := 1, Token := "r1", ExpiresAt := Hour, Used := false } rfl
      (by decide)).2.1 rfl (by decide),
   (ResetPassword_token_checks (sampleEnv Hour 0) resetDB ⟨"r1", "newpass1"⟩
      { ID := 2, UserID := 1, Token := "r1", ExpiresAt := Hour, Used := false } rfl
      (by decide)).2.2.1,
   (ResetPassword_token_checks (sampleEnv Hour 0) resetDB ⟨"r1", "newpass1"⟩
      { ID := 2, UserID := 1, Token := "r1", ExpiresAt := Hour, Used := false } rfl
      (by decide)).2.2.2.1 (sampleEnv 5 7) ⟨"alice@x.com"⟩ alice _ rfl (by decide) (by decide)⟩

/-! ## Signup -/

/-- A successful `Signup` found no conflicting account, hashed the password and stored the
account it returns, hash included. -/
theorem Signup_ok {env : Env} {db : DB} {req : SignupRequest}
    {ipAddress userAgent : String} {resp : SignupResponse}
    (h : (AuthService.Signup env db req ipAddress userAgent).1 = .ok resp) :
    ∃ hashedPassword, env.GenerateFromPassword req.Password = .ok hashedPassword ∧
      resp = { User := { ID := nextID (db.users.map fun v => v.ID), Username := req.Username,
                         Email := req.Email, Password := hashedPassword,
                         FirstName := req.FirstName, LastName := req.LastName,
                         Phone := req.Phone, Avatar := "", Status := "active", Role := "user" }
               Message := "Registration successful" } ∧
      (AuthService.Signup env db req ipAddress userAgent).2
        = { db with users := db.users ++ [resp.User] } := by
  have h0 := h
  unfold AuthService.Signup at h
  split at h
  · simp at h
  rename_i found hfound
  simp only at h
  split at h
  · simp at h
  rename_i hconflict
  split at h
  · simp at h
  rename_i hashedPassword hh
  split at h
  · simp at h
  rename_i user1 db1 hc
  simp only [Except.ok.injEq] at h
  subst h
  obtain ⟨-, hu1, hdb1, -, -⟩ := userRepository_Create_ok hc
  refine ⟨hashedPassword, hh, ?_, ?_⟩
  · simp only [hu1]
  · unfold AuthService.Signup
    simp only [hfound, hconflict, hh, hc]
    exact hdb1

/-- The operation `Signup` hands back the stored password hash. -/
theorem Signup_password_kept {env : Env} {db : DB} {req : SignupRequest}
    {ipAddress userAgent : String} {resp : SignupResponse}
    (h : (AuthService.Signup env db req ipAddress userAgent).1 = .ok resp) :
    env.GenerateFromPassword req.Password = .ok resp.User.Password := by
  obtain ⟨hashed, hh, hresp, -⟩ := Signup_ok h
  rw [hresp]
  exact hh

/-- The operation `Signin` clears the password of the account it returns. -/
theorem Signin_password_cleared {env : Env} {db : DB} {req : SigninRequest}
    {ipAddress userAgent : String} {resp : SigninResponse}
    (h : (AuthService.Signin env db req ipAddress userAgent).1 = .ok resp) :
    resp.User.Password = "" := by
  obtain ⟨user, -, -, hresp, -⟩ := Signin_ok h
  rw [hresp]

/-- The operation `ValidateToken` clears the password of the account it returns. -/
theorem ValidateToken_password_cleared {env : Env} {db : DB} {token : String}
    {session : Session} {user : User}
    (h : (AuthService.ValidateToken env db token).1 = .ok (session, user)) :
    user.Password = "" := by
  unfold AuthService.ValidateToken at h
  split at h
  · simp at h
  split at h
  · simp at h
  simp only at h
  split at h
  · simp at h
  split at h
  · simp at h
  simp only [Except.ok.injEq, Prod.mk.injEq] at h
  rw [← h.2]

/-- C8 (the code at the failing input): `Signup` of `alice` on the empty database succeeds and
the account in its result carries the password hash, not the empty string; `Signin` and
`ValidateToken` for the same account return it with the password cleared. -/
theorem Signup_returns_password_hash :
    (AuthService.Signup (sampleEnv 0 7) emptyDB
        ⟨"alice", "alice@x.com", "secret1", "Alice", "Liddell", ""⟩ "10.0.0.1" "curl").1
      = .ok { User := alice, Message := "Registration successful" } ∧
    alice.Password = "$2a$10$secret1" ∧ alice.Password ≠ "" ∧
    (∃ resp, (AuthService.Signin (sampleEnv 0 7) twoUsersDB ⟨"alice", "secret1"⟩
        "10.0.0.1" "curl").1 = .ok resp ∧ resp.User = { alice with Password := "" }) ∧
    (AuthService.ValidateToken (sampleEnv 0 7) resetDB "s1").1
      = .ok (aliceSession, { alice with Password := "" }) := by
  refine ⟨by decide, by decide, by decide, ⟨_, rfl, rfl⟩, by decide⟩

/-- When the existence query is answered and some account has the requested username or the
requested e-mail, `Signup` fails with one of the two duplicate errors and changes nothing. -/
theorem Signup_of_exists (env : Env) (db : DB) (req : SignupRequest)
    (ipAddress userAgent : String) (hf : env.fault 0 = none)
    (h : ∃ u ∈ db.users, u.Username = req.Username ∨ u.Email = req.Email) :
    AuthService.Signup env db req ipAddress userAgent = (.error "username already exists", db) ∨
    AuthService.Signup env db req ipAddress userAgent
      = (.error "email already registered", db) := by
  obtain ⟨u, hu, hue⟩ := h
  cases hfind : db.users.find? (fun v => v.Username == req.Username || v.Email == req.Email) with
  | none =>
    rw [List.find?_eq_none] at hfind
    have := hfind u hu
    simp at this
    rcases hue with e | e
    · exact absurd e this.1
    · exact absurd e this.2
  | some v =>
    have hv := List.find?_some hfind
    simp only [Bool.or_eq_true, beq_iff_eq] at hv
    unfold AuthService.Signup userRepository.Exists
    simp only [hf, hfind]
    by_cases hn : v.Username = req.Username
    · left; simp [hn]
    · right
      have he : v.Email = req.Email := by
        rcases hv with e | e
        · exact absurd e hn
        · exact e
      simp [hn, he]

/-- An account, once stored, keeps its username and e-mail through every run. -/
theorem user_stays {db : DB} (hwf : db.WF) (calls : List (Env × Op)) {u : User}
    (hu : u ∈ db.users) :
    ∃ v ∈ (run db calls).users, v.Username = u.Username ∧ v.Email = u.Email := by
  obtain ⟨v, hv, pw, rfl⟩ := (run_evolves hwf calls).users.mem hu
  exact ⟨_, hv, rfl, rfl⟩

/-- C9: if the existence query is answered and some account has the requested username or
the requested e-mail, `Signup` fails with `username already exists` or with
`email already registered` and the database is unchanged. Consequently, on a database that
satisfies the schema, after a successful `Signup` and any sequence of engine operations,
every `Signup` with the same username (any e-mail) or the same e-mail (any username) fails
and changes nothing, with one of the two duplicate errors whenever its existence query is
answered. -/
theorem Signup_duplicate (db : DB) (calls : List (Env × Op)) :
    (∀ (env : Env) (req : SignupRequest) (ipAddress userAgent : String),
      env.fault 0 = none →
      (∃ u ∈ db.users, u.Username = req.Username ∨ u.Email = req.Email) →
      AuthService.Signup env db req ipAddress userAgent
          = (.error "username already exists", db) ∨
        AuthService.Signup env db req ipAddress userAgent
          = (.error "email already registered", db)) ∧
    (db.WF →
      ∀ (env : Env) (req : SignupRequest) (ipAddress userAgent : String),
      (∃ resp, (AuthService.Signup env db req ipAddress userAgent).1 = .ok resp) →
      ∀ (env2 : Env) (req2 : SignupRequest) (ip2 ua2 : String),
        req2.Username = req.Username ∨ req2.Email = req.Email →
        ∃ msg,
          AuthService.Signup env2
              (run (AuthService.Signup env db req ipAddress userAgent).2 calls) req2 ip2 ua2
            = (.error msg, run (AuthService.Signup env db req ipAddress userAgent).2 calls) ∧
          (env2.fault 0 = none →
            msg = "username already exists" ∨ msg = "email already registered")) := by
  refine ⟨fun env req ip ua hf h => Signup_of_exists env db req ip ua hf h, ?_⟩
  intro hwf env req ip ua ⟨resp, hok⟩ env2 req2 ip2 ua2 hsame
  obtain ⟨hashed, -, hresp, hdb⟩ := Signup_ok hok
  have hwf1 := Reach_WF (Signup_reach env db req ip ua) hwf
  have hmem : resp.User ∈ (AuthService.Signup env db req ip ua).2.users := by
    rw [hdb]; simp
  obtain ⟨v, hv, hvn, hve⟩ := user_stays hwf1 calls hmem
  have hname : resp.User.Username = req.Username := by rw [hresp]
  have hmail : resp.User.Email = req.Email := by rw [hresp]
  have hex : ∃ u ∈ (run (AuthService.Signup env db req ip ua).2 calls).users,
      u.Username = req2.Username ∨ u.Email = req2.Email := by
    refine ⟨v, hv, ?_⟩
    rcases hsame with e | e
    · left; rw [hvn, hname, e]
    · right; rw [hve, hmail, e]
  cases hf : env2.fault 0 with
  | some e =>
    refine ⟨"failed to query user: " ++ e, ?_, by simp⟩
    unfold AuthService.Signup userRepository.Exists
    simp only [hf]
  | none =>
    rcases Signup_of_exists env2 _ req2 ip2 ua2 hf hex with h | h
    · exact ⟨_, h, fun _ => Or.inl rfl⟩
    · exact ⟨_, h, fun _ => Or.inr rfl⟩

/-- Witness for `Signup_duplicate`: `alice` is registered in `twoUsersDB`; `carol` signs up in
`resetDB`, three calls follow, and her username cannot be taken again. -/
theorem Signup_duplicate_witness :
    (AuthService.Signup (sampleEnv 0 7) twoUsersDB
          ⟨"alice", "other@x.com", "secret2", "", "", ""⟩ "10.0.0.1" "curl"
        = (.error "username already exists", twoUsersDB) ∨
      AuthService.Signup (sampleEnv 0 7) twoUsersDB
          ⟨"alice", "other@x.com", "secret2", "", "", ""⟩ "10.0.0.1" "curl"
        = (.error "email already registered", twoUsersDB)) ∧
    ∃ msg,
      AuthService.Signup (sampleEnv 60 0)
          (run (AuthService.Signup (sampleEnv 10 0) resetDB
            ⟨"carol", "carol@x.com", "secret3", "", "", ""⟩ "10.0.0.1" "curl").2 sampleCalls)
          ⟨"carol", "carol2@x.com", "secret4", "", "", ""⟩ "10.0.0.2" "curl"
        = (.error msg,
            run (AuthService.Signup (sampleEnv 10 0) resetDB
              ⟨"carol", "carol@x.com", "secret3", "", "", ""⟩ "10.0.0.1" "curl").2 sampleCalls) ∧
      ((sampleEnv 60 0).fault 0 = none →
        msg = "username already exists" ∨ msg = "email already registered") :=
  ⟨(Signup_duplicate twoUsersDB []).1 (sampleEnv 0 7)
      ⟨"alice", "other@x.com", "secret2", "", "", ""⟩ "10.0.0.1" "curl" rfl
      ⟨alice, by decide, Or.inl rfl⟩,
   (Signup_duplicate resetDB sampleCalls).2 (by decide) (sampleEnv 10 0)
      ⟨"carol", "carol@x.com", "secret3", "", "", ""⟩ "10.0.0.1" "curl" ⟨_, rfl⟩ (sampleEnv 60 0)
      ⟨"carol", "carol2@x.com", "secret4", "", "", ""⟩ "10.0.0.2" "curl" (Or.inl rfl)⟩

/-- C10 (as stated, refuted): the requested username `dave` is that of account 2 and the
requested e-mail `shared@x.com` is that of account 1; the existence query returns account 1,
whose username differs, and `Signup` reports the e-mail conflict. -/
theorem Signup_reports_email_conflict :
    crossDB.WF ∧
    (∃ u ∈ crossDB.users, u.Username = "dave") ∧
    (∃ u ∈ crossDB.users, u.Email = "shared@x.com") ∧
    AuthService.Signup (sampleEnv 0 7) crossDB
        ⟨"dave", "shared@x.com", "secret5", "", "", ""⟩ "10.0.0.1" "curl"
      = (.error "email already registered", crossDB) := by
  decide

/-- C10 (amended): when the existence query is answered and returns an account (the one with
the lowest key among those having the requested username or the requested e-mail), `Signup`
fails with `username already exists` if that account has the requested username, and with
`email already registered` otherwise. In particular, on a database that satisfies the
schema, when one account has both the requested username and the requested e-mail, `Signup`
fails with `username already exists`. -/
theorem Signup_conflict_order (env : Env) (db : DB) (req : SignupRequest)
    (ipAddress userAgent : String) (hf : env.fault 0 = none) :
    (∀ u, db.users.find? (fun v => v.Username == req.Username || v.Email == req.Email) = some u →
      (u.Username = req.Username →
        AuthService.Signup env db req ipAddress userAgent
          = (.error "username already exists", db)) ∧
      (u.Username ≠ req.Username →
        AuthService.Signup env db req ipAddress userAgent
          = (.error "email already registered", db))) ∧
    (db.WF → (∃ u ∈ db.users, u.Username = req.Username ∧ u.Email = req.Email) →
      AuthService.Signup env db req ipAddress userAgent
        = (.error "username already exists", db)) := by
  have h1 : ∀ u,
      db.users.find? (fun v => v.Username == req.Username || v.Email == req.Email) = some u →
      (u.Username = req.Username →
        AuthService.Signup env db req ipAddress userAgent
          = (.error "username already exists", db)) ∧
      (u.Username ≠ req.Username →
        AuthService.Signup env db req ipAddress userAgent
          = (.error "email already registered", db)) := by
    intro u hfind
    have hv := List.find?_some hfind
    simp only [Bool.or_eq_true, beq_iff_eq] at hv
    constructor
    · intro hn
      unfold AuthService.Signup userRepository.Exists
      simp [hf, hfind, hn]
    · intro hn
      have he : u.Email = req.Email := by
        rcases hv with e | e
        · exact absurd e hn
        · exact e
      unfold AuthService.Signup userRepository.Exists
      simp [hf, hfind, hn, he]
  refine ⟨h1, ?_⟩
  rintro hwf ⟨u, hu, hun, hue⟩
  cases hfind : db.users.find? (fun v => v.Username == req.Username || v.Email == req.Email) with
  | none =>
    rw [List.find?_eq_none] at hfind
    have := hfind u hu
    simp [hun] at this
  | some v =>
    have hv := List.find?_some hfind
    simp only [Bool.or_eq_true, beq_iff_eq] at hv
    have hvmem := List.mem_of_find?_eq_some hfind
    apply (h1 v hfind).1
    rcases hv with e | e
    · exact e
    · have : v = u := List.inj_on_of_nodup_map hwf.2.2.2.2.1 hvmem hu (e.trans hue.symm)
      rw [this]
      exact hun

/-- Witness for `Signup_conflict_order`: in `twoUsersDB` a request with the username and the
e-mail of `alice`, and one with the username of `bob` and the e-mail of `alice`. -/
theorem Signup_conflict_order_witness :
    (AuthService.Signup (sampleEnv 0 7) twoUsersDB
        ⟨"alice", "alice@x.com", "secret2", "", "", ""⟩ "10.0.0.1" "curl"
      = (.error "username already exists", twoUsersDB)) ∧
    (AuthService.Signup (sampleEnv 0 7) twoUsersDB
        ⟨"bob", "alice@x.com", "secret2", "", "", ""⟩ "10.0.0.1" "curl"
      = (.error "email already registered", twoUsersDB)) ∧
    (AuthService.Signup (sampleEnv 0 7) twoUsersDB
        ⟨"alice", "alice@x.com", "secret2", "", "", ""⟩ "10.0.0.1" "curl"
      = (.error "username already exists", twoUsersDB)) :=
  ⟨((Signup_conflict_order (sampleEnv 0 7) twoUsersDB
      ⟨"alice", "alice@x.com", "secret2", "", "", ""⟩ "10.0.0.1" "curl" rfl).1 alice
      (by decide)).1 rfl,
   ((Signup_conflict_order (sampleEnv 0 7) twoUsersDB
      ⟨"bob", "alice@x.com", "secret2", "", "", ""⟩ "10.0.0.1" "curl" rfl).1 alice
      (by decide)).2 (by decide),
   (Signup_conflict_order (sampleEnv 0 7) twoUsersDB
      ⟨"alice", "alice@x.com", "secret2", "", "", ""⟩ "10.0.0.1" "curl" rfl).2 (by decide)
      ⟨alice, by decide, rfl, rfl⟩⟩

/-! ## Signup of a new account -/

/-- When nothing collides, the password is hashed and both database calls are answered,
`Signup` stores one new row and returns it. -/
theorem Signup_of_fresh (env : Env) (db : DB) (req : SignupRequest)
    (ipAddress userAgent hashedPassword : String)
    (hfresh : ∀ u ∈ db.users, u.Username ≠ req.Username ∧ u.Email ≠ req.Email)
    (hhash : env.GenerateFromPassword req.Password = .ok hashedPassword)
    (hquery : env.fault 0 = none) (hinsert : env.fault 1 = none) :
    AuthService.Signup env db req ipAddress userAgent
      = (.ok { User := { ID := nextID (db.users.map fun v => v.ID), Username := req.Username,
                         Email := req.Email, Password := hashedPassword,
                         FirstName := req.FirstName, LastName := req.LastName,
                         Phone := req.Phone, Avatar := "", Status := "active", Role := "user" }
               Message := "Registration successful" },
          { db with users := db.users ++
              [{ ID := nextID (db.users.map fun v => v.ID), Username := req.Username,
                 Email := req.Email, Password := hashedPassword, FirstName := req.FirstName,
                 LastName := req.LastName, Phone := req.Phone, Avatar := "",
                 Status := "active", Role := "user" }] }) := by
  have hnone : db.users.find? (fun v => v.Username == req.Username || v.Email == req.Email)
      = none := by
    rw [List.find?_eq_none]
    intro u hu
    have := hfresh u hu
    simp [this.1, this.2]
  have hname : (db.users.any fun u => u.Username == req.Username) = false := by
    rw [Bool.eq_false_iff]
    intro h
    obtain ⟨u, hu, he⟩ := List.any_eq_true.1 h
    exact (hfresh u hu).1 (by simpa using he)
  have hmail : (db.users.any fun u => u.Email == req.Email) = false := by
    rw [Bool.eq_false_iff]
    intro h
    obtain ⟨u, hu, he⟩ := List.any_eq_true.1 h
    exact (hfresh u hu).2 (by simpa using he)
  unfold AuthService.Signup userRepository.Exists userRepository.Create
  simp only [hquery, hinsert, hnone, hhash, hname, hmail]
  rfl

/-- C11: for a request whose username and e-mail collide with no account, when the hashing
succeeds and both database calls are answered, `Signup` succeeds and the database after it is
the database before it with exactly one account appended: a new key, the requested username,
e-mail and profile fields, status `active`, role `user`, and as password the hash of the
supplied plaintext, which (by the contract of the hasher) is not empty and verifies against
that plaintext. The other accounts, the sessions and the reset tokens are as before. -/
theorem Signup_creates_account (env : Env) (db : DB) (req : SignupRequest)
    (ipAddress userAgent hashedPassword : String)
    (hfresh : ∀ u ∈ db.users, u.Username ≠ req.Username ∧ u.Email ≠ req.Email)
    (hhash : env.GenerateFromPassword req.Password = .ok hashedPassword)
    (hbcrypt : ∀ p h, env.GenerateFromPassword p = .ok h →
      h ≠ "" ∧ env.CompareHashAndPassword h p = true)
    (hquery : env.fault 0 = none) (hinsert : env.fault 1 = none) :
    ∃ account : User,
      AuthService.Signup env db req ipAddress userAgent
        = (.ok { User := account, Message := "Registration successful" },
            { db with users := db.users ++ [account] }) ∧
      account.Username = req.Username ∧ account.Email = req.Email ∧
      account.FirstName = req.FirstName ∧ account.LastName = req.LastName ∧
      account.Phone = req.Phone ∧ account.Avatar = "" ∧
      account.Status = "active" ∧ account.Role = "user" ∧
      account.Password = hashedPassword ∧ account.Password ≠ "" ∧
      env.CompareHashAndPassword account.Password req.Password = true ∧
      (∀ u ∈ db.users, u.ID < account.ID) := by
  refine ⟨_, Signup_of_fresh env db req ipAddress userAgent hashedPassword hfresh hhash hquery
    hinsert, rfl, rfl, rfl, rfl, rfl, rfl, rfl, rfl, rfl, (hbcrypt _ _ hhash).1,
    (hbcrypt _ _ hhash).2, ?_⟩
  intro u hu
  exact nextID_gt _ _ (List.mem_map_of_mem (fun v : User => v.ID) hu)

/-- Witness for `Signup_creates_account`: `carol` signs up next to `alice` and `bob`. -/
theorem Signup_creates_account_witness :
    ∃ account : User,
      AuthService.Signup (sampleEnv 0 7) twoUsersDB
          ⟨"carol", "carol@x.com", "secret3", "Carol", "", "555"⟩ "10.0.0.1" "curl"
        = (.ok { User := account, Message := "Registration successful" },
            { twoUsersDB with users := twoUsersDB.users ++ [account] }) ∧
      account.Username = "carol" ∧ account.Email = "carol@x.com" ∧
      account.FirstName = "Carol" ∧ account.LastName = "" ∧
      account.Phone = "555" ∧ account.Avatar = "" ∧
      account.Status = "active" ∧ account.Role = "user" ∧
      account.Password = "$2a$10$secret3" ∧ account.Password ≠ "" ∧
      (sampleEnv 0 7).CompareHashAndPassword account.Password "secret3" = true ∧
      (∀ u ∈ twoUsersDB.users, u.ID < account.ID) :=
  Signup_creates_account (sampleEnv 0 7) twoUsersDB
    ⟨"carol", "carol@x.com", "secret3", "Carol", "", "555"⟩ "10.0.0.1" "curl" "$2a$10$secret3"
    (by decide) rfl
    (by
      intro p h hh
      simp only [sampleEnv, Except.ok.injEq] at hh
      subst hh
      refine ⟨append_ne_of_head _ _ p (by decide) (by decide), ?_⟩
      simp [sampleEnv])
    rfl rfl

/-! ## LogoutAll -/

/-- C13 (as stated, refuted): `LogoutAll` for `alice` on a database with four sessions. The
open session `s1` of `alice` is closed and its updated-at, 0 before the call, is 5 after it:
a field other than status has changed. A second `LogoutAll` for `alice` whose database call
fails does not succeed: it returns the storage error, wrapped. -/
theorem LogoutAll_writes_updated_at :
    sessionsDB.WF ∧
    (AuthService.LogoutAll (sampleEnv 5 0) sessionsDB 1).1 = .ok () ∧
    sessionsDB.sessions.find? (fun r => r.Token == "s1") = some aliceSession ∧
    aliceSession.UpdatedAt = 0 ∧
    (AuthService.LogoutAll (sampleEnv 5 0) sessionsDB 1).2.sessions.find?
        (fun r => r.Token == "s1")
      = some { aliceSession with Status := "logout", UpdatedAt := 5 } ∧
    AuthService.LogoutAll (failingEnv 6 0 0)
        (AuthService.LogoutAll (sampleEnv 5 0) sessionsDB 1).2 1
      = (.error "failed to logout all sessions: database is locked",
          (AuthService.LogoutAll (sampleEnv 5 0) sessionsDB 1).2) := by
  decide

/-- C13 (amended): after a `LogoutAll` that succeeds, the accounts and the reset tokens are as
before, and every session row is as before except that those owned by the account and
`active` have status `logout` and updated-at the clock reading of the ORM during the call (no
other field of any row changes, rows of other accounts and rows not `active` are untouched);
a second `LogoutAll` for the same account changes nothing, succeeds when its database call is
answered and returns the storage error, prefixed with `failed to logout all sessions: `,
when that call fails. -/
theorem LogoutAll_frame (env : Env) (db : DB) (userID : Nat)
    (hok : (AuthService.LogoutAll env db userID).1 = .ok ()) :
    (AuthService.LogoutAll env db userID).2
      = { db with sessions := db.sessions.map fun s =>
            if s.UserID = userID ∧ s.Status = "active" then
              { s with Status := "logout", UpdatedAt := env.dbClock 0 }
            else s } ∧
    (∀ r ∈ (AuthService.LogoutAll env db userID).2.sessions,
      r.UserID = userID → r.Status ≠ "active") ∧
    (∀ env2 : Env,
      (env2.fault 0 = none →
        AuthService.LogoutAll env2 (AuthService.LogoutAll env db userID).2 userID
          = (.ok (), (AuthService.LogoutAll env db userID).2)) ∧
      (∀ e, env2.fault 0 = some e →
        AuthService.LogoutAll env2 (AuthService.LogoutAll env db userID).2 userID
          = (.error ("failed to logout all sessions: " ++ e),
              (AuthService.LogoutAll env db userID).2))) := by
  have hf : env.fault 0 = none := by
    cases h : env.fault 0 with
    | none => rfl
    | some e =>
      simp [AuthService.LogoutAll, sessionRepository.UpdateStatusByUserID, h] at hok
  have hdb : (AuthService.LogoutAll env db userID).2
      = { db with sessions := db.sessions.map fun s =>
            if s.UserID = userID ∧ s.Status = "active" then
              { s with Status := "logout", UpdatedAt := env.dbClock 0 }
            else s } := by
    simp only [AuthService.LogoutAll, sessionRepository.UpdateStatusByUserID, hf]
    congr 1
    apply List.map_congr_left
    intro s _
    by_cases h1 : s.UserID = userID <;> by_cases h2 : s.Status = "active" <;> simp [h1, h2]
  have hnot : ∀ r ∈ (AuthService.LogoutAll env db userID).2.sessions,
      r.UserID = userID → r.Status ≠ "active" := by
    rw [hdb]
    intro r hr howner
    simp only [List.mem_map] at hr
    obtain ⟨s, -, rfl⟩ := hr
    by_cases h : s.UserID = userID ∧ s.Status = "active"
    · simp [h]
    · rw [if_neg h] at howner ⊢
      exact fun hc => h ⟨howner, hc⟩
  refine ⟨hdb, hnot, ?_⟩
  intro env2
  constructor
  · intro hf2
    have hid : ((AuthService.LogoutAll env db userID).2.sessions.map fun s =>
        if (s.UserID == userID && s.Status == "active") = true then
          { s with Status := "logout", UpdatedAt := env2.dbClock 0 }
        else s) = (AuthService.LogoutAll env db userID).2.sessions := by
      conv_rhs => rw [← List.map_id (AuthService.LogoutAll env db userID).2.sessions]
      apply List.map_congr_left
      intro s hs
      by_cases h1 : s.UserID = userID
      · have := hnot s hs h1
        simp [h1, this]
      · simp [h1]
    generalize (AuthService.LogoutAll env db userID).2 = db1 at hid ⊢
    simp only [AuthService.LogoutAll, sessionRepository.UpdateStatusByUserID, hf2]
    rw [hid]
  · intro e hf2
    simp only [AuthService.LogoutAll, sessionRepository.UpdateStatusByUserID, hf2]

/-- Witness for `LogoutAll_frame`: `LogoutAll` for `alice` on a database with four sessions
closes her two open sessions and leaves her closed session and the session of `bob` as they
were. -/
theorem LogoutAll_frame_witness :
    ((AuthService.LogoutAll (sampleEnv 5 0) sessionsDB 1).2
      = { sessionsDB with sessions := sessionsDB.sessions.map fun s =>
            if s.UserID = 1 ∧ s.Status = "active" then
              { s with Status := "logout", UpdatedAt := (sampleEnv 5 0).dbClock 0 }
            else s } ∧
    (∀ r ∈ (AuthService.LogoutAll (sampleEnv 5 0) sessionsDB 1).2.sessions,
      r.UserID = 1 → r.Status ≠ "active") ∧
    (∀ env2 : Env,
      (env2.fault 0 = none →
        AuthService.LogoutAll env2 (AuthService.LogoutAll (sampleEnv 5 0) sessionsDB 1).2 1
          = (.ok (), (AuthService.LogoutAll (sampleEnv 5 0) sessionsDB 1).2)) ∧
      (∀ e, env2.fault 0 = some e →
        AuthService.LogoutAll env2 (AuthService.LogoutAll (sampleEnv 5 0) sessionsDB 1).2 1
          = (.error ("failed to logout all sessions: " ++ e),
              (AuthService.LogoutAll (sampleEnv 5 0) sessionsDB 1).2)))) ∧
    (AuthService.LogoutAll (sampleEnv 5 0) sessionsDB 1).2.sessions
      = [{ aliceSession with Status := "logout", UpdatedAt := 5 }, aliceClosedSession,
         bobSession, { aliceSecondSession with Status := "logout", UpdatedAt := 5 }] :=
  ⟨LogoutAll_frame (sampleEnv 5 0) sessionsDB 1 (by decide), by decide⟩

/-! ## Signin of an active account -/

/-- When the lookup returns an active account, the password verifies, a token is generated
that no session carries yet, and both database calls are answered, `Signin` stores one new
session row and returns it with the account, password cleared, and the token. -/
theorem Signin_of_match (env : Env) (db : DB) (req : SigninRequest)
    (ipAddress userAgent token : String) (user : User)
    (hfind : db.users.find? (fun u => u.Username == req.Username || u.Email == req.Username)
      = some user)
    (hactive : user.Status = "active")
    (hverify : env.CompareHashAndPassword user.Password req.Password = true)
    (htoken : generateToken env.rand = .ok token)
    (hnew : ∀ s ∈ db.sessions, s.Token ≠ token)
    (hquery : env.fault 0 = none) (hinsert : env.fault 1 = none) :
    AuthService.Signin env db req ipAddress userAgent
      = (.ok { User := { user with Password := "" }
               Session := { ID := nextID (db.sessions.map fun r => r.ID), UserID := user.ID,
                            Token := token, IPAddress := ipAddress, UserAgent := userAgent,
                            Device := "", Platform := "", Status := "active",
                            ExpiresAt := env.clock 1 + 24 * 7 * Hour,
                            LastUsedAt := some (env.clock 0), UpdatedAt := env.dbClock 1 }
               Token := token, Message := "Login successful" },
          { db with sessions := db.sessions ++
              [{ ID := nextID (db.sessions.map fun r => r.ID), UserID := user.ID,
                 Token := token, IPAddress := ipAddress, UserAgent := userAgent,
                 Device := "", Platform := "", Status := "active",
                 ExpiresAt := env.clock 1 + 24 * 7 * Hour,
                 LastUsedAt := some (env.clock 0), UpdatedAt := env.dbClock 1 }] }) := by
  have hany : (db.sessions.any fun s => s.Token == token) = false := by
    rw [Bool.eq_false_iff]
    intro h
    obtain ⟨r, hr, he⟩ := List.any_eq_true.1 h
    exact hnew r hr (by simpa using he)
  unfold AuthService.Signin userRepository.FindByUsernameOrEmail sessionRepository.Create
  simp only [hquery, hinsert, hfind, htoken, hany]
  simp [hactive, hverify]

/-- C12 (as stated, refuted): `alice` signs in while the clock advances by one nanosecond from
one reading to the next: last-used-at is the first reading, 100, and expires-at is the second
reading plus 7 days, so there is no single `now` with last-used-at `now` and expires-at
`now` + 7 days. -/
theorem Signin_reads_clock_twice :
    twoUsersDB.WF ∧
    ∃ resp, (AuthService.Signin (tickingEnv 100 7) twoUsersDB ⟨"alice", "secret1"⟩
        "10.0.0.1" "curl").1 = .ok resp ∧
      resp.Session.LastUsedAt = some 100 ∧
      resp.Session.ExpiresAt = 101 + 7 * (24 * Hour) ∧
      ¬ ∃ now : Int, resp.Session.LastUsedAt = some now ∧
          resp.Session.ExpiresAt = now + 7 * (24 * Hour) := by
  refine ⟨by decide, _, rfl, rfl, by decide, ?_⟩
  rintro ⟨now, h1, h2⟩
  have e1 : (100 : Int) = now := by simpa [tickingEnv] using h1
  have e2 : (101 : Int) + 24 * 7 * Hour = now + 7 * (24 * Hour) := by
    simpa [tickingEnv] using h2
  rw [← e1] at e2
  simp only [Hour] at e2
  omega

/-- C12 (amended): when the lookup is answered and returns an account: if the account is
`active`, the password verifies, a token is generated that no session carries yet and the
insert is answered, `Signin` succeeds and the database after it is the database before it
with exactly one session appended, with a new key, owned by that account, status `active`,
the given IP address and user agent, the returned token, last-used-at the first clock
reading of the call and expires-at the second clock reading of the call plus 7 days (so
last-used-at `now` and expires-at `now` + 7 days when both readings are `now`); if the
account is not `active`, `Signin` fails with `account has been disabled` and changes
nothing. -/
theorem Signin_creates_session (env : Env) (db : DB) (req : SigninRequest)
    (ipAddress userAgent : String) (user : User)
    (hfind : db.users.find? (fun u => u.Username == req.Username || u.Email == req.Username)
      = some user)
    (hquery : env.fault 0 = none) :
    (user.Status = "active" →
      env.CompareHashAndPassword user.Password req.Password = true →
      ∀ token, generateToken env.rand = .ok token → (∀ s ∈ db.sessions, s.Token ≠ token) →
      env.fault 1 = none →
      ∃ session : Session,
        AuthService.Signin env db req ipAddress userAgent
          = (.ok { User := { user with Password := "" }, Session := session, Token := token,
                   Message := "Login successful" },
              { db with sessions := db.sessions ++ [session] }) ∧
        session.UserID = user.ID ∧ session.Token = token ∧ session.Status = "active" ∧
        session.IPAddress = ipAddress ∧ session.UserAgent = userAgent ∧
        session.LastUsedAt = some (env.clock 0) ∧
        session.ExpiresAt = env.clock 1 + 7 * (24 * Hour) ∧
        (∀ now, env.clock 0 = now → env.clock 1 = now →
          session.LastUsedAt = some now ∧ session.ExpiresAt = now + 7 * (24 * Hour)) ∧
        (∀ s ∈ db.sessions, s.ID < session.ID)) ∧
    (user.Status ≠ "active" →
      AuthService.Signin env db req ipAddress userAgent
        = (.error "account has been disabled", db)) := by
  constructor
  · intro hactive hverify token htoken hnew hinsert
    refine ⟨_, Signin_of_match env db req ipAddress userAgent token user hfind hactive hverify
      htoken hnew hquery hinsert, rfl, rfl, rfl, rfl, rfl, rfl, ?_, ?_, ?_⟩
    · show env.clock 1 + 24 * 7 * Hour = env.clock 1 + 7 * (24 * Hour)
      ring
    · intro now h0 h1
      refine ⟨by rw [← h0], ?_⟩
      show env.clock 1 + 24 * 7 * Hour = now + 7 * (24 * Hour)
      rw [h1]
      ring
    · intro s hs
      exact nextID_gt _ _ (List.mem_map_of_mem (fun r : Session => r.ID) hs)
  · intro hdisabled
    unfold AuthService.Signin userRepository.FindByUsernameOrEmail
    simp [hquery, hfind, hdisabled]

/-- Witness for `Signin_creates_session`: `alice` signs in, `bob`, banned, is turned away. -/
theorem Signin_creates_session_witness :
    (∃ session : Session,
      AuthService.Signin (sampleEnv 100 7) twoUsersDB ⟨"alice", "secret1"⟩ "10.0.0.1" "curl"
        = (.ok { User := { alice with Password := "" }, Session := session,
                 Token := "0707070707070707070707070707070707070707070707070707070707070707",
                 Message := "Login successful" },
            { twoUsersDB with sessions := twoUsersDB.sessions ++ [session] }) ∧
      session.UserID = alice.ID ∧
      session.Token = "0707070707070707070707070707070707070707070707070707070707070707" ∧
      session.Status = "active" ∧
      session.IPAddress = "10.0.0.1" ∧ session.UserAgent = "curl" ∧
      session.LastUsedAt = some ((sampleEnv 100 7).clock 0) ∧
      session.ExpiresAt = (sampleEnv 100 7).clock 1 + 7 * (24 * Hour) ∧
      (∀ now, (sampleEnv 100 7).clock 0 = now → (sampleEnv 100 7).clock 1 = now →
        session.LastUsedAt = some now ∧ session.ExpiresAt = now + 7 * (24 * Hour)) ∧
      (∀ s ∈ twoUsersDB.sessions, s.ID < session.ID)) ∧
    AuthService.Signin (sampleEnv 100 7) twoUsersDB ⟨"bob", "hunter2"⟩ "10.0.0.1" "curl"
      = (.error "account has been disabled", twoUsersDB) :=
  ⟨(Signin_creates_session (sampleEnv 100 7) twoUsersDB ⟨"alice", "secret1"⟩ "10.0.0.1" "curl"
      alice (by decide) rfl).1 rfl (by decide) _ rfl (by decide) rfl,
   (Signin_creates_session (sampleEnv 100 7) twoUsersDB ⟨"bob", "hunter2"⟩ "10.0.0.1" "curl"
      bob (by decide) rfl).2 (by decide)⟩

/-! ## Storage errors -/

/-- When every check passes and the four database calls before `LogoutAll` are answered,
`ResetPassword` saves the account with the new hash, saves the token row as used, calls
`LogoutAll` and succeeds. -/
theorem ResetPassword_of_valid (env : Env) (db : DB) (req : ResetPasswordRequest)
    (resetToken : PasswordResetToken) (user : User) (hashedPassword : String)
    (hrt : db.password_reset_tokens.find? (fun t => t.Token == req.Token) = some resetToken)
    (hunused : resetToken.Used = false) (hlive : ¬ resetToken.ExpiresAt < env.clock 0)
    (hu : db.users.find? (fun v => v.ID == resetToken.UserID) = some user)
    (hhash : env.GenerateFromPassword req.NewPassword = .ok hashedPassword)
    (h0 : env.fault 0 = none) (h1 : env.fault 1 = none) (h2 : env.fault 2 = none)
    (h3 : env.fault 3 = none) :
    AuthService.ResetPassword env db req
      = (.ok (), (AuthService.LogoutAll (env.skipFaults 4)
          (passwordResetTokenRepository.Update none
            (userRepository.Update none db { user with Password := hashedPassword }).2
            { resetToken with Used := true }).2 user.ID).2) := by
  unfold AuthService.ResetPassword passwordResetTokenRepository.FindByToken
    userRepository.FindByID
  simp only [h0, h1, h2, h3, hrt, hu, hhash, hunused, hlive, Bool.false_eq_true, if_false,
    decide_False]
  rfl

/-- C16 (as stated, refuted): the account lookup fails with the storage error
`database is locked`; `Signin` reports `username or password incorrect` and
`ForgotPassword` returns the generic message as a success, while with the lookup answered the
same two calls find `alice`. Likewise, when the lookup of the account by key fails with that
storage error, `ResetPassword` and `ValidateToken` report `user does not exist`. -/
theorem lookup_storage_error_hidden :
    (failingEnv 0 7 0).fault 0 = some "database is locked" ∧
    AuthService.Signin (failingEnv 0 7 0) twoUsersDB ⟨"alice", "secret1"⟩ "10.0.0.1" "curl"
      = (.error "username or password incorrect", twoUsersDB) ∧
    AuthService.ForgotPassword (failingEnv 0 7 0) twoUsersDB ⟨"alice@x.com"⟩
      = (.ok "If the email exists, reset link has been sent", twoUsersDB) ∧
    (∃ resp, (AuthService.Signin (sampleEnv 0 7) twoUsersDB ⟨"alice", "secret1"⟩
      "10.0.0.1" "curl").1 = .ok resp) ∧
    (AuthService.ForgotPassword (sampleEnv 0 7) twoUsersDB ⟨"alice@x.com"⟩).1
      = .ok "0707070707070707070707070707070707070707070707070707070707070707" ∧
    (failingEnv 0 7 1).fault 1 = some "database is locked" ∧
    AuthService.ResetPassword (failingEnv 0 7 1) resetDB ⟨"r1", "newpass1"⟩
      = (.error "user does not exist", resetDB) ∧
    (failingEnv 0 7 2).fault 2 = some "database is locked" ∧
    (AuthService.ValidateToken (failingEnv 0 7 2) resetDB "s1").1
      = .error "user does not exist" := by
  refine ⟨rfl, by decide, by decide, ⟨_, rfl⟩, by decide, rfl, by decide, rfl, by decide⟩

/-- C16 (amended): a storage error `msg` of a database call is returned by the operation as
its failure, bare or after a fixed phrase, at these calls: both calls of `Signup`, the
insert of `Signin`, both calls of `Logout`, the call of `LogoutAll`, the insert of
`ForgotPassword`, the token lookup and the two saves of `ResetPassword`, and the session
lookup of `ValidateToken`. The account lookup of `Signin` reports every error as
`username or password incorrect`, and the account lookup of `ForgotPassword` answers every
error with the generic success message. -/
theorem storage_errors_surface (env : Env) (db : DB) (msg : String) :
    (env.fault 0 = some msg → ∀ (req : SignupRequest) (ipAddress userAgent : String),
      AuthService.Signup env db req ipAddress userAgent
        = (.error ("failed to query user: " ++ msg), db)) ∧
    (env.fault 0 = none → env.fault 1 = some msg →
      ∀ (req : SignupRequest) (ipAddress userAgent hashedPassword : String),
      (∀ u ∈ db.users, u.Username ≠ req.Username ∧ u.Email ≠ req.Email) →
      env.GenerateFromPassword req.Password = .ok hashedPassword →
      AuthService.Signup env db req ipAddress userAgent
        = (.error ("failed to create user: " ++ msg), db)) ∧
    (env.fault 0 = none → env.fault 1 = some msg →
      ∀ (req : SigninRequest) (ipAddress userAgent token : String) (user : User),
      db.users.find? (fun u => u.Username == req.Username || u.Email == req.Username)
        = some user →
      user.Status = "active" → env.CompareHashAndPassword user.Password req.Password = true →
      generateToken env.rand = .ok token →
      AuthService.Signin env db req ipAddress userAgent
        = (.error ("failed to create session: " ++ msg), db)) ∧
    (env.fault 0 = some msg → ∀ token : String,
      AuthService.Logout env db token = (.error msg, db)) ∧
    (env.fault 0 = none → env.fault 1 = some msg → ∀ (token : String) (session : Session),
      db.sessions.find? (fun r => r.Token == token) = some session →
      AuthService.Logout env db token
        = (.error ("failed to update session status: " ++ msg), db)) ∧
    (env.fault 0 = some msg → ∀ userID : Nat,
      AuthService.LogoutAll env db userID
        = (.error ("failed to logout all sessions: " ++ msg), db)) ∧
    (env.fault 0 = none → env.fault 1 = some msg →
      ∀ (req : ForgotPasswordRequest) (user : User) (token : String),
      db.users.find? (fun u => u.Email == req.Email) = some user →
      generateToken env.rand = .ok token →
      AuthService.ForgotPassword env db req
        = (.error ("failed to create reset token: " ++ msg), db)) ∧
    (env.fault 0 = some msg → ∀ req : ResetPasswordRequest,
      AuthService.ResetPassword env db req = (.error msg, db)) ∧
    (env.fault 0 = none → env.fault 1 = none → env.fault 2 = some msg →
      ∀ (req : ResetPasswordRequest) (resetToken : PasswordResetToken) (user : User)
        (hashedPassword : String),
      db.password_reset_tokens.find? (fun t => t.Token == req.Token) = some resetToken →
      resetToken.Used = false → ¬ resetToken.ExpiresAt < env.clock 0 →
      db.users.find? (fun v => v.ID == resetToken.UserID) = some user →
      env.GenerateFromPassword req.NewPassword = .ok hashedPassword →
      AuthService.ResetPassword env db req
        = (.error ("failed to update password: " ++ msg), db)) ∧
    (env.fault 0 = none → env.fault 1 = none → env.fault 2 = none → env.fault 3 = some msg →
      ∀ (req : ResetPasswordRequest) (resetToken : PasswordResetToken) (user : User)
        (hashedPassword : String),
      db.password_reset_tokens.find? (fun t => t.Token == req.Token) = some resetToken →
      resetToken.Used = false → ¬ resetToken.ExpiresAt < env.clock 0 →
      db.users.find? (fun v => v.ID == resetToken.UserID) = some user →
      env.GenerateFromPassword req.NewPassword = .ok hashedPassword →
      AuthService.ResetPassword env db req
        = (.error ("failed to update token status: " ++ msg),
            (userRepository.Update none db { user with Password := hashedPassword }).2)) ∧
    (env.fault 0 = some msg → ∀ token : String,
      AuthService.ValidateToken env db token = (.error msg, db)) ∧
    (env.fault 0 = some msg → ∀ (req : SigninRequest) (ipAddress userAgent : String),
      AuthService.Signin env db req ipAddress userAgent
        = (.error "username or password incorrect", db)) ∧
    (env.fault 0 = some msg → ∀ req : ForgotPasswordRequest,
      AuthService.ForgotPassword env db req
        = (.ok "If the email exists, reset link has been sent", db)) := by
  refine ⟨?_, ?_, ?_, ?_, ?_, ?_, ?_, ?_, ?_, ?_, ?_, ?_, ?_⟩
  · intro h0 req ip ua
    simp [AuthService.Signup, userRepository.Exists, h0]
  · intro h0 h1 req ip ua hashed hfresh hhash
    have hnone : db.users.find? (fun v => v.Username == req.Username || v.Email == req.Email)
        = none := by
      rw [List.find?_eq_none]
      intro u hu
      have := hfresh u hu
      simp [this.1, this.2]
    simp [AuthService.Signup, userRepository.Exists, userRepository.Create, h0, h1, hnone, hhash]
  · intro h0 h1 req ip ua token user hfind hactive hverify htoken
    unfold AuthService.Signin userRepository.FindByUsernameOrEmail sessionRepository.Create
    simp only [h0, h1, hfind, htoken]
    simp [hactive, hverify]
  · intro h0 token
    simp [AuthService.Logout, sessionRepository.FindByToken, h0]
  · intro h0 h1 token session hs
    simp [AuthService.Logout, sessionRepository.FindByToken, sessionRepository.Update, h0, h1, hs]
  · intro h0 userID
    simp [AuthService.LogoutAll, sessionRepository.UpdateStatusByUserID, h0]
  · intro h0 h1 req user token hu htoken
    simp [AuthService.ForgotPassword, userRepository.FindByEmail,
      passwordResetTokenRepository.Create, h0, h1, hu, htoken]
  · intro h0 req
    simp [AuthService.ResetPassword, passwordResetTokenRepository.FindByToken, h0]
  · intro h0 h1 h2 req rt user hashed hrt hunused hlive hu hhash
    unfold AuthService.ResetPassword passwordResetTokenRepository.FindByToken
      userRepository.FindByID userRepository.Update
    simp only [h0, h1, h2, hrt, hu, hhash, hunused, hlive, Bool.false_eq_true, if_false,
      decide_False]
  · intro h0 h1 h2 h3 req rt user hashed hrt hunused hlive hu hhash
    unfold AuthService.ResetPassword passwordResetTokenRepository.FindByToken
      userRepository.FindByID passwordResetTokenRepository.Update
    simp only [h0, h1, h2, h3, hrt, hu, hhash, hunused, hlive, Bool.false_eq_true, if_false,
      decide_False]
    rfl
  · intro h0 token
    simp [AuthService.ValidateToken, sessionRepository.FindByToken, h0]
  · intro h0 req ip ua
    simp [AuthService.Signin, userRepository.FindByUsernameOrEmail, h0]
  · intro h0 req
    simp [AuthService.ForgotPassword, userRepository.FindByEmail, h0]

/-- Witness for `storage_errors_surface`: each of the thirteen calls fails in turn with
`database is locked`, on `twoUsersDB` or on `resetDB`. -/
theorem storage_errors_surface_witness :
    (AuthService.Signup (failingEnv 0 7 0) twoUsersDB
        ⟨"carol", "carol@x.com", "secret3", "", "", ""⟩ "10.0.0.1" "curl"
      = (.error ("failed to query user: " ++ "database is locked"), twoUsersDB)) ∧
    (AuthService.Signup (failingEnv 0 7 1) twoUsersDB
        ⟨"carol", "carol@x.com", "secret3", "", "", ""⟩ "10.0.0.1" "curl"
      = (.error ("failed to create user: " ++ "database is locked"), twoUsersDB)) ∧
    (AuthService.Signin (failingEnv 0 7 1) twoUsersDB ⟨"alice", "secret1"⟩ "10.0.0.1" "curl"
      = (.error ("failed to create session: " ++ "database is locked"), twoUsersDB)) ∧
    (AuthService.Logout (failingEnv 0 7 0) resetDB "s1"
      = (.error "database is locked", resetDB)) ∧
    (AuthService.Logout (failingEnv 0 7 1) resetDB "s1"
      = (.error ("failed to update session status: " ++ "database is locked"), resetDB)) ∧
    (AuthService.LogoutAll (failingEnv 0 7 0) resetDB 1
      = (.error ("failed to logout all sessions: " ++ "database is locked"), resetDB)) ∧
    (AuthService.ForgotPassword (failingEnv 0 7 1) twoUsersDB ⟨"alice@x.com"⟩
      = (.error ("failed to create reset token: " ++ "database is locked"), twoUsersDB)) ∧
    (AuthService.ResetPassword (failingEnv 0 7 0) resetDB ⟨"r1", "newpass1"⟩
      = (.error "database is locked", resetDB)) ∧
    (AuthService.ResetPassword (failingEnv 0 7 2) resetDB ⟨"r1", "newpass1"⟩
      = (.error ("failed to update password: " ++ "database is locked"), resetDB)) ∧
    (AuthService.ResetPassword (failingEnv 0 7 3) resetDB ⟨"r1", "newpass1"⟩
      = (.error ("failed to update token status: " ++ "database is locked"),
          (userRepository.Update none resetDB { alice with Password := "$2a$10$newpass1" }).2)) ∧
    (AuthService.ValidateToken (failingEnv 0 7 0) resetDB "s1"
      = (.error "database is locked", resetDB)) ∧
    (AuthService.Signin (failingEnv 0 7 0) twoUsersDB ⟨"alice", "secret1"⟩ "10.0.0.1" "curl"
      = (.error "username or password incorrect", twoUsersDB)) ∧
    (AuthService.ForgotPassword (failingEnv 0 7 0) twoUsersDB ⟨"alice@x.com"⟩
      = (.ok "If the email exists, reset link has been sent", twoUsersDB)) :=
  ⟨(storage_errors_surface (failingEnv 0 7 0) twoUsersDB "database is locked").1 rfl _ _ _,
   (storage_errors_surface (failingEnv 0 7 1) twoUsersDB "database is locked").2.1 rfl rfl
      _ _ _ "$2a$10$secret3" (by decide) rfl,
   (storage_errors_surface (failingEnv 0 7 1) twoUsersDB "database is locked").2.2.1 rfl rfl
      _ _ _ _ alice (by decide) rfl (by decide) rfl,
   (storage_errors_surface (failingEnv 0 7 0) resetDB "database is locked").2.2.2.1 rfl _,
   (storage_errors_surface (failingEnv 0 7 1) resetDB "database is locked").2.2.2.2.1 rfl rfl
      _ aliceSession (by decide),
   (storage_errors_surface (failingEnv 0 7 0) resetDB "database is locked").2.2.2.2.2.1 rfl _,
   (storage_errors_surface (failingEnv 0 7 1) twoUsersDB
      "database is locked").2.2.2.2.2.2.1 rfl rfl _ alice _ (by decide) rfl,
   (storage_errors_surface (failingEnv 0 7 0) resetDB
      "database is locked").2.2.2.2.2.2.2.1 rfl _,
   (storage_errors_surface (failingEnv 0 7 2) resetDB
      "database is locked").2.2.2.2.2.2.2.2.1 rfl rfl rfl _
      { ID := 2, UserID := 1, Token := "r1", ExpiresAt := Hour, Used := false } alice
      "$2a$10$newpass1" (by decide) rfl (by decide) (by decide) rfl,
   (storage_errors_surface (failingEnv 0 7 3) resetDB
      "database is locked").2.2.2.2.2.2.2.2.2.1 rfl rfl rfl rfl _
      { ID := 2, UserID := 1, Token := "r1", ExpiresAt := Hour, Used := false } alice
      "$2a$10$newpass1" (by decide) rfl (by decide) (by decide) rfl,
   (storage_errors_surface (failingEnv 0 7 0) resetDB
      "database is locked").2.2.2.2.2.2.2.2.2.2.1 rfl _,
   (storage_errors_surface (failingEnv 0 7 0) twoUsersDB
      "database is locked").2.2.2.2.2.2.2.2.2.2.2.1 rfl _ _ _,
   (storage_errors_surface (failingEnv 0 7 0) twoUsersDB
      "database is locked").2.2.2.2.2.2.2.2.2.2.2.2 rfl _⟩

/-! ## Signup, Signin, ValidateToken, Logout in sequence -/

/-- When both database calls are answered and the token finds a session, `Logout` saves it
with status `logout` and succeeds. -/
theorem Logout_of_found (env : Env) (db : DB) (token : String) (session : Session)
    (hs : db.sessions.find? (fun r => r.Token == token) = some session)
    (h0 : env.fault 0 = none) (h1 : env.fault 1 = none) :
    AuthService.Logout env db token
      = (.ok (), (sessionRepository.Update none (env.dbClock 1) db
          { session with Status := "logout" }).2) := by
  unfold AuthService.Logout sessionRepository.FindByToken
  simp only [h0, h1, hs]
  rfl

/-- When the lookup is answered and no session carries the token, `Logout` fails with
`session does not exist` and changes nothing. -/
theorem Logout_of_absent (env : Env) (db : DB) (token : String)
    (hnone : ∀ s ∈ db.sessions, s.Token ≠ token) (h0 : env.fault 0 = none) :
    AuthService.Logout env db token = (.error "session does not exist", db) := by
  have hfind : db.sessions.find? (fun r => r.Token == token) = none := by
    rw [List.find?_eq_none]
    intro r hr
    simpa using hnone r hr
  unfold AuthService.Logout sessionRepository.FindByToken
  simp only [h0, hfind]

/-- On a database that satisfies the schema, a session found by its token and saved with
another status is found by the same token afterwards, with that status and the updated-at
written by the save. -/
theorem session_saved_found {db : DB} (hwf : db.WF) {token : String} {session : Session}
    (hs : db.sessions.find? (fun r => r.Token == token) = some session) (status : String)
    (now : Int) :
    (sessionRepository.Update none now db { session with Status := status }).2.sessions.find?
      (fun r => r.Token == token) = some { session with Status := status, UpdatedAt := now } := by
  have e := save_eq (fun v : Session => v.ID) hwf.2.1 (List.mem_of_find?_eq_some hs)
    { session with Status := status, UpdatedAt := now }
  simp only at e
  simp only [sessionRepository.Update, e]
  rw [List.find?_map]
  have hp : ((fun r : Session => r.Token == token) ∘
      fun r => if r = session then { session with Status := status, UpdatedAt := now } else r)
      = fun r : Session => r.Token == token := by
    funext r
    simp only [Function.comp]
    split
    · subst_vars; rfl
    · rfl
  rw [hp, hs]
  simp

/-- On a database that satisfies the schema, saving with status `logout` a session row that
has that status already changes the updated-at of that row and nothing else. -/
theorem session_saved_again {db : DB} (hwf : db.WF) {session : Session}
    (hs : session ∈ db.sessions) (hst : session.Status = "logout") (now : Int) :
    (sessionRepository.Update none now db { session with Status := "logout" }).2
      = { db with sessions := db.sessions.map fun r =>
            if r.ID = session.ID then { r with UpdatedAt := now } else r } := by
  simp only [sessionRepository.Update]
  congr 1
  apply List.map_congr_left
  intro v hv
  by_cases h : v.ID = session.ID
  · have e := eq_of_id_eq (fun r : Session => r.ID) hwf.2.1 hv hs h
    subst e
    simp [hst]
  · simp [h]

/-- When the session lookup and the account lookup are answered, the token finds an `active`
session that has not expired and its owner is found and `active`, `ValidateToken` succeeds
with the session as read and the account with its password cleared; the write of
last-used-at may fail or not. -/
theorem ValidateToken_of_live (env : Env) (db : DB) (token : String) (session : Session)
    (user : User)
    (hs : db.sessions.find? (fun r => r.Token == token) = some session)
    (hactive : session.Status = "active") (hlive : env.clock 0 ≤ session.ExpiresAt)
    (hu : db.users.find? (fun v => v.ID == session.UserID) = some user)
    (huser : user.Status = "active") (h0 : env.fault 0 = none) (h2 : env.fault 2 = none) :
    AuthService.ValidateToken env db token
      = (.ok (session, { user with Password := "" }),
          (sessionRepository.UpdateLastUsedAt (env.fault 1) (env.dbClock 1) db session.ID
            (env.clock 1)).2) := by
  have husers : (sessionRepository.UpdateLastUsedAt (env.fault 1) (env.dbClock 1) db session.ID
      (env.clock 1)).2.users = db.users := by
    unfold sessionRepository.UpdateLastUsedAt
    cases env.fault 1 <;> rfl
  have hact : session.IsActive (env.clock 0) = true := by
    simp [Session.IsActive, Session.IsExpired, hactive, hlive]
  unfold AuthService.ValidateToken sessionRepository.FindByToken userRepository.FindByID
  simp only [h0, h2, hs, hact, husers, hu]
  simp [huser]

/-- C14 (as stated, refuted): in `crossDB` no account has the username `shared@x.com` or the
e-mail `new@x.com`, and `Signup` with them succeeds; but `carol`, who has a lower key, has the
e-mail `shared@x.com`, so `Signin` with the new username and its password looks up `carol`
and fails with `username or password incorrect`. -/
theorem Signin_after_Signup_shadowed :
    crossDB.WF ∧
    (∀ u ∈ crossDB.users, u.Username ≠ "shared@x.com" ∧ u.Email ≠ "new@x.com") ∧
    (∃ resp, (AuthService.Signup (sampleEnv 0 7) crossDB
        ⟨"shared@x.com", "new@x.com", "secret5", "", "", ""⟩ "10.0.0.1" "curl").1 = .ok resp) ∧
    (AuthService.Signin (sampleEnv 10 8)
        (AuthService.Signup (sampleEnv 0 7) crossDB
          ⟨"shared@x.com", "new@x.com", "secret5", "", "", ""⟩ "10.0.0.1" "curl").2
        ⟨"shared@x.com", "secret5"⟩ "10.0.0.1" "curl").1
      = .error "username or password incorrect" := by
  refine ⟨by decide, by decide, ⟨_, rfl⟩, by decide⟩

/-- The account stored by `Signup_of_fresh`, by its properties. -/
theorem Signup_of_fresh_account (env : Env) (db : DB) (req : SignupRequest)
    (ipAddress userAgent hashedPassword : String)
    (hfresh : ∀ u ∈ db.users, u.Username ≠ req.Username ∧ u.Email ≠ req.Email)
    (hhash : env.GenerateFromPassword req.Password = .ok hashedPassword)
    (hquery : env.fault 0 = none) (hinsert : env.fault 1 = none) :
    ∃ account : User,
      AuthService.Signup env db req ipAddress userAgent
        = (.ok { User := account, Message := "Registration successful" },
            { db with users := db.users ++ [account] }) ∧
      account.Username = req.Username ∧ account.Email = req.Email ∧
      account.Status = "active" ∧ account.Password = hashedPassword ∧
      account.ID = nextID (db.users.map fun v => v.ID) :=
  ⟨_, Signup_of_fresh env db req ipAddress userAgent hashedPassword hfresh hhash hquery hinsert,
    rfl, rfl, rfl, rfl, rfl⟩

/-- The session stored by `Signin_of_match`, by its properties. -/
theorem Signin_of_match_session (env : Env) (db : DB) (req : SigninRequest)
    (ipAddress userAgent token : String) (user : User)
    (hfind : db.users.find? (fun u => u.Username == req.Username || u.Email == req.Username)
      = some user)
    (hactive : user.Status = "active")
    (hverify : env.CompareHashAndPassword user.Password req.Password = true)
    (htoken : generateToken env.rand = .ok token)
    (hnew : ∀ s ∈ db.sessions, s.Token ≠ token)
    (hquery : env.fault 0 = none) (hinsert : env.fault 1 = none) :
    ∃ session : Session,
      AuthService.Signin env db req ipAddress userAgent
        = (.ok { User := { user with Password := "" }, Session := session, Token := token,
                 Message := "Login successful" },
            { db with sessions := db.sessions ++ [session] }) ∧
      session.Token = token ∧ session.UserID = user.ID ∧ session.Status = "active" ∧
      session.ExpiresAt = env.clock 1 + 7 * (24 * Hour) := by
  refine ⟨_, Signin_of_match env db req ipAddress userAgent token user hfind hactive hverify
    htoken hnew hquery hinsert, rfl, rfl, rfl, ?_⟩
  show env.clock 1 + 24 * 7 * Hour = env.clock 1 + 7 * (24 * Hour)
  ring

/-- C14 (amended): on a database that satisfies the schema, for a username and an e-mail that
no account has, the username being moreover the e-mail of no account, with every database
call answered, a hasher whose verification accepts the hash of the plaintext and a token
generator returning a token no session carries: `Signup` succeeds; `Signin` with that username
and password succeeds and returns the token, the account with its password cleared and a
session expiring 7 days after the clock reading; `ValidateToken` on the token, before the
expiry, succeeds and returns that session and that account with an empty password; `Logout`
on the token succeeds, after which the session found by the token has status `logout`, every
later `ValidateToken` on the token fails after any sequence of operations, and a second
`Logout` succeeds, leaves the session found by the token with status `logout` and changes
nothing but the updated-at of that row. On any database, `Logout` on a token that no session
carries fails with `session does not exist` and changes nothing. -/
theorem signup_signin_validate_logout (db : DB) (hwf : db.WF) (envU envS envV envL : Env)
    (req : SignupRequest) (ipAddress userAgent hashedPassword token : String)
    (hfresh : ∀ u ∈ db.users, u.Username ≠ req.Username ∧ u.Email ≠ req.Email)
    (hshadow : ∀ u ∈ db.users, u.Email ≠ req.Username)
    (hU0 : envU.fault 0 = none) (hU1 : envU.fault 1 = none)
    (hS0 : envS.fault 0 = none) (hS1 : envS.fault 1 = none)
    (hV0 : envV.fault 0 = none) (hV2 : envV.fault 2 = none)
    (hL0 : envL.fault 0 = none) (hL1 : envL.fault 1 = none)
    (hhash : envU.GenerateFromPassword req.Password = .ok hashedPassword)
    (hverify : envS.CompareHashAndPassword hashedPassword req.Password = true)
    (htoken : generateToken envS.rand = .ok token)
    (hnew : ∀ s ∈ db.sessions, s.Token ≠ token)
    (hlive : envV.clock 0 ≤ envS.clock 1 + 7 * (24 * Hour)) :
    (∃ (account : User) (session : Session) (db1 db2 db3 db4 : DB),
      AuthService.Signup envU db req ipAddress userAgent
        = (.ok { User := account, Message := "Registration successful" }, db1) ∧
      account.Username = req.Username ∧ account.Email = req.Email ∧
      AuthService.Signin envS db1 ⟨req.Username, req.Password⟩ ipAddress userAgent
        = (.ok { User := { account with Password := "" }, Session := session, Token := token,
                 Message := "Login successful" }, db2) ∧
      session.Token = token ∧ session.UserID = account.ID ∧
      session.ExpiresAt = envS.clock 1 + 7 * (24 * Hour) ∧
      AuthService.ValidateToken envV db2 token
        = (.ok (session, { account with Password := "" }), db3) ∧
      AuthService.Logout envL db3 token = (.ok (), db4) ∧
      (∃ r, db4.sessions.find? (fun r => r.Token == token) = some r ∧ r.ID = session.ID ∧
        r.Status = "logout") ∧
      (∀ (calls : List (Env × Op)) (env : Env),
        ∃ msg, AuthService.ValidateToken env (run db4 calls) token
            = (.error msg, run db4 calls) ∧
          (env.fault 0 = none → msg = "session has expired")) ∧
      (∀ env : Env, env.fault 0 = none → env.fault 1 = none →
        AuthService.Logout env db4 token
          = (.ok (), { db4 with sessions := db4.sessions.map fun r =>
                if r.ID = session.ID then { r with UpdatedAt := env.dbClock 1 } else r }) ∧
        ∃ r, (AuthService.Logout env db4 token).2.sessions.find? (fun r => r.Token == token)
            = some r ∧ r.ID = session.ID ∧ r.Status = "logout")) ∧
    (∀ (env : Env) (d : DB) (t : String), env.fault 0 = none →
      (∀ s ∈ d.sessions, s.Token ≠ t) →
      AuthService.Logout env d t = (.error "session does not exist", d)) := by
  refine ⟨?_, fun env d t h0 hnone => Logout_of_absent env d t hnone h0⟩
  -- Signup
  obtain ⟨account, hsignup, haname, hamail, hastatus, hapw, haid⟩ :=
    Signup_of_fresh_account envU db req ipAddress userAgent hashedPassword hfresh hhash hU0 hU1
  generalize hdb1 : ({ db with users := db.users ++ [account] } : DB) = db1 at hsignup
  have hwf1 : db1.WF := by
    have := Reach_WF (Signup_reach envU db req ipAddress userAgent) hwf
    rwa [hsignup] at this
  have hu1 : db1.users = db.users ++ [account] := by rw [← hdb1]
  have hs1 : db1.sessions = db.sessions := by rw [← hdb1]
  -- Signin
  have hfind1 : db1.users.find? (fun u => u.Username == req.Username || u.Email == req.Username)
      = some account := by
    rw [hu1]
    apply find?_append_fresh
    · intro a ha
      have h1 := (hfresh a ha).1
      have h2 := hshadow a ha
      simp [h1, h2]
    · simp [haname]
  obtain ⟨session, hsignin, hstok, hsowner, hsstatus, hsexp⟩ :=
    Signin_of_match_session envS db1 ⟨req.Username, req.Password⟩ ipAddress userAgent
      token account hfind1 hastatus (by rw [hapw]; exact hverify) htoken
      (by rw [hs1]; exact hnew) hS0 hS1
  generalize hdb2 : ({ db1 with sessions := db1.sessions ++ [session] } : DB) = db2 at hsignin
  have hwf2 : db2.WF := by
    have := Reach_WF (Signin_reach envS db1 ⟨req.Username, req.Password⟩ ipAddress userAgent)
      hwf1
    rwa [hsignin] at this
  have hu2 : db2.users = db.users ++ [account] := by rw [← hdb2]; exact hu1
  have hs2 : db2.sessions = db.sessions ++ [session] := by rw [← hdb2, ← hs1]
  -- ValidateToken
  have hfind2 : db2.sessions.find? (fun r => r.Token == token) = some session := by
    rw [hs2]
    apply find?_append_fresh
    · intro a ha
      simpa using hnew a ha
    · simp [hstok]
  have hfindu : db2.users.find? (fun v => v.ID == session.UserID) = some account := by
    rw [hu2, hsowner]
    apply find?_append_fresh
    · intro a ha
      have hlt : a.ID < account.ID := by
        rw [haid]
        exact nextID_gt _ _ (List.mem_map_of_mem (fun v : User => v.ID) ha)
      simp only [beq_eq_false_iff_ne, ne_eq]
      omega
    · simp
  have hvalidate := ValidateToken_of_live envV db2 token session account hfind2 hsstatus
    (by rw [hsexp]; exact hlive) hfindu hastatus hV0 hV2
  generalize hdb3 : (sessionRepository.UpdateLastUsedAt (envV.fault 1) (envV.dbClock 1) db2
      session.ID (envV.clock 1)).2 = db3 at hvalidate
  have hreach3 : Reach db2 db3 := by
    have := ValidateToken_reach envV db2 token
    rwa [hvalidate] at this
  have hwf3 : db3.WF := Reach_WF hreach3 hwf2
  -- Logout
  obtain ⟨s3, hfind3, st, lu, up, hs3, -⟩ := Grows.find? (fun r : Session => r.Token == token)
    (by
      intro a b hab
      obtain ⟨st, lu, up, rfl, -⟩ := hab
      rfl)
    (Reach_evolves hreach3 hwf2).sessions hfind2
  have hlogout := Logout_of_found envL db3 token s3 hfind3 hL0 hL1
  have hfind4 := session_saved_found hwf3 hfind3 "logout" (envL.dbClock 1)
  generalize hdb4 : (sessionRepository.Update none (envL.dbClock 1) db3
    { s3 with Status := "logout" }).2 = db4 at hlogout hfind4
  have hwf4 : db4.WF := by
    have := Reach_WF (Logout_reach envL db3 token) hwf3
    rwa [hlogout] at this
  refine ⟨account, session, db1, db2, db3, db4, hsignup, haname, hamail, hsignin, hstok,
    hsowner, hsexp, hvalidate, hlogout, ⟨_, hfind4, ?_, rfl⟩, ?_, ?_⟩
  · rw [hs3]
  · intro calls env
    obtain ⟨r, hr, hst⟩ := closed_session_stays hwf4 calls hfind4 rfl
    exact ValidateToken_of_not_active env hr (by rw [hst]; decide)
  · intro env h0 h1
    have hid4 : ({ s3 with Status := "logout", UpdatedAt := envL.dbClock 1 } : Session).ID
        = session.ID := by rw [hs3]
    have hagain := (session_saved_again hwf4 (List.mem_of_find?_eq_some hfind4) rfl
      (env.dbClock 1)).trans (by rw [hid4])
    have hfind5 := session_saved_found hwf4 hfind4 "logout" (env.dbClock 1)
    rw [Logout_of_found env db4 token _ hfind4 h0 h1]
    refine ⟨congrArg (fun d => ((Except.ok () : Except String Unit), d)) hagain,
      _, hfind5, ?_, rfl⟩
    rw [hs3]

/-- Witness for `signup_signin_validate_logout`: `alice` signs up on the empty database, signs
in, has her token validated and logs out. -/
theorem signup_signin_validate_logout_witness :
    (∃ (account : User) (session : Session) (db1 db2 db3 db4 : DB),
      AuthService.Signup (sampleEnv 0 7) emptyDB
          ⟨"alice", "alice@x.com", "secret1", "Alice", "Liddell", ""⟩ "10.0.0.1" "curl"
        = (.ok { User := account, Message := "Registration successful" }, db1) ∧
      account.Username = "alice" ∧ account.Email = "alice@x.com" ∧
      AuthService.Signin (sampleEnv 10 7) db1 ⟨"alice", "secret1"⟩ "10.0.0.1" "curl"
        = (.ok { User := { account with Password := "" }, Session := session,
                 Token := "0707070707070707070707070707070707070707070707070707070707070707",
                 Message := "Login successful" }, db2) ∧
      session.Token = "0707070707070707070707070707070707070707070707070707070707070707" ∧
      session.UserID = account.ID ∧
      session.ExpiresAt = (sampleEnv 10 7).clock 1 + 7 * (24 * Hour) ∧
      AuthService.ValidateToken (sampleEnv 20 0) db2
          "0707070707070707070707070707070707070707070707070707070707070707"
        = (.ok (session, { account with Password := "" }), db3) ∧
      AuthService.Logout (sampleEnv 30 0) db3
          "0707070707070707070707070707070707070707070707070707070707070707" = (.ok (), db4) ∧
      (∃ r, db4.sessions.find? (fun r => r.Token
            == "0707070707070707070707070707070707070707070707070707070707070707") = some r ∧
        r.ID = session.ID ∧ r.Status = "logout") ∧
      (∀ (calls : List (Env × Op)) (env : Env),
        ∃ msg, AuthService.ValidateToken env (run db4 calls)
              "0707070707070707070707070707070707070707070707070707070707070707"
            = (.error msg, run db4 calls) ∧
          (env.fault 0 = none → msg = "session has expired")) ∧
      (∀ env : Env, env.fault 0 = none → env.fault 1 = none →
        AuthService.Logout env db4
            "0707070707070707070707070707070707070707070707070707070707070707"
          = (.ok (), { db4 with sessions := db4.sessions.map fun r =>
                if r.ID = session.ID then { r with UpdatedAt := env.dbClock 1 } else r }) ∧
        ∃ r, (AuthService.Logout env db4
              "0707070707070707070707070707070707070707070707070707070707070707").2.sessions.find?
              (fun r => r.Token
                == "0707070707070707070707070707070707070707070707070707070707070707")
            = some r ∧ r.ID = session.ID ∧ r.Status = "logout")) ∧
    (∀ (env : Env) (d : DB) (t : String), env.fault 0 = none →
      (∀ s ∈ d.sessions, s.Token ≠ t) →
      AuthService.Logout env d t = (.error "session does not exist", d)) :=
  signup_signin_validate_logout emptyDB (by decide) (sampleEnv 0 7) (sampleEnv 10 7)
    (sampleEnv 20 0) (sampleEnv 30 0) ⟨"alice", "alice@x.com", "secret1", "Alice", "Liddell", ""⟩
    "10.0.0.1" "curl" "$2a$10$secret1"
    "0707070707070707070707070707070707070707070707070707070707070707"
    (by decide) (by decide) rfl rfl rfl rfl rfl rfl rfl rfl rfl (by decide) rfl (by decide)
    (by decide)

/-! ## ForgotPassword, ResetPassword, Signin in sequence -/

/-- When the account lookup returns an account, a token is generated that no reset-token row
carries yet, and both database calls are answered, `ForgotPassword` stores one new row, owned
by that account, unused, expiring one hour after the clock reading, and returns the token. -/
theorem ForgotPassword_of_found (env : Env) (db : DB) (req : ForgotPasswordRequest)
    (user : User) (token : String)
    (hu : db.users.find? (fun u => u.Email == req.Email) = some user)
    (htoken : generateToken env.rand = .ok token)
    (hnew : ∀ t ∈ db.password_reset_tokens, t.Token ≠ token)
    (h0 : env.fault 0 = none) (h1 : env.fault 1 = none) :
    ∃ row : PasswordResetToken,
      AuthService.ForgotPassword env db req
        = (.ok token, { db with password_reset_tokens := db.password_reset_tokens ++ [row] }) ∧
      row.Token = token ∧ row.UserID = user.ID ∧ row.Used = false ∧
      row.ExpiresAt = env.clock 0 + Hour := by
  have hany : (db.password_reset_tokens.any fun t => t.Token == token) = false := by
    rw [Bool.eq_false_iff]
    intro h
    obtain ⟨r, hr, he⟩ := List.any_eq_true.1 h
    exact hnew r hr (by simpa using he)
  refine ⟨{ ID := nextID (db.password_reset_tokens.map fun t => t.ID), UserID := user.ID,
            Token := token, ExpiresAt := env.clock 0 + 1 * Hour, Used := false },
    ?_, rfl, rfl, rfl, ?_⟩
  · unfold AuthService.ForgotPassword userRepository.FindByEmail
      passwordResetTokenRepository.Create
    simp only [h0, h1, hu, htoken, hany]
    rfl
  · show env.clock 0 + 1 * Hour = env.clock 0 + Hour
    ring

theorem LogoutAll_users (env : Env) (db : DB) (userID : Nat) :
    (AuthService.LogoutAll env db userID).2.users = db.users := by
  unfold AuthService.LogoutAll sessionRepository.UpdateStatusByUserID
  cases env.fault 0 <;> rfl

theorem LogoutAll_session_tokens (env : Env) (db : DB) (userID : Nat) :
    (AuthService.LogoutAll env db userID).2.sessions.map (fun s => s.Token)
      = db.sessions.map (fun s => s.Token) := by
  unfold AuthService.LogoutAll sessionRepository.UpdateStatusByUserID
  cases env.fault 0 with
  | some e => rfl
  | none =>
    simp only
    apply map_key_congr
    intro a _
    split <;> rfl

theorem String_append_left_cancel (a x y : String) (h : a ++ x = a ++ y) : x = y := by
  have := congrArg String.data h
  rw [String.data_append, String.data_append] at this
  exact String.ext (List.append_cancel_left this)

/-- The hasher of `sampleEnv` verifies exactly the plaintext that was hashed. -/
theorem sampleEnv_verifies (now : Int) (b : Nat) (y x : String) :
    (sampleEnv now b).CompareHashAndPassword ("$2a$10$" ++ y) x = true ↔ x = y := by
  simp only [sampleEnv, beq_iff_eq]
  constructor
  · intro h
    exact (String_append_left_cancel _ _ _ h).symm
  · intro h
    rw [h]

/-- C15 (as stated, refuted): `shadowDB` is what two `Signup` calls make of the empty database;
its second account is active, with username `dave@x.com`, e-mail `d@y.com` and password
`secret4`. `ForgotPassword` for `d@y.com` returns a token and `ResetPassword` with it and
`newpass1` succeeds; but `Signin` with `dave@x.com` and `newpass1` looks up the first account,
whose e-mail is `dave@x.com`, and fails with `username or password incorrect`. -/
theorem Signin_after_reset_shadowed :
    run emptyDB
        [(sampleEnv 0 0, .signup ⟨"carol", "dave@x.com", "secret3", "", "", ""⟩ "" ""),
         (sampleEnv 0 0, .signup ⟨"dave@x.com", "d@y.com", "secret4", "", "", ""⟩ "" "")]
      = shadowDB ∧
    shadowDB.WF ∧
    AuthService.ForgotPassword (sampleEnv 0 7) shadowDB ⟨"d@y.com"⟩
      = (.ok "0707070707070707070707070707070707070707070707070707070707070707",
          (AuthService.ForgotPassword (sampleEnv 0 7) shadowDB ⟨"d@y.com"⟩).2) ∧
    (AuthService.ResetPassword (sampleEnv 10 0)
        (AuthService.ForgotPassword (sampleEnv 0 7) shadowDB ⟨"d@y.com"⟩).2
        ⟨"0707070707070707070707070707070707070707070707070707070707070707", "newpass1"⟩).1
      = .ok () ∧
    (AuthService.Signin (sampleEnv 20 8)
        (AuthService.ResetPassword (sampleEnv 10 0)
          (AuthService.ForgotPassword (sampleEnv 0 7) shadowDB ⟨"d@y.com"⟩).2
          ⟨"0707070707070707070707070707070707070707070707070707070707070707",
            "newpass1"⟩).2
        ⟨"dave@x.com", "newpass1"⟩ "10.0.0.1" "curl").1
      = .error "username or password incorrect" := by
  refine ⟨by decide, by decide, by decide, by decide, by decide⟩

/-- C15 (amended): on a database that satisfies the schema, for an active account that is the
one the lookup of its username returns, a new password `q` and any other password `p`, with
every database call answered, token generators returning tokens not yet in use and a hasher
whose verification accepts a hash of `q` exactly for `q`: `ForgotPassword` with the e-mail of
the account returns a reset token; `ResetPassword` with it and `q`, not after the expiry,
succeeds, and the account table after it is the one before it with the password of that
account replaced by the hash of `q` (username, e-mail, status, role and every other row as
before); then `Signin` with the username and `p` fails with `username or password incorrect`
and changes nothing, and `Signin` with the username and `q` succeeds for that account. -/
theorem forgot_reset_signin (db : DB) (hwf : db.WF) (account : User)
    (envF envR envS1 envS2 : Env)
    (p q resetToken sessionToken hashedPassword ipAddress userAgent : String)
    (hacc : account ∈ db.users) (hactive : account.Status = "active")
    (hlookup : db.users.find?
      (fun v => v.Username == account.Username || v.Email == account.Username) = some account)
    (hpq : p ≠ q)
    (hF0 : envF.fault 0 = none) (hF1 : envF.fault 1 = none)
    (hR0 : envR.fault 0 = none) (hR1 : envR.fault 1 = none)
    (hR2 : envR.fault 2 = none) (hR3 : envR.fault 3 = none)
    (hS10 : envS1.fault 0 = none)
    (hS20 : envS2.fault 0 = none) (hS21 : envS2.fault 1 = none)
    (hreset : generateToken envF.rand = .ok resetToken)
    (hresetnew : ∀ t ∈ db.password_reset_tokens, t.Token ≠ resetToken)
    (hhour : envR.clock 0 ≤ envF.clock 0 + Hour)
    (hhash : envR.GenerateFromPassword q = .ok hashedPassword)
    (hverify1 : ∀ x, envS1.CompareHashAndPassword hashedPassword x = true ↔ x = q)
    (hverify2 : ∀ x, envS2.CompareHashAndPassword hashedPassword x = true ↔ x = q)
    (hsession : generateToken envS2.rand = .ok sessionToken)
    (hsessionnew : ∀ s ∈ db.sessions, s.Token ≠ sessionToken) :
    ∃ (db1 db2 db3 : DB) (session : Session),
      AuthService.ForgotPassword envF db ⟨account.Email⟩ = (.ok resetToken, db1) ∧
      AuthService.ResetPassword envR db1 ⟨resetToken, q⟩ = (.ok (), db2) ∧
      db2.users = db.users.map
        (fun v => if v = account then { account with Password := hashedPassword } else v) ∧
      AuthService.Signin envS1 db2 ⟨account.Username, p⟩ ipAddress userAgent
        = (.error "username or password incorrect", db2) ∧
      AuthService.Signin envS2 db2 ⟨account.Username, q⟩ ipAddress userAgent
        = (.ok { User := { account with Password := "" }, Session := session,
                 Token := sessionToken, Message := "Login successful" }, db3) ∧
      session.UserID = account.ID ∧ session.Token = sessionToken := by
  -- ForgotPassword
  have hfindE : db.users.find? (fun u => u.Email == account.Email) = some account :=
    find?_of_mem_nodup (fun v : User => v.Email) hwf.2.2.2.2.1 hacc
  obtain ⟨row, hforgot, hrtok, hrowner, hrunused, hrexp⟩ :=
    ForgotPassword_of_found envF db ⟨account.Email⟩ account resetToken hfindE hreset hresetnew
      hF0 hF1
  generalize hdb1 : ({ db with password_reset_tokens := db.password_reset_tokens ++ [row] } : DB)
    = db1 at hforgot
  have hu1 : db1.users = db.users := by rw [← hdb1]
  have hs1 : db1.sessions = db.sessions := by rw [← hdb1]
  have ht1 : db1.password_reset_tokens = db.password_reset_tokens ++ [row] := by rw [← hdb1]
  -- ResetPassword
  have hfindT : db1.password_reset_tokens.find? (fun t => t.Token == resetToken) = some row := by
    rw [ht1]
    apply find?_append_fresh
    · intro a ha
      simpa using hresetnew a ha
    · simp [hrtok]
  have hfindU : db1.users.find? (fun v => v.ID == row.UserID) = some account := by
    rw [hu1, hrowner]
    exact find?_of_mem_nodup (fun v : User => v.ID) (hwf.1.imp (fun h => Nat.ne_of_lt h)) hacc
  have hresetok := ResetPassword_of_valid envR db1 ⟨resetToken, q⟩ row account hashedPassword
    hfindT hrunused (by rw [hrexp]; exact not_lt.2 hhour) hfindU hhash hR0 hR1 hR2 hR3
  have husers : (AuthService.LogoutAll (envR.skipFaults 4)
      (passwordResetTokenRepository.Update none
        (userRepository.Update none db1 { account with Password := hashedPassword }).2
        { row with Used := true }).2 account.ID).2.users
      = db.users.map
          (fun v => if v = account then { account with Password := hashedPassword } else v) := by
    rw [LogoutAll_users]
    have e := save_eq (fun v : User => v.ID) hwf.1 hacc { account with Password := hashedPassword }
    simp only at e
    rw [← e, ← hu1]
    rfl
  have htokens : (AuthService.LogoutAll (envR.skipFaults 4)
      (passwordResetTokenRepository.Update none
        (userRepository.Update none db1 { account with Password := hashedPassword }).2
        { row with Used := true }).2 account.ID).2.sessions.map (fun s => s.Token)
      = db.sessions.map (fun s => s.Token) := by
    rw [LogoutAll_session_tokens, ← hs1]
    rfl
  generalize hdb2 : (AuthService.LogoutAll (envR.skipFaults 4)
      (passwordResetTokenRepository.Update none
        (userRepository.Update none db1 { account with Password := hashedPassword }).2
        { row with Used := true }).2 account.ID).2 = db2 at hresetok husers htokens
  -- Signin
  have hfind2 : db2.users.find?
      (fun v => v.Username == account.Username || v.Email == account.Username)
      = some { account with Password := hashedPassword } := by
    rw [husers, List.find?_map]
    have hp : ((fun v : User => v.Username == account.Username || v.Email == account.Username) ∘
        fun v => if v = account then { account with Password := hashedPassword } else v)
        = fun v : User => v.Username == account.Username || v.Email == account.Username := by
      funext v
      simp only [Function.comp]
      split
      · subst_vars; rfl
      · rfl
    rw [hp, hlookup]
    simp
  have hnew2 : ∀ s ∈ db2.sessions, s.Token ≠ sessionToken := by
    intro s hs hc
    have hmem : s.Token ∈ db2.sessions.map (fun s => s.Token) :=
      List.mem_map_of_mem (fun s : Session => s.Token) hs
    rw [htokens] at hmem
    obtain ⟨r, hr, he⟩ := List.mem_map.1 hmem
    exact hsessionnew r hr (he.trans hc)
  have hwrong : envS1.CompareHashAndPassword hashedPassword p = false := by
    rw [Bool.eq_false_iff]
    intro h
    exact hpq ((hverify1 p).1 h)
  obtain ⟨session, hsignin, hstok, hsowner, -, -⟩ :=
    Signin_of_match_session envS2 db2 ⟨account.Username, q⟩ ipAddress userAgent sessionToken
      { account with Password := hashedPassword } hfind2 hactive ((hverify2 q).2 rfl) hsession
      hnew2 hS20 hS21
  refine ⟨db1, db2, _, session, hforgot, hresetok, husers, ?_, hsignin, hsowner, hstok⟩
  unfold AuthService.Signin userRepository.FindByUsernameOrEmail
  simp only [hS10, hfind2]
  simp [hactive, hwrong]

/-- Witness for `forgot_reset_signin`: `alice` forgets `secret1` and sets `newpass1`. -/
theorem forgot_reset_signin_witness :
    ∃ (db1 db2 db3 : DB) (session : Session),
      AuthService.ForgotPassword (sampleEnv 0 7) twoUsersDB ⟨"alice@x.com"⟩
        = (.ok "0707070707070707070707070707070707070707070707070707070707070707", db1) ∧
      AuthService.ResetPassword (sampleEnv 10 0) db1
          ⟨"0707070707070707070707070707070707070707070707070707070707070707", "newpass1"⟩
        = (.ok (), db2) ∧
      db2.users = twoUsersDB.users.map
        (fun v => if v = alice then { alice with Password := "$2a$10$newpass1" } else v) ∧
      AuthService.Signin (sampleEnv 20 8) db2 ⟨"alice", "secret1"⟩ "10.0.0.1" "curl"
        = (.error "username or password incorrect", db2) ∧
      AuthService.Signin (sampleEnv 30 8) db2 ⟨"alice", "newpass1"⟩ "10.0.0.1" "curl"
        = (.ok { User := { alice with Password := "" }, Session := session,
                 Token := "0808080808080808080808080808080808080808080808080808080808080808",
                 Message := "Login successful" }, db3) ∧
      session.UserID = alice.ID ∧
      session.Token = "0808080808080808080808080808080808080808080808080808080808080808" :=
  forgot_reset_signin twoUsersDB (by decide) alice (sampleEnv 0 7) (sampleEnv 10 0)
    (sampleEnv 20 8) (sampleEnv 30 8) "secret1" "newpass1"
    "0707070707070707070707070707070707070707070707070707070707070707"
    "0808080808080808080808080808080808080808080808080808080808080808" "$2a$10$newpass1"
    "10.0.0.1" "curl" (by decide) rfl (by decide) (by decide) rfl rfl rfl rfl rfl rfl rfl rfl rfl
    (by decide) (by decide) (by decide) rfl
    (fun x => sampleEnv_verifies 20 8 "newpass1" x)
    (fun x => sampleEnv_verifies 30 8 "newpass1" x) (by decide) (by decide)

end GoGinApi
